import Mathlib

/-!
# Lifecycle of `ros2_canopen::node_interfaces::NodeCanopenMaster`

A shallow embedding of `canopen_core/node_interfaces/node_canopen_master.hpp`.

The C++ object becomes the record `State`; every member function becomes a
computation in the monad `Exec`, which threads the object state and records how
the call ended (normal return, C++ exception, or abnormal end of the process).
A thrown exception keeps the state reached so far: C++ does not roll members back.

What the class calls but does not define is the *environment* of one invocation
(`Env`): whether a given call into the host framework, the I/O library or a
driver hook throws, and whether the `activate` hook stores a master handle. What the
host node does on its own account is part of its model (`Node`): it throws when an
option that is declared already is declared again.
Log output (`RCLCPP_DEBUG`, `RCLCPP_INFO`) is not modelled. The two threads are
sequentialised: the spinner thread runs the job posted by `deactivate` while the
caller waits in `join`, and the delivery of a signal (`deliver`) is a step of its own
that runs the handler submitted by `activate`.

The ghost field `State.trace` records every effect a member function performed,
the newest entry first; `State.history` lists them in program order. The trace
exists only to state ordering properties.
-/

namespace NodeCanopenMaster

/-! ## Errors -/

/-- Codes of `MasterErrorCode` that this class raises (declared in `master_error.hpp`). -/
inductive MasterErrorCode
  | MasterNotInitialised
  | MasterNotConfigured
  | MasterNotActivated
  | MasterNotMasterSet
  | MasterAlreadyConfigured
  | MasterAlreadyActivated
  deriving DecidableEq, Repr

/-- Exceptions that can leave a member function.
`MasterException code what` is the one the class constructs itself,
`system_error` is what `std::thread::join` throws on a thread that is not joinable,
`ParameterAlreadyDeclared name` is what the host node throws when an option that is
declared already is declared again,
`foreign e` is any other exception thrown by a hook or by a collaborator; such an
exception is never a `MasterException`. -/
inductive Exn
  | MasterException (code : MasterErrorCode) (what : String)
  | system_error
  | ParameterAlreadyDeclared (name : String)
  | foreign (e : Nat)
  deriving DecidableEq, Repr

/-- Abnormal ends that are not exceptions: `std::terminate` (move-assigning onto a
joinable `std::thread`) and dereferencing an empty smart pointer. -/
inductive Abort
  | terminate
  | null_dereference
  deriving DecidableEq, Repr

/-! ## Collaborator objects -/

/-- The external master object is known to this class only by identity. -/
abbrev Handle := Nat

/-- Signals inserted into the signal set. -/
inductive Signal
  | SIGHUP
  | SIGINT
  | SIGTERM
  deriving DecidableEq, Repr

/-- The host node, as far as this class uses it: the parameter store and the number of
callback groups created so far. `strings` and `integers` are the values the node holds
for option names: those it was started with, and those set by a declaration. The store
is typed: string options and integer options (64-bit) are kept apart, so a read at the
type of the option cannot meet a value of another type. `parameters` lists the names
that have been declared on the node, oldest first; the node refuses to declare a name a
second time. A store that rejects a declaration or a read for another reason is a fault
of that call in the environment. -/
structure Node where
  strings : List (String × String)
  integers : List (String × Int)
  parameters : List String
  callback_groups : Nat
  deriving DecidableEq, Repr

/-- Handle of a callback group returned by `create_callback_group`. -/
structure CallbackGroup where
  id : Nat
  deriving DecidableEq, Repr

/-- Result of `YAML::Load`: the parsed form of a text. -/
structure YamlNode where
  source : String
  deriving DecidableEq, Repr

/-- Model of `lely::io::IoGuard`. -/
structure IoGuard where
  deriving DecidableEq, Repr

/-- Model of `lely::io::Context`; counts the calls of `shutdown()`. -/
structure Context where
  shutdown_requests : Nat
  deriving DecidableEq, Repr

/-- Model of `lely::io::Poll`. -/
structure Poll where
  deriving DecidableEq, Repr

/-- Model of `lely::ev::Loop`. -/
structure Loop where
  deriving DecidableEq, Repr

/-- The jobs this class posts on the executor. There is one: the lambda of
`deactivate()`, lines 255-258, whose body is `ctx_->shutdown()`. -/
inductive Job
  | shutdown_context
  deriving DecidableEq, Repr

/-- Model of `lely::ev::Executor`; `posted` counts the jobs posted through it. -/
structure Executor where
  posted : Nat
  deriving DecidableEq, Repr

/-- Clock a timer is bound to. -/
inductive Clock
  | CLOCK_MONOTONIC
  deriving DecidableEq, Repr

/-- Model of `lely::io::Timer`. -/
structure Timer where
  clock : Clock
  deriving DecidableEq, Repr

/-- Model of `lely::io::CanController`: the interface name it was constructed with. -/
structure CanController where
  interface : String
  deriving DecidableEq, Repr

/-- Model of `lely::io::CanChannel`; `opened` is the interface of the controller the
channel was opened against, if any. -/
structure CanChannel where
  opened : Option String
  deriving DecidableEq, Repr

/-- Model of `lely::io::SignalSet`: the watched signals and whether a wait with the
handler of `activate` is pending. -/
structure SignalSet where
  signals : List Signal
  wait_pending : Bool
  deriving DecidableEq, Repr

/-- Model of `std::thread`: only whether it is joinable. -/
structure Thread where
  joinable : Bool
  deriving DecidableEq, Repr

/-! ## Effects and environment -/

/-- The six lifecycle hooks (the virtual overloads taking `called_from_base`). -/
inductive Hook
  | init
  | configure
  | activate
  | deactivate
  | cleanup
  | shutdown
  deriving DecidableEq, Repr

/-- The members holding I/O resources, in the order `activate` fills them. -/
inductive Resource
  | io_guard
  | ctx
  | poll
  | loop
  | exec
  | timer
  | ctrl
  | chan
  | sigset
  deriving DecidableEq, Repr

/-- Calls out of the class that may throw. -/
inductive Call
  | create_callback_group
  | declare_parameter (name : String)
  | get_parameter (name : String)
  | yaml_load
  | make (r : Resource)
  | chan_open
  | sigset_insert (sig : Signal)
  | submit_wait
  | hook (h : Hook)
  | master_reset (h : Handle)
  | thread_start
  deriving DecidableEq, Repr

/-- The four atomic flags. -/
inductive Flag
  | initialised
  | configured
  | activated
  | master_set
  deriving DecidableEq, Repr

/-- Entries of the ghost trace. `call c` is written when the call is entered,
whether or not it then throws. `post j` is written when the job `j` is posted on the
executor, `join` when `spinner_.join()` has returned. `sigset_clear` is
`sigset_->clear()` in the signal handler; `ctx_shutdown` is `ctx_->shutdown()`, in the
signal handler or in the posted job. -/
inductive Event
  | call (c : Call)
  | store (f : Flag) (v : Bool)
  | post (j : Job)
  | join
  | sigset_clear
  | ctx_shutdown
  deriving DecidableEq, Repr

/-- Environment of one invocation of a member function.
`fault c = some e` makes the call `c` throw the foreign exception `e` when reached;
`supplied = some h` makes the `activate` hook store `h` in `master_`, `none` makes it
leave `master_` as it is. Hooks have no other effect on the members.
`indeterminate` is what an uninitialised local `int` holds when it is read. -/
structure Env where
  fault : Call → Option Nat
  supplied : Option Handle
  indeterminate : Int

/-! ## Object state -/

/-- Members of `NodeCanopenMaster`, plus the ghost `trace` (newest entry first).
An empty smart pointer is `none`. -/
structure State where
  node_ : Node
  initialised_ : Bool
  configured_ : Bool
  activated_ : Bool
  master_set_ : Bool
  master_ : Option Handle
  exec_ : Option Executor
  io_guard_ : Option IoGuard
  ctx_ : Option Context
  poll_ : Option Poll
  loop_ : Option Loop
  timer_ : Option Timer
  ctrl_ : Option CanController
  chan_ : Option CanChannel
  sigset_ : Option SignalSet
  client_cbg_ : Option CallbackGroup
  timer_cbg_ : Option CallbackGroup
  config_ : YamlNode
  node_id_ : Nat
  non_transmit_timeout_ : Int
  container_name_ : String
  master_dcf_ : String
  master_bin_ : String
  can_interface_ : String
  spinner_ : Thread
  trace : List Event
  deriving DecidableEq, Repr

/-- The recorded effects in program order, oldest first. -/
def State.history (s : State) : List Event := s.trace.reverse

/-- The constructor: the four flags are false, smart pointers are empty, strings are
empty, the thread is not joinable. (`node_id_` and `non_transmit_timeout_` are left
indeterminate by the C++ constructor; they are 0 here and nothing below reads them
before `configure` has written them.) -/
def construct (node : Node) : State :=
  { node_ := node
    initialised_ := false
    configured_ := false
    activated_ := false
    master_set_ := false
    master_ := none
    exec_ := none
    io_guard_ := none
    ctx_ := none
    poll_ := none
    loop_ := none
    timer_ := none
    ctrl_ := none
    chan_ := none
    sigset_ := none
    client_cbg_ := none
    timer_cbg_ := none
    config_ := ⟨""⟩
    node_id_ := 0
    non_transmit_timeout_ := 0
    container_name_ := ""
    master_dcf_ := ""
    master_bin_ := ""
    can_interface_ := ""
    spinner_ := ⟨false⟩
    trace := [] }

/-! ## The execution monad -/

/-- How a computation ended. -/
inductive Res (α : Type)
  | ok (a : α)
  | raised (e : Exn)
  | aborted (a : Abort)
  deriving DecidableEq, Repr

/-- A member function body: from the state before to the way it ended and the state after. -/
def Exec (α : Type) : Type := State → Res α × State

/-- Normal completion with a value. -/
def Exec.pure {α : Type} (a : α) : Exec α := fun s => (Res.ok a, s)

/-- Sequencing: the continuation runs only after a normal completion. -/
def Exec.bind {α β : Type} (m : Exec α) (f : α → Exec β) : Exec β := fun s =>
  match m s with
  | (Res.ok a, s1) => f a s1
  | (Res.raised e, s1) => (Res.raised e, s1)
  | (Res.aborted a, s1) => (Res.aborted a, s1)

instance : Monad Exec where
  pure := Exec.pure
  bind := Exec.bind

/-- Read the object. -/
def read : Exec State := fun s => (Res.ok s, s)

/-- Assign to members. -/
def modify (f : State → State) : Exec Unit := fun s => (Res.ok (), f s)

/-- The C++ throw statement. -/
def raise {α : Type} (e : Exn) : Exec α := fun s => (Res.raised e, s)

/-- Abnormal end of the process. -/
def abort {α : Type} (a : Abort) : Exec α := fun s => (Res.aborted a, s)

/-- Record an entry in the ghost trace. -/
def emit (ev : Event) : Exec Unit :=
  modify fun s => { s with trace := ev :: s.trace }

/-- Enter the outside call `c`: it is recorded, and it throws if the environment says so. -/
def call (env : Env) (c : Call) : Exec Unit := do
  emit (Event.call c)
  match env.fault c with
  | some e => raise (Exn.foreign e)
  | none => Exec.pure ()

/-- Atomic store into one of the four flags. -/
def store (f : Flag) (v : Bool) : Exec Unit := do
  emit (Event.store f v)
  match f with
  | Flag.initialised => modify fun s => { s with initialised_ := v }
  | Flag.configured => modify fun s => { s with configured_ := v }
  | Flag.activated => modify fun s => { s with activated_ := v }
  | Flag.master_set => modify fun s => { s with master_set_ := v }

/-- The outcome of a member function returning nothing. -/
structure Outcome where
  exit : Res Unit
  state : State
  deriving DecidableEq, Repr

/-- Run a member function on an object. -/
def Exec.run (m : Exec Unit) (s : State) : Outcome :=
  ⟨(m s).1, (m s).2⟩

/-- Dereference of a smart pointer. -/
def deref {α : Type} (p : Option α) : Exec α :=
  match p with
  | some a => Exec.pure a
  | none => abort Abort.null_dereference

/-! ## The host node -/

/-- Whether the option `name` has been declared on the node. -/
def Node.has_parameter (n : Node) (name : String) : Bool :=
  n.parameters.contains name

/-- The node once the string option `name` has been declared with the default `dflt`:
the name is recorded as declared; when the node was started with a value for the name
that value stands, otherwise the option takes the default. -/
def Node.with_string (n : Node) (name : String) (dflt : String) : Node :=
  match n.strings.lookup name with
  | some _ => { n with parameters := n.parameters ++ [name] }
  | none => { n with strings := n.strings ++ [(name, dflt)], parameters := n.parameters ++ [name] }

/-- The node once the integer option `name` has been declared with the default `dflt`. -/
def Node.with_integer (n : Node) (name : String) (dflt : Int) : Node :=
  match n.integers.lookup name with
  | some _ => { n with parameters := n.parameters ++ [name] }
  | none => { n with integers := n.integers ++ [(name, dflt)], parameters := n.parameters ++ [name] }

/-- Declare-with-default of a string option. A name that is declared already is refused
(`none`): rclcpp throws `ParameterAlreadyDeclaredException`. -/
def Node.declare_string (n : Node) (name : String) (dflt : String) : Option Node :=
  if n.has_parameter name then none else some (n.with_string name dflt)

/-- Declare-with-default of an integer option; a name that is declared already is
refused. -/
def Node.declare_integer (n : Node) (name : String) (dflt : Int) : Option Node :=
  if n.has_parameter name then none else some (n.with_integer name dflt)

/-- Typed read of a string option into a variable holding `cur`: the variable keeps its
content when the node holds no value for the option. (`configure` reads only after a
successful `init`, which has declared the seven options, each with a value.) -/
def Node.get_string (n : Node) (name : String) (cur : String) : String :=
  (n.strings.lookup name).getD cur

/-- Typed read of an integer option into a variable holding `cur`. -/
def Node.get_integer (n : Node) (name : String) (cur : Int) : Int :=
  (n.integers.lookup name).getD cur

/-- Conversion of a stored integer to `uint8_t`. -/
def to_uint8 (v : Int) : Nat := (v % 256).toNat

/-- Conversion of a stored integer to a 32-bit `int`. -/
def to_int32 (v : Int) : Int := (v + 2147483648) % 4294967296 - 2147483648

/-- Model of `node_->create_callback_group(MutuallyExclusive)`. -/
def create_callback_group (env : Env) : Exec CallbackGroup := do
  call env Call.create_callback_group
  let s ← read
  modify fun s => { s with node_ := { s.node_ with callback_groups := s.node_.callback_groups + 1 } }
  Exec.pure ⟨s.node_.callback_groups⟩

/-- Model of `node_->declare_parameter(name, default)` with a string default: the call
throws when the node refuses the declaration. -/
def declare_parameter_string (env : Env) (name : String) (dflt : String) : Exec Unit := do
  call env (Call.declare_parameter name)
  match (← read).node_.declare_string name dflt with
  | none => raise (Exn.ParameterAlreadyDeclared name)
  | some node => modify fun s => { s with node_ := node }

/-- Model of `node_->declare_parameter(name, default)` with an integer default. -/
def declare_parameter_integer (env : Env) (name : String) (dflt : Int) : Exec Unit := do
  call env (Call.declare_parameter name)
  match (← read).node_.declare_integer name dflt with
  | none => raise (Exn.ParameterAlreadyDeclared name)
  | some node => modify fun s => { s with node_ := node }

/-- Model of `node_->get_parameter(name, var)` for a `std::string` variable holding `cur`:
the new content of the variable. -/
def get_parameter_string (env : Env) (name : String) (cur : String) : Exec String := do
  call env (Call.get_parameter name)
  let s ← read
  Exec.pure (s.node_.get_string name cur)

/-- Model of `node_->get_parameter(name, var)` for an integral variable holding `cur`:
the stored 64-bit integer, to be converted by the caller to the type of the variable. -/
def get_parameter_integer (env : Env) (name : String) (cur : Int) : Exec Int := do
  call env (Call.get_parameter name)
  let s ← read
  Exec.pure (s.node_.get_integer name cur)

/-- The content of `master_` after the `activate` hook has returned: the handle the hook
supplied, or what was there before when it supplied none. -/
def stored_master (env : Env) (s : State) : Option Handle :=
  match env.supplied with
  | some h => some h
  | none => s.master_

/-- The driver hook `activate(true)`: it may throw, and it may store a master handle
in `master_`. -/
def hook_activate (env : Env) : Exec Unit := do
  call env (Call.hook Hook.activate)
  modify fun s => { s with master_ := stored_master env s }

/-! ## Member functions -/

/-- Embedding of `init()`, lines 80-104. -/
def init (env : Env) : Exec Unit := do
  if (← read).configured_ then
    raise (Exn.MasterException MasterErrorCode.MasterAlreadyConfigured "Init")
  if (← read).activated_ then
    raise (Exn.MasterException MasterErrorCode.MasterAlreadyActivated "Init")
  let g1 ← create_callback_group env
  modify fun s => { s with client_cbg_ := some g1 }
  let g2 ← create_callback_group env
  modify fun s => { s with timer_cbg_ := some g2 }
  declare_parameter_string env "container_name" ""
  declare_parameter_string env "master_dcf" ""
  declare_parameter_string env "master_bin" ""
  declare_parameter_string env "can_interface" "vcan0"
  declare_parameter_integer env "node_id" 0
  declare_parameter_integer env "non_transmit_timeout" 100
  declare_parameter_string env "config" ""
  call env (Call.hook Hook.init)
  store Flag.initialised true

/-- Embedding of `configure()`, lines 116-147. -/
def configure (env : Env) : Exec Unit := do
  if !(← read).initialised_ then
    raise (Exn.MasterException MasterErrorCode.MasterNotInitialised "Configure")
  if (← read).configured_ then
    raise (Exn.MasterException MasterErrorCode.MasterAlreadyConfigured "Configure")
  if (← read).activated_ then
    raise (Exn.MasterException MasterErrorCode.MasterAlreadyActivated "Configure")
  let v1 ← get_parameter_string env "container_name" (← read).container_name_
  modify fun s => { s with container_name_ := v1 }
  let v2 ← get_parameter_string env "master_dcf" (← read).master_dcf_
  modify fun s => { s with master_dcf_ := v2 }
  let v3 ← get_parameter_string env "master_bin" (← read).master_bin_
  modify fun s => { s with master_bin_ := v3 }
  let v4 ← get_parameter_string env "can_interface" (← read).can_interface_
  modify fun s => { s with can_interface_ := v4 }
  let v5 ← get_parameter_integer env "node_id" (← read).node_id_
  modify fun s => { s with node_id_ := to_uint8 v5 }
  let non_transmit_timeout ← get_parameter_integer env "non_transmit_timeout" env.indeterminate
  let config ← get_parameter_string env "config" ""
  call env Call.yaml_load
  modify fun s => { s with config_ := ⟨config⟩ }
  modify fun s => { s with non_transmit_timeout_ := to_int32 non_transmit_timeout }
  call env (Call.hook Hook.configure)
  store Flag.configured true

/-- Lines 176-201 of `activate()`: the I/O resources are created in order, the channel
is opened, the three signals are inserted and the wait is submitted. Every step can
throw; what was assigned before stays assigned. -/
def acquire_resources (env : Env) : Exec Unit := do
  call env (Call.make Resource.io_guard)
  modify fun s => { s with io_guard_ := some {} }
  call env (Call.make Resource.ctx)
  modify fun s => { s with ctx_ := some ⟨0⟩ }
  let _ ← deref (← read).ctx_
  call env (Call.make Resource.poll)
  modify fun s => { s with poll_ := some {} }
  let _ ← deref (← read).poll_
  call env (Call.make Resource.loop)
  modify fun s => { s with loop_ := some {} }
  let _ ← deref (← read).loop_
  call env (Call.make Resource.exec)
  modify fun s => { s with exec_ := some ⟨0⟩ }
  let _ ← deref (← read).poll_
  let _ ← deref (← read).exec_
  call env (Call.make Resource.timer)
  modify fun s => { s with timer_ := some ⟨Clock.CLOCK_MONOTONIC⟩ }
  call env (Call.make Resource.ctrl)
  modify fun s => { s with ctrl_ := some ⟨s.can_interface_⟩ }
  let _ ← deref (← read).poll_
  let _ ← deref (← read).exec_
  call env (Call.make Resource.chan)
  modify fun s => { s with chan_ := some ⟨none⟩ }
  let chan ← deref (← read).chan_
  let ctrl ← deref (← read).ctrl_
  call env Call.chan_open
  modify fun s => { s with chan_ := some { chan with opened := some ctrl.interface } }
  let _ ← deref (← read).poll_
  let _ ← deref (← read).exec_
  call env (Call.make Resource.sigset)
  modify fun s => { s with sigset_ := some ⟨[], false⟩ }
  let sig0 ← deref (← read).sigset_
  call env (Call.sigset_insert Signal.SIGHUP)
  modify fun s => { s with sigset_ := some { sig0 with signals := sig0.signals ++ [Signal.SIGHUP] } }
  let sig1 ← deref (← read).sigset_
  call env (Call.sigset_insert Signal.SIGINT)
  modify fun s => { s with sigset_ := some { sig1 with signals := sig1.signals ++ [Signal.SIGINT] } }
  let sig2 ← deref (← read).sigset_
  call env (Call.sigset_insert Signal.SIGTERM)
  modify fun s => { s with sigset_ := some { sig2 with signals := sig2.signals ++ [Signal.SIGTERM] } }
  let sig3 ← deref (← read).sigset_
  call env Call.submit_wait
  modify fun s => { s with sigset_ := some { sig3 with wait_pending := true } }

/-- Lines 203-216 of `activate()`: the hook runs, the handle it must have left in
`master_` is checked, `master_set_` is stored, the master is reset, the spinner thread
is started and assigned to `spinner_`, `activated_` is stored. -/
def finish_activation (env : Env) : Exec Unit := do
  hook_activate env
  if (← read).master_.isNone then
    raise (Exn.MasterException MasterErrorCode.MasterNotMasterSet "activate")
  store Flag.master_set true
  let master ← deref (← read).master_
  call env (Call.master_reset master)
  call env Call.thread_start
  if (← read).spinner_.joinable then
    abort Abort.terminate
  modify fun s => { s with spinner_ := ⟨true⟩ }
  store Flag.activated true

/-- Embedding of `activate()`, lines 160-218: the three guards, then
`acquire_resources`, then `finish_activation`. -/
def activate (env : Env) : Exec Unit := do
  if !(← read).initialised_ then
    raise (Exn.MasterException MasterErrorCode.MasterNotInitialised "Activate")
  if !(← read).configured_ then
    raise (Exn.MasterException MasterErrorCode.MasterNotConfigured "Activate")
  if (← read).activated_ then
    raise (Exn.MasterException MasterErrorCode.MasterAlreadyActivated "Activate")
  acquire_resources env
  finish_activation env

/-- The body of a posted job, run by the spinner thread. The lambda of lines 255-258
captures the object by reference, so it works on `ctx_` as it is when it runs. -/
def Job.run (j : Job) : Exec Unit :=
  match j with
  | Job.shutdown_context => do
    let ctx ← deref (← read).ctx_
    emit Event.ctx_shutdown
    modify fun s => { s with ctx_ := some { ctx with shutdown_requests := ctx.shutdown_requests + 1 } }

/-- Embedding of `deactivate()`, lines 239-264. The job is posted on the executor;
`join` throws when there is no thread to wait for; otherwise the spinner thread, which
runs the loop of the executor, runs the posted job and ends, and `join` returns with
the thread no longer joinable. -/
def deactivate (env : Env) : Exec Unit := do
  if !(← read).initialised_ then
    raise (Exn.MasterException MasterErrorCode.MasterNotInitialised "Deactivate")
  if !(← read).configured_ then
    raise (Exn.MasterException MasterErrorCode.MasterNotConfigured "Deactivate")
  if !(← read).activated_ then
    raise (Exn.MasterException MasterErrorCode.MasterNotActivated "Deactivate")
  let exec ← deref (← read).exec_
  emit (Event.post Job.shutdown_context)
  modify fun s => { s with exec_ := some { exec with posted := exec.posted + 1 } }
  if !(← read).spinner_.joinable then
    raise Exn.system_error
  Job.run Job.shutdown_context
  emit Event.join
  modify fun s => { s with spinner_ := ⟨false⟩ }
  call env (Call.hook Hook.deactivate)
  store Flag.activated false

/-- Embedding of `cleanup()`, lines 285-301. -/
def cleanup (env : Env) : Exec Unit := do
  if !(← read).initialised_ then
    raise (Exn.MasterException MasterErrorCode.MasterNotInitialised "Cleanup")
  if !(← read).configured_ then
    raise (Exn.MasterException MasterErrorCode.MasterNotConfigured "Cleanup")
  if (← read).activated_ then
    raise (Exn.MasterException MasterErrorCode.MasterAlreadyActivated "Cleanup")
  call env (Call.hook Hook.cleanup)
  store Flag.configured false

/-- Embedding of `shutdown()`, lines 312-330. -/
def shutdown (env : Env) : Exec Unit := do
  if (← read).activated_ then
    deactivate env
  if (← read).configured_ then
    cleanup env
  call env (Call.hook Hook.shutdown)
  store Flag.master_set false
  store Flag.initialised false
  store Flag.configured false
  store Flag.activated false

/-- Embedding of `get_master()`, lines 340-347. -/
def get_master : Exec (Option Handle) := do
  if !(← read).master_set_ then
    raise (Exn.MasterException MasterErrorCode.MasterNotMasterSet "get_master")
  Exec.pure (← read).master_

/-- Embedding of `get_executor()`, lines 353-360. -/
def get_executor : Exec (Option Executor) := do
  if !(← read).master_set_ then
    raise (Exn.MasterException MasterErrorCode.MasterNotMasterSet "get_executor")
  Exec.pure (← read).exec_

/-- The handler given to `sigset_->submit_wait` in `activate()`, lines 194-201: it
clears the signal set, then asks the context to shut down. The lambda captures the
object by reference, so it works on the members as they are when it runs. -/
def signal_handler : Exec Unit := do
  let sigset ← deref (← read).sigset_
  emit Event.sigset_clear
  modify fun s => { s with sigset_ := some { sigset with signals := [] } }
  let ctx ← deref (← read).ctx_
  emit Event.ctx_shutdown
  modify fun s => { s with ctx_ := some { ctx with shutdown_requests := ctx.shutdown_requests + 1 } }

/-- Delivery of the signal `sig` to the process, as seen by the signal set: when a wait
is pending and `sig` is in the set, the wait completes and its handler runs; otherwise
nothing happens to the object. Whether the library leaves a completed wait armed is the
parameter `rearm` (the handler is submitted once, by `activate`). -/
def deliver (rearm : Bool) (sig : Signal) : Exec Unit := do
  match (← read).sigset_ with
  | none => Exec.pure ()
  | some sigset =>
    if sigset.wait_pending && sigset.signals.contains sig then do
      modify fun s => { s with sigset_ := some { sigset with wait_pending := rearm } }
      signal_handler
    else
      Exec.pure ()

/-- Delivery of a sequence of signals, one after the other. -/
def deliver_all (rearm : Bool) (sigs : List Signal) : Exec Unit :=
  match sigs with
  | [] => Exec.pure ()
  | sig :: rest => do
    deliver rearm sig
    deliver_all rearm rest

/-- The six lifecycle operations. -/
inductive Op
  | init
  | configure
  | activate
  | deactivate
  | cleanup
  | shutdown
  deriving DecidableEq, Repr

/-- The member function of an operation. -/
def body (op : Op) (env : Env) : Exec Unit :=
  match op with
  | Op.init => init env
  | Op.configure => configure env
  | Op.activate => activate env
  | Op.deactivate => deactivate env
  | Op.cleanup => cleanup env
  | Op.shutdown => shutdown env

/-- One lifecycle call on an object. -/
def perform (op : Op) (env : Env) (s : State) : Outcome :=
  (body op env).run s

/-- The hook an operation enters. -/
def hook_of (op : Op) : Hook :=
  match op with
  | Op.init => Hook.init
  | Op.configure => Hook.configure
  | Op.activate => Hook.activate
  | Op.deactivate => Hook.deactivate
  | Op.cleanup => Hook.cleanup
  | Op.shutdown => Hook.shutdown

/-- An environment in which no call throws; the `activate` hook stores `supplied`. -/
def Env.calm (supplied : Option Handle) : Env :=
  { fault := fun _ => none, supplied := supplied, indeterminate := 0 }

/-! ## Vocabulary of the specification -/

/-- The four state flags, in the order initialised, configured, activated, master_set. -/
def flags (s : State) : Bool × Bool × Bool × Bool :=
  (s.initialised_, s.configured_, s.activated_, s.master_set_)

/-- The precondition table of the specification (section 4.1), read on the flags. -/
def precondition (op : Op) (s : State) : Bool :=
  match op with
  | Op.init => !s.configured_ && !s.activated_
  | Op.configure => s.initialised_ && !s.configured_ && !s.activated_
  | Op.activate => s.initialised_ && s.configured_ && !s.activated_
  | Op.deactivate => s.initialised_ && s.configured_ && s.activated_
  | Op.cleanup => s.initialised_ && s.configured_ && !s.activated_
  | Op.shutdown => true

/-- The documented error of an operation in a state: the code of the first violated
condition, the conditions being taken in the order initialised, configured, activated;
`none` when no condition is violated. -/
def first_violation (op : Op) (s : State) : Option MasterErrorCode :=
  match op with
  | Op.init =>
    if s.configured_ then some MasterErrorCode.MasterAlreadyConfigured
    else if s.activated_ then some MasterErrorCode.MasterAlreadyActivated
    else none
  | Op.configure =>
    if !s.initialised_ then some MasterErrorCode.MasterNotInitialised
    else if s.configured_ then some MasterErrorCode.MasterAlreadyConfigured
    else if s.activated_ then some MasterErrorCode.MasterAlreadyActivated
    else none
  | Op.activate =>
    if !s.initialised_ then some MasterErrorCode.MasterNotInitialised
    else if !s.configured_ then some MasterErrorCode.MasterNotConfigured
    else if s.activated_ then some MasterErrorCode.MasterAlreadyActivated
    else none
  | Op.deactivate =>
    if !s.initialised_ then some MasterErrorCode.MasterNotInitialised
    else if !s.configured_ then some MasterErrorCode.MasterNotConfigured
    else if !s.activated_ then some MasterErrorCode.MasterNotActivated
    else none
  | Op.cleanup =>
    if !s.initialised_ then some MasterErrorCode.MasterNotInitialised
    else if !s.configured_ then some MasterErrorCode.MasterNotConfigured
    else if s.activated_ then some MasterErrorCode.MasterAlreadyActivated
    else none
  | Op.shutdown => none

/-- The sequencing errors: every code of the taxonomy but `MasterNotMasterSet`. -/
def MasterErrorCode.sequencing (c : MasterErrorCode) : Bool :=
  match c with
  | MasterErrorCode.MasterNotMasterSet => false
  | _ => true

/-- The lifecycle states of the specification (section 3). -/
inductive LifecycleState
  | Uninitialized
  | Initialized
  | Configured
  | Activated
  deriving DecidableEq, Repr

/-- Position of a lifecycle state in the linear order. -/
def LifecycleState.level (l : LifecycleState) : Nat :=
  match l with
  | LifecycleState.Uninitialized => 0
  | LifecycleState.Initialized => 1
  | LifecycleState.Configured => 2
  | LifecycleState.Activated => 3

/-- The lifecycle state shown by the flags: the highest stage whose flag is set. -/
def lifecycle_state (s : State) : LifecycleState :=
  if s.activated_ then LifecycleState.Activated
  else if s.configured_ then LifecycleState.Configured
  else if s.initialised_ then LifecycleState.Initialized
  else LifecycleState.Uninitialized

/-- All nine resource handles filled by `activate` are non-empty. -/
def resources_held (s : State) : Bool :=
  s.io_guard_.isSome && s.ctx_.isSome && s.poll_.isSome && s.loop_.isSome && s.exec_.isSome
    && s.timer_.isSome && s.ctrl_.isSome && s.chan_.isSome && s.sigset_.isSome

/-- All nine resource handles are empty. -/
def resources_empty (s : State) : Bool :=
  s.io_guard_.isNone && s.ctx_.isNone && s.poll_.isNone && s.loop_.isNone && s.exec_.isNone
    && s.timer_.isNone && s.ctrl_.isNone && s.chan_.isNone && s.sigset_.isNone

/-- No call out of the class throws in this invocation. -/
def Env.no_fault (env : Env) : Prop := ∀ c, env.fault c = none

/-- In this invocation the hook `h` throws `e` and no other call throws. -/
def Env.only_hook_throws (env : Env) (h : Hook) (e : Nat) : Prop :=
  env.fault (Call.hook h) = some e ∧ ∀ c, c ≠ Call.hook h → env.fault c = none

/-- No hook throws in this invocation (other collaborators may). -/
def Env.hooks_return (env : Env) : Prop := ∀ h, env.fault (Call.hook h) = none

/-- A sequence of lifecycle calls, each with its environment: the way each call ended,
and the object after the last one. -/
def run_calls (calls : List (Op × Env)) (s : State) : List (Res Unit) × State :=
  match calls with
  | [] => ([], s)
  | (op, env) :: rest =>
    let o := perform op env s
    let r := run_calls rest o.state
    (o.exit :: r.1, r.2)

/-- The sequence init, configure, activate, deactivate, cleanup, the k-th call being
made in the environment `envs k`. -/
def cycle (envs : Fin 5 → Env) : List (Op × Env) :=
  [(Op.init, envs 0), (Op.configure, envs 1), (Op.activate, envs 2),
   (Op.deactivate, envs 3), (Op.cleanup, envs 4)]

/-- The cycle repeated `n` times, repetition `i` using the environments `envs i`. -/
def cycles (envs : Nat → Fin 5 → Env) (n : Nat) : List (Op × Env) :=
  match n with
  | 0 => []
  | k + 1 => cycles envs k ++ cycle (envs k)

/-- How the five calls of a repetition of the cycle end when the options are declared
already: `init` is refused the declaration of its first option, the other four return. -/
def repeated_cycle_exits : List (Res Unit) :=
  [Res.raised (Exn.ParameterAlreadyDeclared "container_name"), Res.ok (), Res.ok (), Res.ok (),
   Res.ok ()]

/-- How the 5n calls of n repetitions of the cycle end on a fresh object: all five calls
of the first repetition return, every later repetition ends as `repeated_cycle_exits`. -/
def cycles_exits (n : Nat) : List (Res Unit) :=
  match n with
  | 0 => []
  | 1 => List.replicate 5 (Res.ok ())
  | k + 2 => cycles_exits (k + 1) ++ repeated_cycle_exits

/-- States an object on the node `node` can be in between lifecycle calls, when every
call is made in an environment satisfying `good`. Calls that raise are included, with
the state they leave behind. -/
inductive Reachable (good : Env → Prop) (node : Node) : State → Prop
  | start : Reachable good node (construct node)
  | call (op : Op) (env : Env) (s : State) :
      Reachable good node s → good env → Reachable good node (perform op env s).state

/-- The trace entries of `acquire_resources` when no step throws, in program order. -/
def acquire_trace : List Event :=
  [Event.call (Call.make Resource.io_guard), Event.call (Call.make Resource.ctx),
   Event.call (Call.make Resource.poll), Event.call (Call.make Resource.loop),
   Event.call (Call.make Resource.exec), Event.call (Call.make Resource.timer),
   Event.call (Call.make Resource.ctrl), Event.call (Call.make Resource.chan),
   Event.call Call.chan_open, Event.call (Call.make Resource.sigset),
   Event.call (Call.sigset_insert Signal.SIGHUP),
   Event.call (Call.sigset_insert Signal.SIGINT),
   Event.call (Call.sigset_insert Signal.SIGTERM), Event.call Call.submit_wait]

/-- The state `acquire_resources` leaves when no step throws. -/
def acquired (s : State) : State :=
  { s with
    io_guard_ := some {}
    ctx_ := some ⟨0⟩
    poll_ := some {}
    loop_ := some {}
    exec_ := some ⟨0⟩
    timer_ := some ⟨Clock.CLOCK_MONOTONIC⟩
    ctrl_ := some ⟨s.can_interface_⟩
    chan_ := some ⟨some s.can_interface_⟩
    sigset_ := some ⟨[Signal.SIGHUP, Signal.SIGINT, Signal.SIGTERM], true⟩
    trace := acquire_trace.reverse ++ s.trace }

/-- The trace entries of `finish_activation` when nothing throws and the master handle
in `master_` is `h`, in program order. -/
def finish_trace (h : Handle) : List Event :=
  [Event.call (Call.hook Hook.activate), Event.store Flag.master_set true,
   Event.call (Call.master_reset h), Event.call Call.thread_start,
   Event.store Flag.activated true]

/-- The trace entries of a successful `deactivate`, in program order: the job is
posted, the spinner thread runs it, the thread is joined, the hook is entered, the flag
is stored. -/
def deactivate_trace : List Event :=
  [Event.post Job.shutdown_context, Event.ctx_shutdown, Event.join,
   Event.call (Call.hook Hook.deactivate), Event.store Flag.activated false]

/-- The trace entries of a successful `cleanup`, in program order. -/
def cleanup_trace : List Event :=
  [Event.call (Call.hook Hook.cleanup), Event.store Flag.configured false]

/-- The trace entries of the last part of `shutdown`, in program order. -/
def shutdown_trace : List Event :=
  [Event.call (Call.hook Hook.shutdown), Event.store Flag.master_set false,
   Event.store Flag.initialised false, Event.store Flag.configured false,
   Event.store Flag.activated false]

/-- What holds of the members between lifecycle calls, whatever the environments were:
the flags are nested (activated implies configured implies initialised), activated
implies master_set, master_set implies that the master handle and the executor are
non-empty, activated implies that all nine resources are held, and a joinable spinner
implies activated. -/
def invariant (s : State) : Prop :=
  (s.activated_ = true → s.configured_ = true)
  ∧ (s.configured_ = true → s.initialised_ = true)
  ∧ (s.activated_ = true → s.master_set_ = true)
  ∧ (s.master_set_ = true → s.master_.isSome = true ∧ s.exec_.isSome = true)
  ∧ (s.activated_ = true → resources_held s = true)
  ∧ (s.spinner_.joinable = true → s.activated_ = true)

/-- Together with the invariant: while activated, the spinner thread is joinable. This
holds between calls as long as no hook throws. -/
def spinner_matches (s : State) : Prop :=
  s.activated_ = true → s.spinner_.joinable = true

/-- The node after the two callback groups and the seven declarations of `init`. -/
def declared (n : Node) : Node :=
  ((((((({ n with callback_groups := n.callback_groups + 1 + 1 } : Node).with_string
    "container_name" "").with_string "master_dcf" "").with_string "master_bin" "").with_string
    "can_interface" "vcan0").with_integer "node_id" 0).with_integer
    "non_transmit_timeout" 100).with_string "config" ""

/-- The seven options `init` declares, in the order of lines 94-100. -/
def option_names : List String :=
  ["container_name", "master_dcf", "master_bin", "can_interface", "node_id",
   "non_transmit_timeout", "config"]

/-- None of the options of `init` is declared on the node. -/
def Node.undeclared (n : Node) : Prop :=
  ∀ name, name ∈ option_names → n.has_parameter name = false

instance (n : Node) : Decidable n.undeclared := by
  unfold Node.undeclared
  infer_instance

/-- All the options of `init` are declared on the node. -/
def Node.all_declared (n : Node) : Prop :=
  ∀ name, name ∈ option_names → n.has_parameter name = true

instance (n : Node) : Decidable n.all_declared := by
  unfold Node.all_declared
  infer_instance

/-- The trace entries of a successful `init`, in program order. -/
def init_trace : List Event :=
  [Event.call Call.create_callback_group, Event.call Call.create_callback_group,
   Event.call (Call.declare_parameter "container_name"),
   Event.call (Call.declare_parameter "master_dcf"),
   Event.call (Call.declare_parameter "master_bin"),
   Event.call (Call.declare_parameter "can_interface"),
   Event.call (Call.declare_parameter "node_id"),
   Event.call (Call.declare_parameter "non_transmit_timeout"),
   Event.call (Call.declare_parameter "config"),
   Event.call (Call.hook Hook.init), Event.store Flag.initialised true]

/-- The trace entries of a successful `configure`, in program order. -/
def configure_trace : List Event :=
  [Event.call (Call.get_parameter "container_name"),
   Event.call (Call.get_parameter "master_dcf"),
   Event.call (Call.get_parameter "master_bin"),
   Event.call (Call.get_parameter "can_interface"),
   Event.call (Call.get_parameter "node_id"),
   Event.call (Call.get_parameter "non_transmit_timeout"),
   Event.call (Call.get_parameter "config"),
   Event.call Call.yaml_load,
   Event.call (Call.hook Hook.configure), Event.store Flag.configured true]

/-- The one-step transition of the lifecycle that the specification attaches to an
operation; `shutdown` has none. -/
def step_of (op : Op) : Option (LifecycleState × LifecycleState) :=
  match op with
  | Op.init => some (LifecycleState.Uninitialized, LifecycleState.Initialized)
  | Op.configure => some (LifecycleState.Initialized, LifecycleState.Configured)
  | Op.activate => some (LifecycleState.Configured, LifecycleState.Activated)
  | Op.deactivate => some (LifecycleState.Activated, LifecycleState.Configured)
  | Op.cleanup => some (LifecycleState.Configured, LifecycleState.Initialized)
  | Op.shutdown => none

/-- A fresh object on a node with an empty parameter store. -/
def fresh : State := construct ⟨[], [], [], 0⟩

/-- The object after init, configure, activate (the hook supplying the handle 7) and
deactivate on a fresh object, nothing throwing. -/
def example_deactivated : State :=
  (perform Op.deactivate (Env.calm none)
    (perform Op.activate (Env.calm (some 7))
      (perform Op.configure (Env.calm none)
        (perform Op.init (Env.calm none) fresh).state).state).state).state

/-- The object after init and configure on a node whose store holds
`can_interface = "vcan0"`, `node_id = 5` and `non_transmit_timeout = 100`. -/
def example_configured : State :=
  (perform Op.configure (Env.calm none)
    (perform Op.init (Env.calm none)
      (construct ⟨[("can_interface", "vcan0")],
        [("node_id", 5), ("non_transmit_timeout", 100)], [], 0⟩)).state).state

/-! ## Weakest preconditions -/

/-- The postcondition `Q` holds of the way `m` ends from `s` and of the state it leaves. -/
def wp {α : Type} (m : Exec α) (Q : Res α → State → Prop) (s : State) : Prop :=
  Q (m s).1 (m s).2

/-! ## Rules of the weakest-precondition calculus -/

@[simp]
theorem wp_pure {α : Type} (a : α) (Q : Res α → State → Prop) (s : State) :
    wp (Pure.pure a) Q s = Q (Res.ok a) s := rfl

@[simp]
theorem wp_exec_pure {α : Type} (a : α) (Q : Res α → State → Prop) (s : State) :
    wp (Exec.pure a) Q s = Q (Res.ok a) s := rfl

@[simp]
theorem wp_bind {α β : Type} (m : Exec α) (f : α → Exec β) (Q : Res β → State → Prop)
    (s : State) :
    wp (m >>= f) Q s =
      wp m (fun r s1 => match r with
        | Res.ok a => wp (f a) Q s1
        | Res.raised e => Q (Res.raised e) s1
        | Res.aborted a => Q (Res.aborted a) s1) s := by
  show wp (Exec.bind m f) Q s = _
  unfold wp Exec.bind
  rcases m s with ⟨r, s1⟩
  cases r <;> rfl

@[simp]
theorem wp_read (Q : Res State → State → Prop) (s : State) :
    wp read Q s = Q (Res.ok s) s := rfl

@[simp]
theorem wp_modify (f : State → State) (Q : Res Unit → State → Prop) (s : State) :
    wp (modify f) Q s = Q (Res.ok ()) (f s) := rfl

@[simp]
theorem wp_raise {α : Type} (e : Exn) (Q : Res α → State → Prop) (s : State) :
    wp (raise e) Q s = Q (Res.raised e) s := rfl

@[simp]
theorem wp_abort {α : Type} (a : Abort) (Q : Res α → State → Prop) (s : State) :
    wp (abort a) Q s = Q (Res.aborted a) s := rfl

@[simp]
theorem wp_emit (ev : Event) (Q : Res Unit → State → Prop) (s : State) :
    wp (emit ev) Q s = Q (Res.ok ()) { s with trace := ev :: s.trace } := rfl

@[simp]
theorem wp_ite {α : Type} (c : Prop) [Decidable c] (a b : Exec α)
    (Q : Res α → State → Prop) (s : State) :
    wp (if c then a else b) Q s = if c then wp a Q s else wp b Q s := by
  split <;> rfl

@[simp]
theorem wp_call (env : Env) (c : Call) (Q : Res Unit → State → Prop) (s : State) :
    wp (call env c) Q s =
      match env.fault c with
      | some e => Q (Res.raised (Exn.foreign e)) { s with trace := Event.call c :: s.trace }
      | none => Q (Res.ok ()) { s with trace := Event.call c :: s.trace } := by
  unfold call
  simp only [wp_bind, wp_emit]
  cases env.fault c <;> rfl

@[simp]
theorem wp_deref {α : Type} (p : Option α) (Q : Res α → State → Prop) (s : State) :
    wp (deref p) Q s =
      match p with
      | some a => Q (Res.ok a) s
      | none => Q (Res.aborted Abort.null_dereference) s := by
  cases p <;> rfl

@[simp]
theorem wp_store (f : Flag) (v : Bool) (Q : Res Unit → State → Prop) (s : State) :
    wp (store f v) Q s = Q (Res.ok ())
      (match f with
        | Flag.initialised => { s with initialised_ := v, trace := Event.store f v :: s.trace }
        | Flag.configured => { s with configured_ := v, trace := Event.store f v :: s.trace }
        | Flag.activated => { s with activated_ := v, trace := Event.store f v :: s.trace }
        | Flag.master_set => { s with master_set_ := v, trace := Event.store f v :: s.trace }) := by
  cases f <;> rfl

@[simp]
theorem wp_create_callback_group (env : Env) (Q : Res CallbackGroup → State → Prop)
    (s : State) :
    wp (create_callback_group env) Q s =
      match env.fault Call.create_callback_group with
      | some e => Q (Res.raised (Exn.foreign e))
          { s with trace := Event.call Call.create_callback_group :: s.trace }
      | none => Q (Res.ok ⟨s.node_.callback_groups⟩)
          { s with
            node_ := { s.node_ with callback_groups := s.node_.callback_groups + 1 }
            trace := Event.call Call.create_callback_group :: s.trace } := by
  unfold create_callback_group
  simp only [wp_bind, wp_call, wp_read, wp_modify, wp_exec_pure]

@[simp]
theorem wp_declare_parameter_string (env : Env) (name dflt : String)
    (Q : Res Unit → State → Prop) (s : State) :
    wp (declare_parameter_string env name dflt) Q s =
      match env.fault (Call.declare_parameter name) with
      | some e => Q (Res.raised (Exn.foreign e))
          { s with trace := Event.call (Call.declare_parameter name) :: s.trace }
      | none =>
        if s.node_.has_parameter name = true then
          Q (Res.raised (Exn.ParameterAlreadyDeclared name))
            { s with trace := Event.call (Call.declare_parameter name) :: s.trace }
        else
          Q (Res.ok ())
            { s with
              node_ := s.node_.with_string name dflt
              trace := Event.call (Call.declare_parameter name) :: s.trace } := by
  unfold declare_parameter_string
  simp only [wp_bind, wp_call, wp_read, Node.declare_string]
  cases env.fault (Call.declare_parameter name)
  · cases h : s.node_.has_parameter name <;> simp [h, wp_raise, wp_modify]
  · rfl

@[simp]
theorem wp_declare_parameter_integer (env : Env) (name : String) (dflt : Int)
    (Q : Res Unit → State → Prop) (s : State) :
    wp (declare_parameter_integer env name dflt) Q s =
      match env.fault (Call.declare_parameter name) with
      | some e => Q (Res.raised (Exn.foreign e))
          { s with trace := Event.call (Call.declare_parameter name) :: s.trace }
      | none =>
        if s.node_.has_parameter name = true then
          Q (Res.raised (Exn.ParameterAlreadyDeclared name))
            { s with trace := Event.call (Call.declare_parameter name) :: s.trace }
        else
          Q (Res.ok ())
            { s with
              node_ := s.node_.with_integer name dflt
              trace := Event.call (Call.declare_parameter name) :: s.trace } := by
  unfold declare_parameter_integer
  simp only [wp_bind, wp_call, wp_read, Node.declare_integer]
  cases env.fault (Call.declare_parameter name)
  · cases h : s.node_.has_parameter name <;> simp [h, wp_raise, wp_modify]
  · rfl

@[simp]
theorem wp_get_parameter_string (env : Env) (name cur : String)
    (Q : Res String → State → Prop) (s : State) :
    wp (get_parameter_string env name cur) Q s =
      match env.fault (Call.get_parameter name) with
      | some e => Q (Res.raised (Exn.foreign e))
          { s with trace := Event.call (Call.get_parameter name) :: s.trace }
      | none => Q (Res.ok (s.node_.get_string name cur))
          { s with trace := Event.call (Call.get_parameter name) :: s.trace } := by
  unfold get_parameter_string
  simp only [wp_bind, wp_call, wp_read, wp_exec_pure]

@[simp]
theorem wp_get_parameter_integer (env : Env) (name : String) (cur : Int)
    (Q : Res Int → State → Prop) (s : State) :
    wp (get_parameter_integer env name cur) Q s =
      match env.fault (Call.get_parameter name) with
      | some e => Q (Res.raised (Exn.foreign e))
          { s with trace := Event.call (Call.get_parameter name) :: s.trace }
      | none => Q (Res.ok (s.node_.get_integer name cur))
          { s with trace := Event.call (Call.get_parameter name) :: s.trace } := by
  unfold get_parameter_integer
  simp only [wp_bind, wp_call, wp_read, wp_exec_pure]

@[simp]
theorem wp_hook_activate (env : Env) (Q : Res Unit → State → Prop) (s : State) :
    wp (hook_activate env) Q s =
      match env.fault (Call.hook Hook.activate) with
      | some e => Q (Res.raised (Exn.foreign e))
          { s with trace := Event.call (Call.hook Hook.activate) :: s.trace }
      | none => Q (Res.ok ())
          { s with
            master_ := stored_master env s
            trace := Event.call (Call.hook Hook.activate) :: s.trace } := by
  unfold hook_activate
  simp only [wp_bind, wp_call, wp_modify]
  cases env.fault (Call.hook Hook.activate) <;> rfl

@[simp]
theorem wp_job_run (j : Job) (Q : Res Unit → State → Prop) (s : State) :
    wp (Job.run j) Q s =
      match s.ctx_ with
      | some ctx => Q (Res.ok ())
          { s with
            ctx_ := some { ctx with shutdown_requests := ctx.shutdown_requests + 1 }
            trace := Event.ctx_shutdown :: s.trace }
      | none => Q (Res.aborted Abort.null_dereference) s := by
  cases j
  unfold Job.run
  simp only [wp_bind, wp_read, wp_deref]
  cases s.ctx_ <;> rfl

/-! ## Declared options -/

theorem has_parameter_with_string (n : Node) (a d b : String) :
    (n.with_string a d).has_parameter b = (n.has_parameter b || decide (b = a)) := by
  unfold Node.with_string Node.has_parameter
  split <;> simp

theorem has_parameter_with_integer (n : Node) (a : String) (d : Int) (b : String) :
    (n.with_integer a d).has_parameter b = (n.has_parameter b || decide (b = a)) := by
  unfold Node.with_integer Node.has_parameter
  split <;> simp

theorem has_parameter_callback_groups (n : Node) (k : Nat) (b : String) :
    Node.has_parameter { n with callback_groups := k } b = n.has_parameter b := rfl

/-- A property of the outcome of a lifecycle call follows from the weakest precondition
of its body. -/
theorem perform_sat (op : Op) (env : Env) (s : State) (Q : Res Unit → State → Prop)
    (h : wp (body op env) Q s) :
    Q (perform op env s).exit (perform op env s).state := h

theorem perform_eq (op : Op) (env : Env) (s : State) (r : Res Unit) (s1 : State)
    (h : wp (body op env) (fun r0 s0 => r0 = r ∧ s0 = s1) s) :
    perform op env s = ⟨r, s1⟩ := by
  have h2 := perform_sat op env s _ h
  cases hp : perform op env s with
  | mk e st =>
    rw [hp] at h2
    simp only at h2
    rw [h2.1, h2.2]

/-! ## What each operation can change, in any environment -/

set_option maxRecDepth 100000 in
theorem init_summary (env : Env) (s : State) :
    (perform Op.init env s).state =
      { s with
        node_ := (perform Op.init env s).state.node_
        client_cbg_ := (perform Op.init env s).state.client_cbg_
        timer_cbg_ := (perform Op.init env s).state.timer_cbg_
        initialised_ := (perform Op.init env s).state.initialised_
        trace := (perform Op.init env s).state.trace }
    ∧ ((perform Op.init env s).exit = Res.ok () →
        precondition Op.init s = true ∧ (perform Op.init env s).state.initialised_ = true)
    ∧ (∀ c w, (perform Op.init env s).exit = Res.raised (Exn.MasterException c w) →
        precondition Op.init s = false)
    ∧ ((perform Op.init env s).exit ≠ Res.ok () →
        (perform Op.init env s).state.initialised_ = s.initialised_) := by
  refine perform_sat Op.init env s (fun r s1 =>
    s1 = { s with node_ := s1.node_, client_cbg_ := s1.client_cbg_, timer_cbg_ := s1.timer_cbg_,
                  initialised_ := s1.initialised_, trace := s1.trace }
    ∧ (r = Res.ok () → precondition Op.init s = true ∧ s1.initialised_ = true)
    ∧ (∀ c w, r = Res.raised (Exn.MasterException c w) → precondition Op.init s = false)
    ∧ (r ≠ Res.ok () → s1.initialised_ = s.initialised_)) ?_
  simp [body, init, precondition]
  repeat' split
  all_goals simp_all

set_option maxRecDepth 100000 in
theorem configure_summary (env : Env) (s : State) :
    (perform Op.configure env s).state =
      { s with
        container_name_ := (perform Op.configure env s).state.container_name_
        master_dcf_ := (perform Op.configure env s).state.master_dcf_
        master_bin_ := (perform Op.configure env s).state.master_bin_
        can_interface_ := (perform Op.configure env s).state.can_interface_
        node_id_ := (perform Op.configure env s).state.node_id_
        non_transmit_timeout_ := (perform Op.configure env s).state.non_transmit_timeout_
        config_ := (perform Op.configure env s).state.config_
        configured_ := (perform Op.configure env s).state.configured_
        trace := (perform Op.configure env s).state.trace }
    ∧ ((perform Op.configure env s).exit = Res.ok () →
        precondition Op.configure s = true ∧ (perform Op.configure env s).state.configured_ = true)
    ∧ (∀ c w, (perform Op.configure env s).exit = Res.raised (Exn.MasterException c w) →
        precondition Op.configure s = false)
    ∧ ((perform Op.configure env s).exit ≠ Res.ok () →
        (perform Op.configure env s).state.configured_ = s.configured_) := by
  refine perform_sat Op.configure env s (fun r s1 =>
    s1 = { s with container_name_ := s1.container_name_, master_dcf_ := s1.master_dcf_,
                  master_bin_ := s1.master_bin_, can_interface_ := s1.can_interface_,
                  node_id_ := s1.node_id_, non_transmit_timeout_ := s1.non_transmit_timeout_,
                  config_ := s1.config_, configured_ := s1.configured_, trace := s1.trace }
    ∧ (r = Res.ok () → precondition Op.configure s = true ∧ s1.configured_ = true)
    ∧ (∀ c w, r = Res.raised (Exn.MasterException c w) → precondition Op.configure s = false)
    ∧ (r ≠ Res.ok () → s1.configured_ = s.configured_)) ?_
  simp [body, configure, precondition]
  repeat' split
  all_goals simp_all

set_option maxRecDepth 100000 in
theorem acquire_resources_frame (env : Env) (s : State) :
    (acquire_resources env s).2 =
      { s with
        io_guard_ := (acquire_resources env s).2.io_guard_
        ctx_ := (acquire_resources env s).2.ctx_
        poll_ := (acquire_resources env s).2.poll_
        loop_ := (acquire_resources env s).2.loop_
        exec_ := (acquire_resources env s).2.exec_
        timer_ := (acquire_resources env s).2.timer_
        ctrl_ := (acquire_resources env s).2.ctrl_
        chan_ := (acquire_resources env s).2.chan_
        sigset_ := (acquire_resources env s).2.sigset_
        trace := (acquire_resources env s).2.trace } := by
  show wp (acquire_resources env) (fun _ s1 =>
    s1 = { s with io_guard_ := s1.io_guard_, ctx_ := s1.ctx_, poll_ := s1.poll_,
                  loop_ := s1.loop_, exec_ := s1.exec_, timer_ := s1.timer_, ctrl_ := s1.ctrl_,
                  chan_ := s1.chan_, sigset_ := s1.sigset_, trace := s1.trace }) s
  simp only [acquire_resources, wp_bind, wp_read, wp_modify, wp_call, wp_deref]
  repeat' split
  all_goals trivial

set_option maxRecDepth 100000 in
theorem acquire_resources_exit (env : Env) (s : State) :
    ((acquire_resources env s).1 = Res.ok () ∧ (acquire_resources env s).2 = acquired s)
    ∨ (∃ e, (acquire_resources env s).1 = Res.raised (Exn.foreign e)) := by
  show wp (acquire_resources env) (fun r s1 =>
    (r = Res.ok () ∧ s1 = acquired s) ∨ (∃ e, r = Res.raised (Exn.foreign e))) s
  simp only [acquire_resources, wp_bind, wp_read, wp_modify, wp_call, wp_deref]
  repeat' split
  all_goals first
    | trivial
    | exact Or.inr ⟨_, rfl⟩
    | exact Or.inl ⟨rfl, rfl⟩
    | simp [acquired, acquire_trace]

set_option maxRecDepth 100000 in
theorem acquire_resources_keeps (env : Env) (s : State) :
    (s.io_guard_.isSome = true → (acquire_resources env s).2.io_guard_.isSome = true)
    ∧ (s.ctx_.isSome = true → (acquire_resources env s).2.ctx_.isSome = true)
    ∧ (s.poll_.isSome = true → (acquire_resources env s).2.poll_.isSome = true)
    ∧ (s.loop_.isSome = true → (acquire_resources env s).2.loop_.isSome = true)
    ∧ (s.exec_.isSome = true → (acquire_resources env s).2.exec_.isSome = true)
    ∧ (s.timer_.isSome = true → (acquire_resources env s).2.timer_.isSome = true)
    ∧ (s.ctrl_.isSome = true → (acquire_resources env s).2.ctrl_.isSome = true)
    ∧ (s.chan_.isSome = true → (acquire_resources env s).2.chan_.isSome = true)
    ∧ (s.sigset_.isSome = true → (acquire_resources env s).2.sigset_.isSome = true) := by
  show wp (acquire_resources env) (fun _ s1 =>
    (s.io_guard_.isSome = true → s1.io_guard_.isSome = true)
    ∧ (s.ctx_.isSome = true → s1.ctx_.isSome = true)
    ∧ (s.poll_.isSome = true → s1.poll_.isSome = true)
    ∧ (s.loop_.isSome = true → s1.loop_.isSome = true)
    ∧ (s.exec_.isSome = true → s1.exec_.isSome = true)
    ∧ (s.timer_.isSome = true → s1.timer_.isSome = true)
    ∧ (s.ctrl_.isSome = true → s1.ctrl_.isSome = true)
    ∧ (s.chan_.isSome = true → s1.chan_.isSome = true)
    ∧ (s.sigset_.isSome = true → s1.sigset_.isSome = true)) s
  simp only [acquire_resources, wp_bind, wp_read, wp_modify, wp_call, wp_deref]
  repeat' split
  all_goals simp

theorem deactivate_summary (env : Env) (s : State) :
    (perform Op.deactivate env s).state =
      { s with
        exec_ := (perform Op.deactivate env s).state.exec_
        ctx_ := (perform Op.deactivate env s).state.ctx_
        spinner_ := (perform Op.deactivate env s).state.spinner_
        activated_ := (perform Op.deactivate env s).state.activated_
        trace := (perform Op.deactivate env s).state.trace }
    ∧ ((perform Op.deactivate env s).exit = Res.ok () →
        precondition Op.deactivate s = true ∧ s.spinner_.joinable = true
        ∧ (perform Op.deactivate env s).state.activated_ = false
        ∧ (perform Op.deactivate env s).state.spinner_.joinable = false)
    ∧ ((perform Op.deactivate env s).exit ≠ Res.ok () →
        (perform Op.deactivate env s).state.activated_ = s.activated_)
    ∧ ((perform Op.deactivate env s).state.spinner_ = s.spinner_
        ∨ (perform Op.deactivate env s).state.spinner_.joinable = false)
    ∧ (env.fault (Call.hook Hook.deactivate) = none →
        (perform Op.deactivate env s).exit ≠ Res.ok () →
        (perform Op.deactivate env s).state.spinner_ = s.spinner_)
    ∧ ((perform Op.deactivate env s).state.exec_.isSome = s.exec_.isSome)
    ∧ ((perform Op.deactivate env s).state.ctx_.isSome = s.ctx_.isSome)
    ∧ (∀ c w, (perform Op.deactivate env s).exit = Res.raised (Exn.MasterException c w) →
        precondition Op.deactivate s = false) := by
  refine perform_sat Op.deactivate env s (fun r s1 =>
    s1 = { s with exec_ := s1.exec_, ctx_ := s1.ctx_, spinner_ := s1.spinner_,
                  activated_ := s1.activated_, trace := s1.trace }
    ∧ (r = Res.ok () → precondition Op.deactivate s = true ∧ s.spinner_.joinable = true
        ∧ s1.activated_ = false ∧ s1.spinner_.joinable = false)
    ∧ (r ≠ Res.ok () → s1.activated_ = s.activated_)
    ∧ (s1.spinner_ = s.spinner_ ∨ s1.spinner_.joinable = false)
    ∧ (env.fault (Call.hook Hook.deactivate) = none → r ≠ Res.ok () → s1.spinner_ = s.spinner_)
    ∧ (s1.exec_.isSome = s.exec_.isSome)
    ∧ (s1.ctx_.isSome = s.ctx_.isSome)
    ∧ (∀ c w, r = Res.raised (Exn.MasterException c w) → precondition Op.deactivate s = false)) ?_
  simp [body, deactivate, precondition]
  repeat' split
  all_goals simp_all

theorem cleanup_summary (env : Env) (s : State) :
    (perform Op.cleanup env s).state =
      { s with
        configured_ := (perform Op.cleanup env s).state.configured_
        trace := (perform Op.cleanup env s).state.trace }
    ∧ ((perform Op.cleanup env s).exit = Res.ok () →
        precondition Op.cleanup s = true ∧ (perform Op.cleanup env s).state.configured_ = false)
    ∧ (∀ c w, (perform Op.cleanup env s).exit = Res.raised (Exn.MasterException c w) →
        precondition Op.cleanup s = false)
    ∧ ((perform Op.cleanup env s).exit ≠ Res.ok () →
        (perform Op.cleanup env s).state.configured_ = s.configured_) := by
  refine perform_sat Op.cleanup env s (fun r s1 =>
    s1 = { s with configured_ := s1.configured_, trace := s1.trace }
    ∧ (r = Res.ok () → precondition Op.cleanup s = true ∧ s1.configured_ = false)
    ∧ (∀ c w, r = Res.raised (Exn.MasterException c w) → precondition Op.cleanup s = false)
    ∧ (r ≠ Res.ok () → s1.configured_ = s.configured_)) ?_
  simp [body, cleanup, precondition]
  repeat' split
  all_goals simp_all

theorem wp_def {α : Type} (m : Exec α) (Q : Res α → State → Prop) (s : State) :
    wp m Q s = Q (m s).1 (m s).2 := rfl

/-- Proof rule for `activate`: a postcondition holds of every outcome as soon as it
holds where a guard raises, where the acquisition of the resources throws, and
after `finish_activation` run on the state with all resources acquired. -/
theorem activate_sat (env : Env) (s : State) (Q : Res Unit → State → Prop)
    (hguard : precondition Op.activate s = false →
      ∀ c w, Q (Res.raised (Exn.MasterException c w)) s)
    (hacq : precondition Op.activate s = true → ∀ e s1,
      (acquire_resources env s).2 = s1 → Q (Res.raised (Exn.foreign e)) s1)
    (hfin : precondition Op.activate s = true → wp (finish_activation env) Q (acquired s)) :
    Q (perform Op.activate env s).exit (perform Op.activate env s).state := by
  refine perform_sat Op.activate env s Q ?_
  have hexit := acquire_resources_exit env s
  simp only [body, activate, wp_bind, wp_read, wp_ite, wp_raise, wp_pure]
  rw [wp_def (acquire_resources env)]
  simp only [precondition, Bool.and_eq_true, Bool.not_eq_true', Bool.and_eq_false_iff] at hguard hacq hfin
  by_cases h1 : s.initialised_ = true
  · by_cases h2 : s.configured_ = true
    · by_cases h3 : s.activated_ = true
      · simp [h1, h2, h3]
        exact hguard (by simp [h3]) _ _
      · simp only [Bool.not_eq_true] at h3
        simp only [h1, h2, h3]
        rcases hexit with ⟨hr, hs⟩ | ⟨e, hr⟩
        · rw [hr, hs]
          simpa using hfin ⟨⟨h1, h2⟩, h3⟩
        · rw [hr]
          simpa using hacq ⟨⟨h1, h2⟩, h3⟩ e _ rfl
    · simp [h1, h2]
      exact hguard (by simp at h2; simp [h2]) _ _
  · simp [h1]
    exact hguard (by simp at h1; simp [h1]) _ _

/-- Proof rule for `shutdown`: a postcondition holds of every outcome as soon as it
holds where the cascaded `deactivate` does not return, where the cascaded `cleanup`
does not return, and after the hook and the four stores run on the state the cascade
leaves. -/
theorem shutdown_sat (env : Env) (s : State) (Q : Res Unit → State → Prop)
    (hd : s.activated_ = true → (perform Op.deactivate env s).exit ≠ Res.ok () →
      Q (perform Op.deactivate env s).exit (perform Op.deactivate env s).state)
    (hc : ∀ s1,
      ((s.activated_ = false ∧ s1 = s)
        ∨ (s.activated_ = true ∧ (perform Op.deactivate env s).exit = Res.ok ()
            ∧ s1 = (perform Op.deactivate env s).state)) →
      s1.configured_ = true → (perform Op.cleanup env s1).exit ≠ Res.ok () →
      Q (perform Op.cleanup env s1).exit (perform Op.cleanup env s1).state)
    (hf : ∀ s1 s2,
      ((s.activated_ = false ∧ s1 = s)
        ∨ (s.activated_ = true ∧ (perform Op.deactivate env s).exit = Res.ok ()
            ∧ s1 = (perform Op.deactivate env s).state)) →
      ((s1.configured_ = false ∧ s2 = s1)
        ∨ (s1.configured_ = true ∧ (perform Op.cleanup env s1).exit = Res.ok ()
            ∧ s2 = (perform Op.cleanup env s1).state)) →
      match env.fault (Call.hook Hook.shutdown) with
      | some e => Q (Res.raised (Exn.foreign e))
          { s2 with trace := Event.call (Call.hook Hook.shutdown) :: s2.trace }
      | none => Q (Res.ok ())
          { s2 with
            master_set_ := false
            initialised_ := false
            configured_ := false
            activated_ := false
            trace := shutdown_trace.reverse ++ s2.trace }) :
    Q (perform Op.shutdown env s).exit (perform Op.shutdown env s).state := by
  have hpd : ∀ s0, deactivate env s0 = ((perform Op.deactivate env s0).exit,
      (perform Op.deactivate env s0).state) := fun _ => rfl
  have hpc : ∀ s0, cleanup env s0 = ((perform Op.cleanup env s0).exit,
      (perform Op.cleanup env s0).state) := fun _ => rfl
  refine perform_sat Op.shutdown env s Q ?_
  simp only [body, shutdown, wp_bind, wp_read, wp_ite, wp_pure, wp_call, wp_store]
  simp only [wp_def (deactivate env), wp_def (cleanup env), hpd, hpc]
  by_cases ha : s.activated_ = true
  · rw [if_pos ha]
    cases hx : (perform Op.deactivate env s).exit with
    | raised e =>
      have := hd ha (by rw [hx]; simp)
      rw [hx] at this
      exact this
    | aborted a =>
      have := hd ha (by rw [hx]; simp)
      rw [hx] at this
      exact this
    | ok u =>
      have h1 : (s.activated_ = false ∧ (perform Op.deactivate env s).state = s)
          ∨ (s.activated_ = true ∧ (perform Op.deactivate env s).exit = Res.ok ()
              ∧ (perform Op.deactivate env s).state = (perform Op.deactivate env s).state) :=
        Or.inr ⟨ha, hx, rfl⟩
      dsimp only
      by_cases hcf : (perform Op.deactivate env s).state.configured_ = true
      · rw [if_pos hcf]
        cases hy : (perform Op.cleanup env (perform Op.deactivate env s).state).exit with
        | ok u2 =>
          have hfin := hf (perform Op.deactivate env s).state _ h1 (Or.inr ⟨hcf, hy, rfl⟩)
          cases hfault : env.fault (Call.hook Hook.shutdown) <;> rw [hfault] at hfin <;> exact hfin
        | raised e =>
          have := hc (perform Op.deactivate env s).state h1 hcf (by rw [hy]; simp)
          rw [hy] at this
          exact this
        | aborted a =>
          have := hc (perform Op.deactivate env s).state h1 hcf (by rw [hy]; simp)
          rw [hy] at this
          exact this
      · rw [if_neg hcf]
        have hfin := hf (perform Op.deactivate env s).state (perform Op.deactivate env s).state h1 (Or.inl ⟨by simpa using hcf, rfl⟩)
        cases hfault : env.fault (Call.hook Hook.shutdown) <;> rw [hfault] at hfin <;> exact hfin
  · rw [if_neg ha]
    have h1 : (s.activated_ = false ∧ s = s)
        ∨ (s.activated_ = true ∧ (perform Op.deactivate env s).exit = Res.ok ()
            ∧ s = (perform Op.deactivate env s).state) :=
      Or.inl ⟨by simpa using ha, rfl⟩
    by_cases hcf : s.configured_ = true
    · rw [if_pos hcf]
      cases hy : (perform Op.cleanup env s).exit with
      | ok u2 =>
        have hfin := hf s _ h1 (Or.inr ⟨hcf, hy, rfl⟩)
        cases hfault : env.fault (Call.hook Hook.shutdown) <;> rw [hfault] at hfin <;> exact hfin
      | raised e =>
        have := hc s h1 hcf (by rw [hy]; simp)
        rw [hy] at this
        exact this
      | aborted a =>
        have := hc s h1 hcf (by rw [hy]; simp)
        rw [hy] at this
        exact this
    · rw [if_neg hcf]
      have hfin := hf s s h1 (Or.inl ⟨by simpa using hcf, rfl⟩)
      cases hfault : env.fault (Call.hook Hook.shutdown) <;> rw [hfault] at hfin <;> exact hfin

/-! ## The invariant -/

theorem invariant_construct (node : Node) : invariant (construct node) := by
  simp [invariant, construct, resources_held]

theorem invariant_init (env : Env) (s : State) (h : invariant s) :
    invariant (perform Op.init env s).state := by
  obtain ⟨hf, hok, _, hfail⟩ := init_summary env s
  generalize perform Op.init env s = o at hf hok hfail ⊢
  obtain ⟨r, s1⟩ := o
  simp only at hf hok hfail ⊢
  rw [hf]
  clear hf
  by_cases hr : r = Res.ok ()
  · have := hok hr
    simp_all [invariant, resources_held, precondition]
  · have := hfail hr
    simp_all [invariant, resources_held, precondition]

theorem invariant_configure (env : Env) (s : State) (h : invariant s) :
    invariant (perform Op.configure env s).state := by
  obtain ⟨hf, hok, _, hfail⟩ := configure_summary env s
  generalize perform Op.configure env s = o at hf hok hfail ⊢
  obtain ⟨r, s1⟩ := o
  simp only at hf hok hfail ⊢
  rw [hf]
  clear hf
  by_cases hr : r = Res.ok ()
  · have := hok hr
    simp_all [invariant, resources_held, precondition]
  · have := hfail hr
    simp_all [invariant, resources_held, precondition]

theorem invariant_deactivate (env : Env) (s : State) (h : invariant s) :
    invariant (perform Op.deactivate env s).state := by
  obtain ⟨hf, hok, hfail, hsp, _, hex, hctx, _⟩ := deactivate_summary env s
  generalize perform Op.deactivate env s = o at hf hok hfail hsp hex hctx ⊢
  obtain ⟨r, s1⟩ := o
  simp only at hf hok hfail hsp hex hctx ⊢
  rw [hf]
  clear hf
  by_cases hr : r = Res.ok ()
  · have := hok hr
    simp_all [invariant, resources_held, precondition]
  · have := hfail hr
    rcases hsp with hsp | hsp <;> simp_all [invariant, resources_held, precondition]

theorem invariant_cleanup (env : Env) (s : State) (h : invariant s) :
    invariant (perform Op.cleanup env s).state := by
  obtain ⟨hf, hok, _, hfail⟩ := cleanup_summary env s
  generalize perform Op.cleanup env s = o at hf hok hfail ⊢
  obtain ⟨r, s1⟩ := o
  simp only at hf hok hfail ⊢
  rw [hf]
  clear hf
  by_cases hr : r = Res.ok ()
  · have := hok hr
    simp_all [invariant, resources_held, precondition]
  · have := hfail hr
    simp_all [invariant, resources_held, precondition]

theorem invariant_activate (env : Env) (s : State) (h : invariant s) :
    invariant (perform Op.activate env s).state := by
  refine activate_sat env s (fun _ s1 => invariant s1) (fun _ _ _ => h) ?_ ?_
  · intro hpre e s1 hs1
    have hf := acquire_resources_frame env s
    have hk := acquire_resources_keeps env s
    rw [hs1] at hf hk
    rw [hf]
    clear hf hs1
    simp_all [invariant, resources_held, precondition]
  · intro hpre
    obtain ⟨i1, i2, i3, i4, i5, i6⟩ := h
    cases hsup : env.supplied <;> cases hm : s.master_
    all_goals simp [finish_activation, stored_master, hsup, hm]
    all_goals repeat' split
    all_goals simp_all [invariant, acquired, resources_held, precondition]

/-- After the first stage of the cascade of `shutdown`, the invariant holds and the
object is neither activated nor has a joinable spinner. -/
theorem cascade_deactivated (env : Env) (s s1 : State) (h : invariant s)
    (h1 : (s.activated_ = false ∧ s1 = s)
      ∨ (s.activated_ = true ∧ (perform Op.deactivate env s).exit = Res.ok ()
          ∧ s1 = (perform Op.deactivate env s).state)) :
    invariant s1 ∧ s1.activated_ = false ∧ s1.spinner_.joinable = false := by
  rcases h1 with ⟨ha, rfl⟩ | ⟨_, hx, rfl⟩
  · refine ⟨h, ha, Bool.eq_false_iff.mpr fun hj => ?_⟩
    rw [h.2.2.2.2.2 hj] at ha
    cases ha
  · obtain ⟨_, hok, _⟩ := deactivate_summary env s
    exact ⟨invariant_deactivate env s h, (hok hx).2.2.1, (hok hx).2.2.2⟩

/-- After the second stage of the cascade of `shutdown`, likewise. -/
theorem cascade_cleaned (env : Env) (s1 s2 : State) (h : invariant s1)
    (ha : s1.activated_ = false) (hj : s1.spinner_.joinable = false)
    (h2 : (s1.configured_ = false ∧ s2 = s1)
      ∨ (s1.configured_ = true ∧ (perform Op.cleanup env s1).exit = Res.ok ()
          ∧ s2 = (perform Op.cleanup env s1).state)) :
    invariant s2 ∧ s2.activated_ = false ∧ s2.spinner_.joinable = false := by
  rcases h2 with ⟨_, rfl⟩ | ⟨_, _, rfl⟩
  · exact ⟨h, ha, hj⟩
  · obtain ⟨hfr, _⟩ := cleanup_summary env s1
    refine ⟨invariant_cleanup env s1 h, ?_, ?_⟩
    · rw [hfr]
      exact ha
    · rw [hfr]
      exact hj

theorem invariant_shutdown (env : Env) (s : State) (h : invariant s) :
    invariant (perform Op.shutdown env s).state := by
  refine shutdown_sat env s (fun _ s1 => invariant s1) ?_ ?_ ?_
  · intro _ _
    exact invariant_deactivate env s h
  · intro s1 h1 _ _
    exact invariant_cleanup env s1 (cascade_deactivated env s s1 h h1).1
  · intro s1 s2 h1 h2
    obtain ⟨k1, k2, k3⟩ := cascade_deactivated env s s1 h h1
    obtain ⟨⟨i1, i2, i3, i4, i5, i6⟩, _, hj⟩ := cascade_cleaned env s1 s2 k1 k2 k3 h2
    cases env.fault (Call.hook Hook.shutdown)
    · simp [invariant, hj]
    · exact ⟨i1, i2, i3, i4, i5, i6⟩

theorem invariant_perform (op : Op) (env : Env) (s : State) (h : invariant s) :
    invariant (perform op env s).state := by
  cases op
  · exact invariant_init env s h
  · exact invariant_configure env s h
  · exact invariant_activate env s h
  · exact invariant_deactivate env s h
  · exact invariant_cleanup env s h
  · exact invariant_shutdown env s h

theorem invariant_reachable (good : Env → Prop) (node : Node) (s : State)
    (h : Reachable good node s) : invariant s := by
  induction h with
  | start => exact invariant_construct node
  | call op env s _ _ ih => exact invariant_perform op env s ih

/-! ## Outcomes by evaluation -/

theorem Env.eq_of_no_fault (env : Env) (hf : env.no_fault) :
    env = ⟨fun _ => none, env.supplied, env.indeterminate⟩ := by
  obtain ⟨f, sup, ind⟩ := env
  have : f = fun _ => none := funext hf
  subst this
  rfl

/-- A violated guard: the documented exception, and the object untouched. -/
theorem guard_raises (op : Op) (env : Env) (s : State) (c : MasterErrorCode)
    (h : first_violation op s = some c) :
    ∃ what, perform op env s = ⟨Res.raised (Exn.MasterException c what), s⟩ := by
  obtain ⟨node, i, cf, a, ms, m, ex, g, cx, p, l, t, ct, ch, sg, cc, tc, cg, id, nt, cn, md,
    mb, ci, sp, tr⟩ := s
  cases op <;> cases i <;> cases cf <;> cases a <;> simp [first_violation] at h <;> subst h
  all_goals exact ⟨_, rfl⟩

theorem undeclared_names (n : Node) (hu : n.undeclared) :
    n.has_parameter "container_name" = false ∧ n.has_parameter "master_dcf" = false
    ∧ n.has_parameter "master_bin" = false ∧ n.has_parameter "can_interface" = false
    ∧ n.has_parameter "node_id" = false ∧ n.has_parameter "non_transmit_timeout" = false
    ∧ n.has_parameter "config" = false :=
  ⟨hu _ (by simp [option_names]), hu _ (by simp [option_names]), hu _ (by simp [option_names]),
    hu _ (by simp [option_names]), hu _ (by simp [option_names]), hu _ (by simp [option_names]),
    hu _ (by simp [option_names])⟩

theorem init_calm (env : Env) (s : State) (hf : env.no_fault) (hu : s.node_.undeclared)
    (hc : s.configured_ = false) (ha : s.activated_ = false) :
    perform Op.init env s = ⟨Res.ok (),
      { s with
        node_ := declared s.node_
        client_cbg_ := some ⟨s.node_.callback_groups⟩
        timer_cbg_ := some ⟨s.node_.callback_groups + 1⟩
        initialised_ := true
        trace := init_trace.reverse ++ s.trace }⟩ := by
  obtain ⟨h1, h2, h3, h4, h5, h6, h7⟩ := undeclared_names s.node_ hu
  apply perform_eq
  simp [body, init, wp_bind, wp_read, wp_modify, wp_raise, wp_ite, wp_call, wp_store, wp_pure,
    wp_create_callback_group, wp_declare_parameter_string, wp_declare_parameter_integer,
    hf _, hc, ha, has_parameter_with_string, has_parameter_with_integer,
    has_parameter_callback_groups, h1, h2, h3, h4, h5, h6, h7, declared, init_trace]

/-- A second `init` on the same node: the node refuses the first declaration. The two
callback groups have been created by then. -/
theorem init_redeclared (env : Env) (s : State) (hf : env.no_fault)
    (hd : s.node_.has_parameter "container_name" = true)
    (hc : s.configured_ = false) (ha : s.activated_ = false) :
    perform Op.init env s = ⟨Res.raised (Exn.ParameterAlreadyDeclared "container_name"),
      { s with
        node_ := { s.node_ with callback_groups := s.node_.callback_groups + 1 + 1 }
        client_cbg_ := some ⟨s.node_.callback_groups⟩
        timer_cbg_ := some ⟨s.node_.callback_groups + 1⟩
        trace := Event.call (Call.declare_parameter "container_name")
          :: Event.call Call.create_callback_group :: Event.call Call.create_callback_group
          :: s.trace }⟩ := by
  apply perform_eq
  simp [body, init, wp_bind, wp_read, wp_modify, wp_raise, wp_ite, wp_call, wp_store, wp_pure,
    wp_create_callback_group, wp_declare_parameter_string, wp_declare_parameter_integer,
    hf _, hc, ha, has_parameter_callback_groups, hd]

theorem configure_calm (env : Env) (s : State) (hf : env.no_fault)
    (hi : s.initialised_ = true) (hc : s.configured_ = false) (ha : s.activated_ = false) :
    perform Op.configure env s = ⟨Res.ok (),
      { s with
        container_name_ := s.node_.get_string "container_name" s.container_name_
        master_dcf_ := s.node_.get_string "master_dcf" s.master_dcf_
        master_bin_ := s.node_.get_string "master_bin" s.master_bin_
        can_interface_ := s.node_.get_string "can_interface" s.can_interface_
        node_id_ := to_uint8 (s.node_.get_integer "node_id" s.node_id_)
        non_transmit_timeout_ :=
          to_int32 (s.node_.get_integer "non_transmit_timeout" env.indeterminate)
        config_ := ⟨s.node_.get_string "config" ""⟩
        configured_ := true
        trace := configure_trace.reverse ++ s.trace }⟩ := by
  rw [Env.eq_of_no_fault env hf]
  obtain ⟨node, i, cf, a, ms, m, ex, g, cx, p, l, t, ct, ch, sg, cc, tc, cg, id, nt, cn, md,
    mb, ci, sp, tr⟩ := s
  simp only at hi hc ha
  subst hi hc ha
  rfl

theorem activate_calm (env : Env) (s : State) (h : Handle) (hf : env.no_fault)
    (hm : stored_master env s = some h)
    (hi : s.initialised_ = true) (hc : s.configured_ = true) (ha : s.activated_ = false)
    (hj : s.spinner_.joinable = false) :
    perform Op.activate env s = ⟨Res.ok (),
      { acquired s with
        master_ := some h
        master_set_ := true
        spinner_ := ⟨true⟩
        activated_ := true
        trace := (finish_trace h).reverse ++ (acquired s).trace }⟩ := by
  rw [Env.eq_of_no_fault env hf]
  obtain ⟨f, sup, ind⟩ := env
  obtain ⟨node, i, cf, a, ms, m, ex, g, cx, p, l, t, ct, ch, sg, cc, tc, cg, id, nt, cn, md,
    mb, ci, ⟨sp⟩, tr⟩ := s
  simp only at hi hc ha hj
  subst hi hc ha hj
  cases sup <;> simp only [stored_master] at hm <;> cases hm <;> rfl

theorem activate_not_set (env : Env) (s : State) (hf : env.no_fault)
    (hm : stored_master env s = none)
    (hi : s.initialised_ = true) (hc : s.configured_ = true) (ha : s.activated_ = false) :
    perform Op.activate env s =
      ⟨Res.raised (Exn.MasterException MasterErrorCode.MasterNotMasterSet "activate"),
        { acquired s with
          trace := Event.call (Call.hook Hook.activate) :: (acquired s).trace }⟩ := by
  rw [Env.eq_of_no_fault env hf]
  obtain ⟨f, sup, ind⟩ := env
  obtain ⟨node, i, cf, a, ms, m, ex, g, cx, p, l, t, ct, ch, sg, cc, tc, cg, id, nt, cn, md,
    mb, ci, sp, tr⟩ := s
  simp only at hi hc ha
  subst hi hc ha
  cases sup <;> simp only [stored_master] at hm <;> cases hm
  rfl

theorem Env.eq_of_hooks_return (env : Env) (hf : env.hooks_return) :
    env = ⟨fun c => match c with
      | Call.hook _ => none
      | c => env.fault c, env.supplied, env.indeterminate⟩ := by
  obtain ⟨f, sup, ind⟩ := env
  have : f = fun c => match c with
      | Call.hook _ => none
      | c => f c := by
    funext c
    cases c <;> first | rfl | exact hf _
  rw [Env.mk.injEq]
  exact ⟨this, rfl, rfl⟩

theorem deactivate_ok (env : Env) (s : State) (ex : Executor) (cx : Context)
    (hf : env.hooks_return)
    (hi : s.initialised_ = true) (hc : s.configured_ = true) (ha : s.activated_ = true)
    (he : s.exec_ = some ex) (hcx : s.ctx_ = some cx) (hj : s.spinner_.joinable = true) :
    perform Op.deactivate env s = ⟨Res.ok (),
      { s with
        exec_ := some { ex with posted := ex.posted + 1 }
        ctx_ := some { cx with shutdown_requests := cx.shutdown_requests + 1 }
        spinner_ := ⟨false⟩
        activated_ := false
        trace := deactivate_trace.reverse ++ s.trace }⟩ := by
  rw [Env.eq_of_hooks_return env hf]
  obtain ⟨node, i, cf, a, ms, m, ex0, g, cx0, p, l, t, ct, ch, sg, cc, tc, cg, id, nt, cn, md,
    mb, ci, ⟨sp⟩, tr⟩ := s
  simp only at hi hc ha he hcx hj
  subst hi hc ha he hcx hj
  rfl

theorem cleanup_ok (env : Env) (s : State) (hf : env.hooks_return)
    (hi : s.initialised_ = true) (hc : s.configured_ = true) (ha : s.activated_ = false) :
    perform Op.cleanup env s = ⟨Res.ok (),
      { s with
        configured_ := false
        trace := cleanup_trace.reverse ++ s.trace }⟩ := by
  rw [Env.eq_of_hooks_return env hf]
  obtain ⟨node, i, cf, a, ms, m, ex0, g, cx, p, l, t, ct, ch, sg, cc, tc, cg, id, nt, cn, md,
    mb, ci, sp, tr⟩ := s
  simp only at hi hc ha
  subst hi hc ha
  rfl

/-- The cascade of `shutdown` from the Activated state. -/
theorem shutdown_activated (env : Env) (s : State) (ex : Executor) (cx : Context)
    (hf : env.hooks_return)
    (hi : s.initialised_ = true) (hc : s.configured_ = true) (ha : s.activated_ = true)
    (he : s.exec_ = some ex) (hcx : s.ctx_ = some cx) (hj : s.spinner_.joinable = true) :
    perform Op.shutdown env s = ⟨Res.ok (),
      { s with
        exec_ := some { ex with posted := ex.posted + 1 }
        ctx_ := some { cx with shutdown_requests := cx.shutdown_requests + 1 }
        spinner_ := ⟨false⟩
        master_set_ := false
        initialised_ := false
        configured_ := false
        activated_ := false
        trace := shutdown_trace.reverse ++ cleanup_trace.reverse ++ deactivate_trace.reverse
          ++ s.trace }⟩ := by
  rw [Env.eq_of_hooks_return env hf]
  obtain ⟨node, i, cf, a, ms, m, ex0, g, cx0, p, l, t, ct, ch, sg, cc, tc, cg, id, nt, cn, md,
    mb, ci, ⟨sp⟩, tr⟩ := s
  simp only at hi hc ha he hcx hj
  subst hi hc ha he hcx hj
  rfl

/-- The cascade of `shutdown` from the Configured state. -/
theorem shutdown_configured (env : Env) (s : State) (hf : env.hooks_return)
    (hi : s.initialised_ = true) (hc : s.configured_ = true) (ha : s.activated_ = false) :
    perform Op.shutdown env s = ⟨Res.ok (),
      { s with
        master_set_ := false
        initialised_ := false
        configured_ := false
        activated_ := false
        trace := shutdown_trace.reverse ++ cleanup_trace.reverse ++ s.trace }⟩ := by
  rw [Env.eq_of_hooks_return env hf]
  obtain ⟨node, i, cf, a, ms, m, ex0, g, cx, p, l, t, ct, ch, sg, cc, tc, cg, id, nt, cn, md,
    mb, ci, sp, tr⟩ := s
  simp only at hi hc ha
  subst hi hc ha
  rfl

/-- The `shutdown` of an object that is neither configured nor activated. -/
theorem shutdown_idle (env : Env) (s : State) (hf : env.hooks_return)
    (hc : s.configured_ = false) (ha : s.activated_ = false) :
    perform Op.shutdown env s = ⟨Res.ok (),
      { s with
        master_set_ := false
        initialised_ := false
        configured_ := false
        activated_ := false
        trace := shutdown_trace.reverse ++ s.trace }⟩ := by
  rw [Env.eq_of_hooks_return env hf]
  obtain ⟨node, i, cf, a, ms, m, ex0, g, cx, p, l, t, ct, ch, sg, cc, tc, cg, id, nt, cn, md,
    mb, ci, sp, tr⟩ := s
  simp only at hc ha
  subst hc ha
  rfl

/-! ## The spinner handle, when no hook throws -/

theorem spinner_matches_perform (op : Op) (env : Env) (s : State) (hf : env.hooks_return)
    (hinv : invariant s) (h : spinner_matches s) :
    spinner_matches (perform op env s).state := by
  cases op
  · obtain ⟨hfr, _, _, _⟩ := init_summary env s
    rw [hfr]
    exact h
  · obtain ⟨hfr, _, _, _⟩ := configure_summary env s
    rw [hfr]
    exact h
  · refine activate_sat env s (fun _ s1 => spinner_matches s1) (fun _ _ _ => h) ?_ ?_
    · intro hpre e s1 hs1
      have hfr := acquire_resources_frame env s
      rw [hs1] at hfr
      rw [hfr]
      exact h
    · intro hpre
      simp [finish_activation]
      repeat' split
      all_goals simp_all [spinner_matches, acquired, precondition]
  · obtain ⟨hfr, hok, hfail, _, hsp, _, _⟩ := deactivate_summary env s
    have hsp2 := hsp (hf _)
    generalize perform Op.deactivate env s = o at hfr hok hfail hsp2 ⊢
    obtain ⟨r, s1⟩ := o
    simp only at hfr hok hfail hsp2 ⊢
    rw [hfr]
    clear hfr
    by_cases hr : r = Res.ok ()
    · have := hok hr
      simp_all [spinner_matches]
    · have := hfail hr
      have := hsp2 hr
      simp_all [spinner_matches]
  · obtain ⟨hfr, _, _, _⟩ := cleanup_summary env s
    rw [hfr]
    exact h
  · refine shutdown_sat env s (fun _ s1 => spinner_matches s1) ?_ ?_ ?_
    · intro ha hx
      obtain ⟨hfr, _, hfail, _, hsp, _⟩ := deactivate_summary env s
      rw [hfr]
      intro _
      rw [hsp (hf _) hx]
      exact h ha
    · intro s1 h1 _ _
      obtain ⟨_, k2, _⟩ := cascade_deactivated env s s1 hinv h1
      obtain ⟨hfr, _⟩ := cleanup_summary env s1
      rw [hfr]
      intro ha
      rw [k2] at ha
      cases ha
    · intro s1 s2 h1 h2
      obtain ⟨k1, k2, k3⟩ := cascade_deactivated env s s1 hinv h1
      obtain ⟨_, ha, _⟩ := cascade_cleaned env s1 s2 k1 k2 k3 h2
      cases env.fault (Call.hook Hook.shutdown)
      · simp [spinner_matches]
      · simp [spinner_matches, ha]

/-- Between calls whose hooks return, the invariant holds and the spinner handle is
joinable exactly while activated. -/
theorem reachable_hooks_return (node : Node) (s : State)
    (h : Reachable Env.hooks_return node s) : invariant s ∧ spinner_matches s := by
  induction h with
  | start => exact ⟨invariant_construct node, by simp [spinner_matches, construct]⟩
  | call op env s _ hgood ih =>
    exact ⟨invariant_perform op env s ih.1, spinner_matches_perform op env s hgood ih.1 ih.2⟩

/-- When the guards of `activate` pass, the only `MasterException` it can raise is
`MasterNotMasterSet`. -/
theorem activate_sequencing (env : Env) (s : State) (c : MasterErrorCode) (w : String)
    (h : (perform Op.activate env s).exit = Res.raised (Exn.MasterException c w))
    (hc : c.sequencing = true) : precondition Op.activate s = false := by
  refine activate_sat env s (fun r _ => r = Res.raised (Exn.MasterException c w) →
    precondition Op.activate s = false) ?_ ?_ ?_ h
  · intro hp _ _ _
    exact hp
  · intro _ e s1 _ h2
    cases h2
  · intro _
    simp [finish_activation]
    repeat' split
    all_goals first
      | (intro h2; cases h2; cases hc)
      | simp_all

/-! ## Successful calls, in any environment -/

theorem activate_ok_post (env : Env) (s : State)
    (h : (perform Op.activate env s).exit = Res.ok ()) :
    precondition Op.activate s = true
    ∧ s.spinner_.joinable = false
    ∧ (perform Op.activate env s).state.initialised_ = s.initialised_
    ∧ (perform Op.activate env s).state.configured_ = s.configured_
    ∧ (perform Op.activate env s).state.activated_ = true
    ∧ (perform Op.activate env s).state.master_set_ = true
    ∧ (perform Op.activate env s).state.spinner_.joinable = true := by
  refine activate_sat env s (fun r s1 => r = Res.ok () →
    precondition Op.activate s = true ∧ s.spinner_.joinable = false
    ∧ s1.initialised_ = s.initialised_ ∧ s1.configured_ = s.configured_
    ∧ s1.activated_ = true ∧ s1.master_set_ = true ∧ s1.spinner_.joinable = true) ?_ ?_ ?_ h
  · intro _ _ _ h2
    cases h2
  · intro _ _ _ _ h2
    cases h2
  · intro hpre
    simp [finish_activation]
    repeat' split
    all_goals simp_all [acquired]

theorem shutdown_ok_post (env : Env) (s : State)
    (h : (perform Op.shutdown env s).exit = Res.ok ()) :
    flags (perform Op.shutdown env s).state = (false, false, false, false) := by
  refine shutdown_sat env s (fun r s1 => r = Res.ok () →
    flags s1 = (false, false, false, false)) ?_ ?_ ?_ h
  · intro _ hx h2
    exact absurd h2 hx
  · intro _ _ _ hx h2
    exact absurd h2 hx
  · intro _ s2 _ _
    cases env.fault (Call.hook Hook.shutdown)
    · intro _
      rfl
    · intro h2
      cases h2

/-! ## The resource handles are never released -/

theorem resources_held_deactivate (env : Env) (s : State)
    (h : resources_held s = true) :
    resources_held (perform Op.deactivate env s).state = true := by
  obtain ⟨hfr, _, _, _, _, hex, hctx, _⟩ := deactivate_summary env s
  rw [hfr]
  simp only [resources_held, Bool.and_eq_true] at h ⊢
  simp only [hex, hctx]
  exact h

theorem resources_held_cascade (env : Env) (s s1 : State) (h : resources_held s = true)
    (h1 : (s.activated_ = false ∧ s1 = s)
      ∨ (s.activated_ = true ∧ (perform Op.deactivate env s).exit = Res.ok ()
          ∧ s1 = (perform Op.deactivate env s).state)) :
    resources_held s1 = true := by
  rcases h1 with ⟨_, rfl⟩ | ⟨_, _, rfl⟩
  · exact h
  · exact resources_held_deactivate env s h

theorem resources_held_perform (op : Op) (env : Env) (s : State)
    (h : resources_held s = true) : resources_held (perform op env s).state = true := by
  cases op
  · obtain ⟨hfr, _⟩ := init_summary env s
    rw [hfr]
    exact h
  · obtain ⟨hfr, _⟩ := configure_summary env s
    rw [hfr]
    exact h
  · refine activate_sat env s (fun _ s1 => resources_held s1 = true) (fun _ _ _ => h) ?_ ?_
    · intro _ e s1 hs1
      have hk := acquire_resources_keeps env s
      rw [hs1] at hk
      simp only [resources_held, Bool.and_eq_true] at h ⊢
      obtain ⟨⟨⟨⟨⟨⟨⟨⟨h1, h2⟩, h3⟩, h4⟩, h5⟩, h6⟩, h7⟩, h8⟩, h9⟩ := h
      obtain ⟨k1, k2, k3, k4, k5, k6, k7, k8, k9⟩ := hk
      exact ⟨⟨⟨⟨⟨⟨⟨⟨k1 h1, k2 h2⟩, k3 h3⟩, k4 h4⟩, k5 h5⟩, k6 h6⟩, k7 h7⟩, k8 h8⟩, k9 h9⟩
    · intro _
      simp [finish_activation]
      repeat' split
      all_goals simp [resources_held, acquired]
  · exact resources_held_deactivate env s h
  · obtain ⟨hfr, _⟩ := cleanup_summary env s
    rw [hfr]
    exact h
  · refine shutdown_sat env s (fun _ s1 => resources_held s1 = true) ?_ ?_ ?_
    · intro _ _
      exact resources_held_deactivate env s h
    · intro s1 h1 _ _
      obtain ⟨hfr, _⟩ := cleanup_summary env s1
      rw [hfr]
      exact resources_held_cascade env s s1 h h1
    · intro s1 s2 h1 h2
      have k1 := resources_held_cascade env s s1 h h1
      have k2 : resources_held s2 = true := by
        rcases h2 with ⟨_, rfl⟩ | ⟨_, _, rfl⟩
        · exact k1
        · obtain ⟨hfr, _⟩ := cleanup_summary env s1
          rw [hfr]
          exact k1
      cases env.fault (Call.hook Hook.shutdown)
      · exact k2
      · exact k2

/-- With the nine handles held, the executor and the context are there. -/
theorem held_exec_ctx (s : State) (h : resources_held s = true) :
    ∃ ex cx, s.exec_ = some ex ∧ s.ctx_ = some cx := by
  simp only [resources_held, Bool.and_eq_true] at h
  obtain ⟨ex, hex⟩ := Option.isSome_iff_exists.mp h.1.1.1.1.2
  obtain ⟨cx, hcx⟩ := Option.isSome_iff_exists.mp h.1.1.1.1.1.1.1.2
  exact ⟨ex, cx, hex, hcx⟩

/-! ## The options stay declared -/

theorem has_parameter_declared (n : Node) (name : String) (h : name ∈ option_names) :
    (declared n).has_parameter name = true := by
  simp only [option_names, List.mem_cons, List.mem_singleton, List.not_mem_nil, or_false] at h
  rcases h with h | h | h | h | h | h | h <;> subst h <;>
    simp [declared, has_parameter_with_string, has_parameter_with_integer]

set_option maxRecDepth 100000 in
theorem init_parameters (env : Env) (s : State) :
    (∀ name, s.node_.has_parameter name = true →
      (perform Op.init env s).state.node_.has_parameter name = true)
    ∧ ((perform Op.init env s).exit = Res.ok () →
        (perform Op.init env s).state.node_ = declared s.node_)
    ∧ (s.node_.has_parameter "container_name" = true →
        (perform Op.init env s).exit ≠ Res.ok ()) := by
  refine perform_sat Op.init env s (fun r s1 =>
    (∀ name, s.node_.has_parameter name = true → s1.node_.has_parameter name = true)
    ∧ (r = Res.ok () → s1.node_ = declared s.node_)
    ∧ (s.node_.has_parameter "container_name" = true → r ≠ Res.ok ())) ?_
  simp [body, init, declared, has_parameter_with_string, has_parameter_with_integer,
    has_parameter_callback_groups]
  repeat' split
  all_goals simp_all

theorem activate_frame (env : Env) (s : State) :
    (perform Op.activate env s).state.node_ = s.node_
    ∧ (perform Op.activate env s).state.initialised_ = s.initialised_ := by
  refine activate_sat env s (fun _ s1 => s1.node_ = s.node_
    ∧ s1.initialised_ = s.initialised_) (fun _ _ _ => ⟨rfl, rfl⟩) ?_ ?_
  · intro _ e s1 hs1
    have hfr := acquire_resources_frame env s
    rw [hs1] at hfr
    rw [hfr]
    exact ⟨rfl, rfl⟩
  · intro _
    simp [finish_activation]
    repeat' split
    all_goals simp [acquired]

theorem shutdown_frame (env : Env) (s : State) :
    (perform Op.shutdown env s).state.node_ = s.node_
    ∧ ((perform Op.shutdown env s).state.initialised_ = true → s.initialised_ = true) := by
  have hd : (perform Op.deactivate env s).state.node_ = s.node_
      ∧ (perform Op.deactivate env s).state.initialised_ = s.initialised_ := by
    obtain ⟨hfr, _⟩ := deactivate_summary env s
    rw [hfr]
    exact ⟨rfl, rfl⟩
  have h1 : ∀ s1, ((s.activated_ = false ∧ s1 = s)
      ∨ (s.activated_ = true ∧ (perform Op.deactivate env s).exit = Res.ok ()
          ∧ s1 = (perform Op.deactivate env s).state)) →
      s1.node_ = s.node_ ∧ s1.initialised_ = s.initialised_ := by
    intro s1 h
    rcases h with ⟨_, rfl⟩ | ⟨_, _, rfl⟩
    · exact ⟨rfl, rfl⟩
    · exact hd
  have hc : ∀ s1, (perform Op.cleanup env s1).state.node_ = s1.node_
      ∧ (perform Op.cleanup env s1).state.initialised_ = s1.initialised_ := by
    intro s1
    obtain ⟨hfr, _⟩ := cleanup_summary env s1
    rw [hfr]
    exact ⟨rfl, rfl⟩
  refine shutdown_sat env s (fun _ s1 => s1.node_ = s.node_
    ∧ (s1.initialised_ = true → s.initialised_ = true)) ?_ ?_ ?_
  · intro _ _
    exact ⟨hd.1, fun h => by rw [← hd.2]; exact h⟩
  · intro s1 k1 _ _
    obtain ⟨n1, i1⟩ := h1 s1 k1
    exact ⟨by rw [(hc s1).1, n1], fun h => by rw [← i1, ← (hc s1).2]; exact h⟩
  · intro s1 s2 k1 k2
    obtain ⟨n1, i1⟩ := h1 s1 k1
    have h2 : s2.node_ = s.node_ ∧ s2.initialised_ = s.initialised_ := by
      rcases k2 with ⟨_, rfl⟩ | ⟨_, _, rfl⟩
      · exact ⟨n1, i1⟩
      · exact ⟨by rw [(hc s1).1, n1], by rw [(hc s1).2, i1]⟩
    cases env.fault (Call.hook Hook.shutdown)
    · exact ⟨h2.1, fun h => by cases h⟩
    · exact ⟨h2.1, fun h => by rw [← h2.2]; exact h⟩

/-- An option that is declared on the node stays declared, whatever is called. -/
theorem declared_perform (op : Op) (env : Env) (s : State) (name : String)
    (h : s.node_.has_parameter name = true) :
    (perform op env s).state.node_.has_parameter name = true := by
  cases op
  · exact (init_parameters env s).1 _ h
  · obtain ⟨hfr, _⟩ := configure_summary env s
    rw [hfr]
    exact h
  · rw [(activate_frame env s).1]
    exact h
  · obtain ⟨hfr, _⟩ := deactivate_summary env s
    rw [hfr]
    exact h
  · obtain ⟨hfr, _⟩ := cleanup_summary env s
    rw [hfr]
    exact h
  · rw [(shutdown_frame env s).1]
    exact h

theorem initialised_declared_perform (op : Op) (env : Env) (s : State)
    (h : s.initialised_ = true → s.node_.all_declared) :
    (perform op env s).state.initialised_ = true →
      (perform op env s).state.node_.all_declared := by
  cases op
  · intro hi name hn
    by_cases hx : (perform Op.init env s).exit = Res.ok ()
    · rw [(init_parameters env s).2.1 hx]
      exact has_parameter_declared _ _ hn
    · obtain ⟨_, _, _, hfail⟩ := init_summary env s
      rw [hfail hx] at hi
      exact (init_parameters env s).1 _ (h hi name hn)
  · obtain ⟨hfr, _⟩ := configure_summary env s
    rw [hfr]
    exact h
  · rw [(activate_frame env s).1, (activate_frame env s).2]
    exact h
  · obtain ⟨hfr, _⟩ := deactivate_summary env s
    rw [hfr]
    exact h
  · obtain ⟨hfr, _⟩ := cleanup_summary env s
    rw [hfr]
    exact h
  · intro hi
    rw [(shutdown_frame env s).1]
    exact h ((shutdown_frame env s).2 hi)

/-- Once `init` has succeeded on a node, the options are declared on it: in every
reachable state, in any environments, an initialised object sits on a node that has the
seven options declared, so that every read of `configure` finds a declared option. -/
theorem initialised_declared_reachable (good : Env → Prop) (node : Node) (s : State)
    (h : Reachable good node s) : s.initialised_ = true → s.node_.all_declared := by
  induction h with
  | start =>
    intro hi
    cases hi
  | call op env s _ _ ih => exact initialised_declared_perform op env s ih

/-- On a node that has `container_name` declared, `init` called with its precondition
satisfied does not return and raises no `MasterException`; it leaves the four flags and
the resource handles as they were. -/
theorem init_refused (env : Env) (s : State)
    (hd : s.node_.has_parameter "container_name" = true)
    (hpre : precondition Op.init s = true) :
    (perform Op.init env s).exit ≠ Res.ok ()
    ∧ (∀ c w, (perform Op.init env s).exit ≠ Res.raised (Exn.MasterException c w))
    ∧ flags (perform Op.init env s).state = flags s
    ∧ (perform Op.init env s).state.exec_ = s.exec_
    ∧ (perform Op.init env s).state.ctx_ = s.ctx_
    ∧ (perform Op.init env s).state.spinner_ = s.spinner_ := by
  have hx := (init_parameters env s).2.2 hd
  obtain ⟨hfr, _, hm, hfail⟩ := init_summary env s
  refine ⟨hx, ?_, ?_, ?_, ?_, ?_⟩
  · intro c w h
    rw [hm c w h] at hpre
    cases hpre
  · have hi := hfail hx
    rw [hfr]
    simp only [flags]
    rw [hi]
  · rw [hfr]
  · rw [hfr]
  · rw [hfr]

theorem configure_not_initialised (env : Env) (s : State) (hi : s.initialised_ = false) :
    perform Op.configure env s
      = ⟨Res.raised (Exn.MasterException MasterErrorCode.MasterNotInitialised "Configure"),
          s⟩ := by
  obtain ⟨node, i, cf, a, ms, m, ex, g, cx, p, l, t, ct, ch, sg, cc, tc, cg, id, nt, cn, md,
    mb, ci, sp, tr⟩ := s
  simp only at hi
  subst hi
  rfl

theorem activate_not_initialised (env : Env) (s : State) (hi : s.initialised_ = false) :
    perform Op.activate env s
      = ⟨Res.raised (Exn.MasterException MasterErrorCode.MasterNotInitialised "Activate"),
          s⟩ := by
  obtain ⟨node, i, cf, a, ms, m, ex, g, cx, p, l, t, ct, ch, sg, cc, tc, cg, id, nt, cn, md,
    mb, ci, sp, tr⟩ := s
  simp only at hi
  subst hi
  rfl

/-! ## Histories -/

theorem history_of_trace (s s1 : State) (l : List Event)
    (h : s1.trace = l.reverse ++ s.trace) : s1.history = s.history ++ l := by
  simp [State.history, h]

/-! ## Guards -/

theorem first_violation_of_violated (op : Op) (s : State) (h : precondition op s = false) :
    ∃ c, first_violation op s = some c ∧ c.sequencing = true := by
  cases op <;> cases h1 : s.initialised_ <;> cases h2 : s.configured_ <;>
    cases h3 : s.activated_ <;>
    simp_all [precondition, first_violation, MasterErrorCode.sequencing]

theorem first_violation_of_satisfied (op : Op) (s : State) (h : precondition op s = true) :
    first_violation op s = none := by
  cases op <;> cases h1 : s.initialised_ <;> cases h2 : s.configured_ <;>
    cases h3 : s.activated_ <;>
    simp_all [precondition, first_violation]

theorem sequencing_only_when_violated (op : Op) (env : Env) (s : State)
    (hop : op ≠ Op.shutdown) (c : MasterErrorCode) (w : String)
    (h : (perform op env s).exit = Res.raised (Exn.MasterException c w))
    (hc : c.sequencing = true) : precondition op s = false := by
  cases op
  · exact (init_summary env s).2.2.1 c w h
  · exact (configure_summary env s).2.2.1 c w h
  · exact activate_sequencing env s c w h hc
  · exact (deactivate_summary env s).2.2.2.2.2.2.2 c w h
  · exact (cleanup_summary env s).2.2.1 c w h
  · exact absurd rfl hop

/-- C1: for init, configure, activate, deactivate and cleanup, a call made in a state
that violates the precondition table raises a `MasterException` and leaves the whole
object as it was: the four flags, the configuration, the resource handles, the master
handle, the spinner thread and the host node. The ghost trace is part of the object,
so nothing was recorded: no hook and no collaborator was entered. (The table of
`shutdown` has no violating state.) -/
theorem C1_violation_raises_and_keeps_state (op : Op) (env : Env) (s : State)
    (hv : precondition op s = false) :
    ∃ code what, perform op env s = ⟨Res.raised (Exn.MasterException code what), s⟩ := by
  obtain ⟨c, hc, _⟩ := first_violation_of_violated op s hv
  obtain ⟨w, hw⟩ := guard_raises op env s c hc
  exact ⟨c, w, hw⟩

theorem C1_witness :
    precondition Op.activate (construct ⟨[], [], [], 0⟩) = false
    ∧ ∃ code what, perform Op.activate (Env.calm none) (construct ⟨[], [], [], 0⟩)
        = ⟨Res.raised (Exn.MasterException code what), construct ⟨[], [], [], 0⟩⟩ :=
  ⟨rfl, C1_violation_raises_and_keeps_state Op.activate (Env.calm none)
    (construct ⟨[], [], [], 0⟩) rfl⟩

/-- C2: for init, configure, activate, deactivate and cleanup, the exception raised on
a violated precondition carries the code of the first violated condition in the order
initialised, configured, activated (`first_violation`); the call raises a sequencing
error (any code but `MasterNotMasterSet`) if and only if the precondition is violated;
and `first_violation` names a code exactly in the violating states. Hooks and
collaborators throw exceptions of their own, not a `MasterException`. -/
theorem C2_error_code_of_first_violation (op : Op) (env : Env) (s : State)
    (hop : op ≠ Op.shutdown) :
    (∀ c, first_violation op s = some c →
      ∃ what, (perform op env s).exit = Res.raised (Exn.MasterException c what))
    ∧ ((∃ c what, c.sequencing = true
          ∧ (perform op env s).exit = Res.raised (Exn.MasterException c what))
        ↔ precondition op s = false)
    ∧ ((first_violation op s).isSome = !precondition op s) := by
  refine ⟨?_, ⟨?_, ?_⟩, ?_⟩
  · intro c hc
    obtain ⟨w, hw⟩ := guard_raises op env s c hc
    exact ⟨w, by rw [hw]⟩
  · rintro ⟨c, w, hc, h⟩
    exact sequencing_only_when_violated op env s hop c w h hc
  · intro hv
    obtain ⟨c, hc, hseq⟩ := first_violation_of_violated op s hv
    obtain ⟨w, hw⟩ := guard_raises op env s c hc
    exact ⟨c, w, hseq, by rw [hw]⟩
  · cases hp : precondition op s
    · obtain ⟨c, hc, _⟩ := first_violation_of_violated op s hp
      simp [hc]
    · simp [first_violation_of_satisfied op s hp]

theorem C2_witness :
    Op.deactivate ≠ Op.shutdown
    ∧ ∃ what, (perform Op.deactivate (Env.calm none) (construct ⟨[], [], [], 0⟩)).exit
        = Res.raised (Exn.MasterException MasterErrorCode.MasterNotInitialised what) :=
  ⟨by decide, (C2_error_code_of_first_violation Op.deactivate (Env.calm none)
    (construct ⟨[], [], [], 0⟩) (by decide)).1 MasterErrorCode.MasterNotInitialised rfl⟩

/-! ## The cycle init, configure, activate, deactivate, cleanup -/

theorem run_calls_cons (op : Op) (env : Env) (rest : List (Op × Env)) (s : State) :
    run_calls ((op, env) :: rest) s =
      ((perform op env s).exit :: (run_calls rest (perform op env s).state).1,
        (run_calls rest (perform op env s).state).2) := rfl

theorem run_calls_append (a b : List (Op × Env)) (s : State) :
    run_calls (a ++ b) s =
      ((run_calls a s).1 ++ (run_calls b (run_calls a s).2).1,
        (run_calls b (run_calls a s).2).2) := by
  induction a generalizing s with
  | nil => rfl
  | cons x rest ih =>
    obtain ⟨op, env⟩ := x
    rw [List.cons_append, run_calls_cons, run_calls_cons, ih]
    rfl

theorem init_step (env : Env) (s : State) (hf : env.no_fault) (hu : s.node_.undeclared)
    (hc : s.configured_ = false) (ha : s.activated_ = false) :
    (perform Op.init env s).exit = Res.ok ()
    ∧ flags (perform Op.init env s).state = (true, false, false, s.master_set_)
    ∧ (perform Op.init env s).state.spinner_ = s.spinner_
    ∧ (perform Op.init env s).state.node_ = declared s.node_ := by
  rw [init_calm env s hf hu hc ha]
  simp [flags, hc, ha]

theorem init_again_step (env : Env) (s : State) (hf : env.no_fault)
    (hd : s.node_.has_parameter "container_name" = true)
    (hc : s.configured_ = false) (ha : s.activated_ = false) :
    (perform Op.init env s).exit = Res.raised (Exn.ParameterAlreadyDeclared "container_name")
    ∧ flags (perform Op.init env s).state = flags s
    ∧ (perform Op.init env s).state.spinner_ = s.spinner_
    ∧ (perform Op.init env s).state.node_.has_parameter "container_name" = true := by
  rw [init_redeclared env s hf hd hc ha]
  exact ⟨rfl, rfl, rfl, hd⟩

theorem configure_step (env : Env) (s : State) (hf : env.no_fault)
    (hi : s.initialised_ = true) (hc : s.configured_ = false) (ha : s.activated_ = false) :
    (perform Op.configure env s).exit = Res.ok ()
    ∧ flags (perform Op.configure env s).state = (true, true, false, s.master_set_)
    ∧ (perform Op.configure env s).state.spinner_ = s.spinner_
    ∧ (perform Op.configure env s).state.node_ = s.node_ := by
  rw [configure_calm env s hf hi hc ha]
  simp [flags, hi, ha]

theorem activate_step (env : Env) (s : State) (h : Handle) (hf : env.no_fault)
    (hm : stored_master env s = some h)
    (hi : s.initialised_ = true) (hc : s.configured_ = true) (ha : s.activated_ = false)
    (hj : s.spinner_.joinable = false) :
    (perform Op.activate env s).exit = Res.ok ()
    ∧ flags (perform Op.activate env s).state = (true, true, true, true)
    ∧ (perform Op.activate env s).state.spinner_.joinable = true
    ∧ (perform Op.activate env s).state.exec_ = some ⟨0⟩
    ∧ (perform Op.activate env s).state.ctx_ = some ⟨0⟩
    ∧ (perform Op.activate env s).state.node_ = s.node_ := by
  rw [activate_calm env s h hf hm hi hc ha hj]
  simp [flags, acquired, hi, hc]

theorem deactivate_step (env : Env) (s : State) (ex : Executor) (cx : Context)
    (hf : env.hooks_return)
    (hi : s.initialised_ = true) (hc : s.configured_ = true) (ha : s.activated_ = true)
    (he : s.exec_ = some ex) (hcx : s.ctx_ = some cx) (hj : s.spinner_.joinable = true) :
    (perform Op.deactivate env s).exit = Res.ok ()
    ∧ flags (perform Op.deactivate env s).state = (true, true, false, s.master_set_)
    ∧ (perform Op.deactivate env s).state.spinner_.joinable = false
    ∧ (perform Op.deactivate env s).state.node_ = s.node_ := by
  rw [deactivate_ok env s ex cx hf hi hc ha he hcx hj]
  simp [flags, hi, hc]

theorem cleanup_step (env : Env) (s : State) (hf : env.hooks_return)
    (hi : s.initialised_ = true) (hc : s.configured_ = true) (ha : s.activated_ = false) :
    (perform Op.cleanup env s).exit = Res.ok ()
    ∧ flags (perform Op.cleanup env s).state = (true, false, false, s.master_set_)
    ∧ (perform Op.cleanup env s).state.spinner_ = s.spinner_
    ∧ (perform Op.cleanup env s).state.node_ = s.node_ := by
  rw [cleanup_ok env s hf hi hc ha]
  simp [flags, hi, ha]

theorem flags_eq (s : State) (i c a m : Bool) (h : flags s = (i, c, a, m)) :
    s.initialised_ = i ∧ s.configured_ = c ∧ s.activated_ = a ∧ s.master_set_ = m := by
  simpa [flags] using h

theorem Env.no_fault.hooks_return {env : Env} (hf : env.no_fault) : env.hooks_return :=
  fun _ => hf _

/-- The calls configure, activate, deactivate, cleanup, made on an initialised object
that is neither configured nor activated and has no joinable spinner, in environments
where nothing throws and the `activate` hook supplies a handle: the four calls return,
and the object ends initialised, not configured, not activated, with `master_set_` true
and the spinner not joinable, on the same node. -/
theorem cycle_tail_run (envs : Fin 5 → Env) (h : Handle) (s : State)
    (hf : ∀ k, (envs k).no_fault) (hs : (envs 2).supplied = some h)
    (hi : s.initialised_ = true) (hc : s.configured_ = false) (ha : s.activated_ = false)
    (hj : s.spinner_.joinable = false) :
    (run_calls [(Op.configure, envs 1), (Op.activate, envs 2), (Op.deactivate, envs 3),
        (Op.cleanup, envs 4)] s).1 = List.replicate 4 (Res.ok ())
    ∧ flags (run_calls [(Op.configure, envs 1), (Op.activate, envs 2), (Op.deactivate, envs 3),
        (Op.cleanup, envs 4)] s).2 = (true, false, false, true)
    ∧ (run_calls [(Op.configure, envs 1), (Op.activate, envs 2), (Op.deactivate, envs 3),
        (Op.cleanup, envs 4)] s).2.spinner_.joinable = false
    ∧ (run_calls [(Op.configure, envs 1), (Op.activate, envs 2), (Op.deactivate, envs 3),
        (Op.cleanup, envs 4)] s).2.node_ = s.node_ := by
  have hm : ∀ s0 : State, stored_master (envs 2) s0 = some h := by
    intro s0
    simp [stored_master, hs]
  simp only [run_calls_cons]
  obtain ⟨x2, f2, j2, n2⟩ := configure_step (envs 1) s (hf 1) hi hc ha
  generalize perform Op.configure (envs 1) s = o2 at x2 f2 j2 n2 ⊢
  obtain ⟨i2, c2, a2, _⟩ := flags_eq _ _ _ _ _ f2
  obtain ⟨x3, f3, j3, e3, k3, n3⟩ := activate_step (envs 2) o2.state h (hf 2) (hm _) i2 c2 a2
    (by rw [j2, hj])
  generalize perform Op.activate (envs 2) o2.state = o3 at x3 f3 j3 e3 k3 n3 ⊢
  obtain ⟨i3, c3, a3, m3⟩ := flags_eq _ _ _ _ _ f3
  obtain ⟨x4, f4, j4, n4⟩ := deactivate_step (envs 3) o3.state ⟨0⟩ ⟨0⟩ (hf 3).hooks_return
    i3 c3 a3 e3 k3 j3
  generalize perform Op.deactivate (envs 3) o3.state = o4 at x4 f4 j4 n4 ⊢
  obtain ⟨i4, c4, a4, m4⟩ := flags_eq _ _ _ _ _ f4
  obtain ⟨x5, f5, j5, n5⟩ := cleanup_step (envs 4) o4.state (hf 4).hooks_return i4 c4 a4
  generalize perform Op.cleanup (envs 4) o4.state = o5 at x5 f5 j5 n5 ⊢
  refine ⟨?_, ?_, ?_, ?_⟩
  · simp [run_calls, x2, x3, x4, x5, List.replicate]
  · simp [run_calls, f5, m4, m3]
  · simp [run_calls, j5, j4]
  · simp [run_calls, n5, n4, n3, n2]

/-- One cycle, started with `configured_` and `activated_` false and the spinner not
joinable on a node that has not declared the options, in environments where nothing
throws and the `activate` hook supplies a handle: the five calls return, and the object
ends initialised, not configured, not activated, with `master_set_` true and the
spinner not joinable; the options are declared on its node. -/
theorem cycle_run (envs : Fin 5 → Env) (h : Handle) (s : State)
    (hf : ∀ k, (envs k).no_fault) (hs : (envs 2).supplied = some h)
    (hu : s.node_.undeclared)
    (hc : s.configured_ = false) (ha : s.activated_ = false)
    (hj : s.spinner_.joinable = false) :
    (run_calls (cycle envs) s).1 = List.replicate 5 (Res.ok ())
    ∧ flags (run_calls (cycle envs) s).2 = (true, false, false, true)
    ∧ (run_calls (cycle envs) s).2.spinner_.joinable = false
    ∧ (run_calls (cycle envs) s).2.node_.has_parameter "container_name" = true := by
  simp only [cycle]
  rw [run_calls_cons]
  obtain ⟨x1, f1, j1, n1⟩ := init_step (envs 0) s (hf 0) hu hc ha
  generalize perform Op.init (envs 0) s = o1 at x1 f1 j1 n1 ⊢
  obtain ⟨i1, c1, a1, _⟩ := flags_eq _ _ _ _ _ f1
  obtain ⟨xt, ft, jt, nt⟩ := cycle_tail_run envs h o1.state hf hs i1 c1 a1 (by rw [j1, hj])
  refine ⟨?_, ft, jt, ?_⟩
  · simp only [x1, xt]
    rfl
  · simp only [nt, n1]
    exact has_parameter_declared _ _ (by simp [option_names])

/-- One cycle on an object whose node has the options declared already, in the
lifecycle state a first cycle leaves: `init` is refused, the other four calls return,
and the flags and the spinner end as they were. -/
theorem cycle_rerun (envs : Fin 5 → Env) (h : Handle) (s : State)
    (hf : ∀ k, (envs k).no_fault) (hs : (envs 2).supplied = some h)
    (hd : s.node_.has_parameter "container_name" = true)
    (hfl : flags s = (true, false, false, true))
    (hj : s.spinner_.joinable = false) :
    (run_calls (cycle envs) s).1 = repeated_cycle_exits
    ∧ flags (run_calls (cycle envs) s).2 = (true, false, false, true)
    ∧ (run_calls (cycle envs) s).2.spinner_.joinable = false
    ∧ (run_calls (cycle envs) s).2.node_.has_parameter "container_name" = true := by
  obtain ⟨hi, hc, ha, _⟩ := flags_eq _ _ _ _ _ hfl
  simp only [cycle]
  rw [run_calls_cons]
  obtain ⟨x1, f1, j1, n1⟩ := init_again_step (envs 0) s (hf 0) hd hc ha
  generalize perform Op.init (envs 0) s = o1 at x1 f1 j1 n1 ⊢
  rw [hfl] at f1
  obtain ⟨i1, c1, a1, _⟩ := flags_eq _ _ _ _ _ f1
  obtain ⟨xt, ft, jt, nt⟩ := cycle_tail_run envs h o1.state hf hs i1 c1 a1 (by rw [j1, hj])
  refine ⟨?_, ft, jt, ?_⟩
  · simp only [x1, xt]
    rfl
  · rw [nt]
    exact n1

theorem cycles_run (envs : Nat → Fin 5 → Env) (node : Node) (hu : node.undeclared)
    (hf : ∀ i k, (envs i k).no_fault) (hs : ∀ i, ∃ h, (envs i 2).supplied = some h)
    (n : Nat) :
    (run_calls (cycles envs (n + 1)) (construct node)).1 = cycles_exits (n + 1)
    ∧ flags (run_calls (cycles envs (n + 1)) (construct node)).2 = (true, false, false, true)
    ∧ (run_calls (cycles envs (n + 1)) (construct node)).2.spinner_.joinable = false
    ∧ (run_calls (cycles envs (n + 1)) (construct node)).2.node_.has_parameter
        "container_name" = true := by
  induction n with
  | zero =>
    obtain ⟨h, hh⟩ := hs 0
    have := cycle_run (envs 0) h (construct node) (hf 0) hh hu rfl rfl rfl
    simpa [cycles, cycles_exits] using this
  | succ k ih =>
    obtain ⟨hx, hfl, hj, hd⟩ := ih
    obtain ⟨h, hh⟩ := hs (k + 1)
    obtain ⟨cx, cf, cj, cd⟩ := cycle_rerun (envs (k + 1)) h _ (hf (k + 1)) hh hd hfl hj
    rw [cycles, run_calls_append]
    refine ⟨?_, cf, cj, cd⟩
    simp only [hx, cx]
    rfl

theorem cycles_exits_length (k : Nat) : (cycles_exits (k + 1)).length = 5 * (k + 1) := by
  induction k with
  | zero => rfl
  | succ j ih =>
    rw [cycles_exits, List.length_append, ih]
    rfl

theorem no_master_exception_of_cycles_exits (n : Nat) (r : Res Unit) (h : r ∈ cycles_exits n)
    (c : MasterErrorCode) (w : String) : r ≠ Res.raised (Exn.MasterException c w) := by
  induction n using Nat.strong_induction_on with
  | _ n ih =>
    match n, h with
    | 1, h =>
      simp only [cycles_exits, List.mem_replicate] at h
      rw [h.2]
      intro h2
      cases h2
    | k + 2, h =>
      simp only [cycles_exits, List.mem_append] at h
      rcases h with h | h
      · exact ih (k + 1) (by omega) h
      · simp only [repeated_cycle_exits, List.mem_cons, List.mem_singleton,
          List.not_mem_nil, or_false] at h
        rcases h with h | h | h | h | h <;> rw [h] <;> intro h2 <;> cases h2

/-- C3, the claim refuted: on a fresh object the sequence init, configure, activate,
deactivate, cleanup, run with nothing throwing and a hook that supplies the handle 7,
returns five times, and the four flags are not all false afterwards. -/
theorem C3_counterexample :
    (run_calls (cycle fun _ => Env.calm (some 7)) (construct ⟨[], [], [], 0⟩)).1
      = List.replicate 5 (Res.ok ())
    ∧ flags (run_calls (cycle fun _ => Env.calm (some 7)) (construct ⟨[], [], [], 0⟩)).2
      ≠ (false, false, false, false) := by
  constructor
  · rfl
  · decide

/-- C3, as amended: from the freshly constructed object, with nothing throwing and an
`activate` hook that supplies a handle, the five calls init, configure, activate,
deactivate, cleanup all return, and afterwards `configured_` and `activated_` are false
while `initialised_` and `master_set_` are true: the object is in the Initialized
state, not in the initial one. (That nothing throws includes the node: it accepts the
seven declarations of `init`, none of the options being declared on it before.) -/
theorem C3_cycle_ends_initialised (node : Node) (envs : Fin 5 → Env) (h : Handle)
    (hu : node.undeclared)
    (hf : ∀ k, (envs k).no_fault) (hs : (envs 2).supplied = some h) :
    (run_calls (cycle envs) (construct node)).1 = List.replicate 5 (Res.ok ())
    ∧ flags (run_calls (cycle envs) (construct node)).2 = (true, false, false, true)
    ∧ lifecycle_state (run_calls (cycle envs) (construct node)).2
        = LifecycleState.Initialized := by
  obtain ⟨hx, hfl, _⟩ := cycle_run envs h (construct node) hf hs hu rfl rfl rfl
  obtain ⟨i, c, a, _⟩ := flags_eq _ _ _ _ _ hfl
  exact ⟨hx, hfl, by simp [lifecycle_state, i, c, a]⟩

theorem C3_witness :
    Node.undeclared ⟨[], [], [], 0⟩
    ∧ (∀ k : Fin 5, ((fun _ => Env.calm (some 7)) k : Env).no_fault)
    ∧ (Env.calm (some 7)).supplied = some 7
    ∧ (run_calls (cycle fun _ => Env.calm (some 7)) (construct ⟨[], [], [], 0⟩)).1
        = List.replicate 5 (Res.ok ())
    ∧ flags (run_calls (cycle fun _ => Env.calm (some 7)) (construct ⟨[], [], [], 0⟩)).2
        = (true, false, false, true)
    ∧ lifecycle_state (run_calls (cycle fun _ => Env.calm (some 7)) (construct ⟨[], [], [], 0⟩)).2
        = LifecycleState.Initialized :=
  ⟨fun _ _ => rfl, fun _ _ => rfl, rfl,
    C3_cycle_ends_initialised ⟨[], [], [], 0⟩ (fun _ => Env.calm (some 7)) 7 (fun _ _ => rfl)
      (fun _ _ => rfl) rfl⟩

/-- C4: for every n ≥ 1, from the freshly constructed object on a node that has not
declared the options, with no fault of the environment and `activate` hooks that supply
a handle, the cycle init, configure, activate, deactivate, cleanup is run n times in a
row. None of the 5n calls raises a `MasterException`, so none raises a sequencing
error, and the flags after the n-th repetition are those after the first. How the calls
end is `cycles_exits n`: the five calls of the first repetition return; in every later
repetition `init` is refused the declaration of `container_name`, which the first
`init` declared, and raises the error of the node, while configure, activate,
deactivate and cleanup return, `initialised_` having stayed true. -/
theorem C4_restart (node : Node) (envs : Nat → Fin 5 → Env) (hu : node.undeclared)
    (hf : ∀ i k, (envs i k).no_fault) (hs : ∀ i, ∃ h, (envs i 2).supplied = some h)
    (n : Nat) (hn : 1 ≤ n) :
    (run_calls (cycles envs n) (construct node)).1.length = 5 * n
    ∧ (∀ r, r ∈ (run_calls (cycles envs n) (construct node)).1 →
        ∀ c w, r ≠ Res.raised (Exn.MasterException c w))
    ∧ flags (run_calls (cycles envs n) (construct node)).2
        = flags (run_calls (cycles envs 1) (construct node)).2
    ∧ (run_calls (cycles envs n) (construct node)).1 = cycles_exits n := by
  obtain ⟨k, rfl⟩ : ∃ k, n = k + 1 := ⟨n - 1, by omega⟩
  obtain ⟨hx, hfl, _, _⟩ := cycles_run envs node hu hf hs k
  obtain ⟨_, hfl1, _, _⟩ := cycles_run envs node hu hf hs 0
  refine ⟨?_, ?_, by rw [hfl, hfl1], hx⟩
  · rw [hx]
    exact cycles_exits_length k
  · intro r hr c w
    rw [hx] at hr
    exact no_master_exception_of_cycles_exits _ r hr c w

theorem C4_witness :
    Node.undeclared ⟨[], [], [], 0⟩
    ∧ (1 ≤ 2)
    ∧ (run_calls (cycles (fun _ _ => Env.calm (some 7)) 2) (construct ⟨[], [], [], 0⟩)).1.length
        = 5 * 2
    ∧ flags (run_calls (cycles (fun _ _ => Env.calm (some 7)) 2) (construct ⟨[], [], [], 0⟩)).2
        = flags (run_calls (cycles (fun _ _ => Env.calm (some 7)) 1)
            (construct ⟨[], [], [], 0⟩)).2
    ∧ (run_calls (cycles (fun _ _ => Env.calm (some 7)) 2) (construct ⟨[], [], [], 0⟩)).1
        = [Res.ok (), Res.ok (), Res.ok (), Res.ok (), Res.ok (),
           Res.raised (Exn.ParameterAlreadyDeclared "container_name"), Res.ok (), Res.ok (),
           Res.ok (), Res.ok ()] :=
  ⟨fun _ _ => rfl, by decide,
    (C4_restart ⟨[], [], [], 0⟩ (fun _ _ => Env.calm (some 7)) (fun _ _ => rfl)
      (fun _ _ _ => rfl) (fun _ => ⟨7, rfl⟩) 2 (by decide)).1,
    (C4_restart ⟨[], [], [], 0⟩ (fun _ _ => Env.calm (some 7)) (fun _ _ => rfl)
      (fun _ _ _ => rfl) (fun _ => ⟨7, rfl⟩) 2 (by decide)).2.2.1,
    (C4_restart ⟨[], [], [], 0⟩ (fun _ _ => Env.calm (some 7)) (fun _ _ => rfl)
      (fun _ _ _ => rfl) (fun _ => ⟨7, rfl⟩) 2 (by decide)).2.2.2⟩

theorem example_deactivated_reachable (good : Env → Prop) (h0 : good (Env.calm none))
    (h7 : good (Env.calm (some 7))) :
    Reachable good ⟨[], [], [], 0⟩ example_deactivated :=
  Reachable.call Op.deactivate _ _
    (Reachable.call Op.activate _ _
      (Reachable.call Op.configure _ _
        (Reachable.call Op.init _ _ Reachable.start h0) h0) h7) h0

/-- C5, the claim refuted: after init, configure, activate with a hook supplying the
handle 7, and deactivate, the object is reachable and satisfies the precondition of
`activate`; a second `activate` whose hook supplies no handle does not raise
`MasterNotMasterSet`: it returns, with `master_set_` and `activated_` true, the stale
master 7 reset and the spinner thread started. -/
theorem C5_counterexample :
    Reachable (fun _ => True) ⟨[], [], [], 0⟩ example_deactivated
    ∧ precondition Op.activate example_deactivated = true
    ∧ (Env.calm none).supplied = none
    ∧ (perform Op.activate (Env.calm none) example_deactivated).exit = Res.ok ()
    ∧ (perform Op.activate (Env.calm none) example_deactivated).state.master_set_ = true
    ∧ (perform Op.activate (Env.calm none) example_deactivated).state.activated_ = true
    ∧ (perform Op.activate (Env.calm none) example_deactivated).state.spinner_.joinable = true
    ∧ (perform Op.activate (Env.calm none) example_deactivated).state.trace.take 3
        = [Event.store Flag.activated true, Event.call Call.thread_start,
           Event.call (Call.master_reset 7)] :=
  ⟨example_deactivated_reachable _ trivial trivial, rfl, rfl, rfl, rfl, rfl, rfl, rfl⟩

/-- C5, as amended: in every reachable state that satisfies the precondition of
`activate` and in which no master handle is stored (`master_` is empty, as it is until
a hook has supplied one), if nothing throws and the hook of this call supplies no
handle, then `activate` raises `MasterNotMasterSet`, `master_set_` is false after the
call, `activated_` stays false, the spinner handle is untouched, and the call recorded
only the acquisition of the resources and the hook: the master was not reset and no
thread was started. -/
theorem C5_activate_without_handle (node : Node) (s : State) (env : Env)
    (hr : Reachable (fun _ => True) node s) (hpre : precondition Op.activate s = true)
    (hf : env.no_fault) (hsup : env.supplied = none) (hm : s.master_ = none) :
    (perform Op.activate env s).exit
      = Res.raised (Exn.MasterException MasterErrorCode.MasterNotMasterSet "activate")
    ∧ (perform Op.activate env s).state.master_set_ = false
    ∧ (perform Op.activate env s).state.activated_ = false
    ∧ (perform Op.activate env s).state.spinner_ = s.spinner_
    ∧ (perform Op.activate env s).state.history
        = s.history ++ (acquire_trace ++ [Event.call (Call.hook Hook.activate)]) := by
  simp only [precondition, Bool.and_eq_true, Bool.not_eq_true'] at hpre
  obtain ⟨⟨hi, hc⟩, ha⟩ := hpre
  obtain ⟨_, _, _, i4, _, _⟩ := invariant_reachable _ node s hr
  have hms : s.master_set_ = false := by
    cases hb : s.master_set_
    · rfl
    · have := (i4 hb).1
      rw [hm] at this
      cases this
  have hst : stored_master env s = none := by simp [stored_master, hsup, hm]
  rw [activate_not_set env s hf hst hi hc ha]
  refine ⟨rfl, hms, ha, rfl, ?_⟩
  exact history_of_trace s _ _ (by simp [acquired])

theorem C5_witness :
    precondition Op.activate (perform Op.configure (Env.calm none)
        (perform Op.init (Env.calm none) fresh).state).state = true
    ∧ (perform Op.activate (Env.calm none) (perform Op.configure (Env.calm none)
        (perform Op.init (Env.calm none) fresh).state).state).exit
      = Res.raised (Exn.MasterException MasterErrorCode.MasterNotMasterSet "activate")
    ∧ (perform Op.activate (Env.calm none) (perform Op.configure (Env.calm none)
        (perform Op.init (Env.calm none) fresh).state).state).state.master_set_ = false :=
  ⟨rfl,
    (C5_activate_without_handle ⟨[], [], [], 0⟩ _ (Env.calm none)
      (Reachable.call Op.configure (Env.calm none) _
        (Reachable.call Op.init (Env.calm none) _ Reachable.start trivial) trivial)
      rfl (fun _ => rfl) rfl rfl).1,
    (C5_activate_without_handle ⟨[], [], [], 0⟩ _ (Env.calm none)
      (Reachable.call Op.configure (Env.calm none) _
        (Reachable.call Op.init (Env.calm none) _ Reachable.start trivial) trivial)
      rfl (fun _ => rfl) rfl rfl).2.1⟩

/-- C6: in every state an object can reach from the initial one by lifecycle calls
whose hooks return (calls that succeed, calls that raise a sequencing error, calls in
which a collaborator throws), a `shutdown` whose hooks return raises nothing, and
afterwards the four flags are false. -/
theorem C6_shutdown_from_any_state (node : Node) (s : State) (env : Env)
    (hr : Reachable Env.hooks_return node s) (hf : env.hooks_return) :
    (perform Op.shutdown env s).exit = Res.ok ()
    ∧ flags (perform Op.shutdown env s).state = (false, false, false, false) := by
  obtain ⟨⟨i1, i2, _, _, i5, _⟩, hsm⟩ := reachable_hooks_return node s hr
  cases ha : s.activated_
  · cases hc : s.configured_
    · rw [shutdown_idle env s hf hc ha]
      exact ⟨rfl, rfl⟩
    · rw [shutdown_configured env s hf (i2 hc) hc ha]
      exact ⟨rfl, rfl⟩
  · obtain ⟨ex, cx, hex, hcx⟩ := held_exec_ctx s (i5 ha)
    rw [shutdown_activated env s ex cx hf (i2 (i1 ha)) (i1 ha) ha hex hcx (hsm ha)]
    exact ⟨rfl, rfl⟩

theorem C6_witness :
    Reachable Env.hooks_return ⟨[], [], [], 0⟩ example_deactivated
    ∧ (Env.calm none).hooks_return
    ∧ (perform Op.shutdown (Env.calm none) example_deactivated).exit = Res.ok ()
    ∧ flags (perform Op.shutdown (Env.calm none) example_deactivated).state
        = (false, false, false, false) :=
  ⟨example_deactivated_reachable _ (fun _ => rfl) (fun _ => rfl), fun _ => rfl,
    C6_shutdown_from_any_state ⟨[], [], [], 0⟩ example_deactivated (Env.calm none)
      (example_deactivated_reachable _ (fun _ => rfl) (fun _ => rfl)) (fun _ => rfl)⟩

/-- C7, the claim refuted: on a fresh object, init, configure, activate return and
`shutdown`, called in the Activated state, returns with the four flags false. The
following `init` on the same node does not return: the node refuses `container_name`,
which the first `init` declared. `initialised_` therefore stays false, and `configure`
and `activate`, the hook of which would supply the handle 8, raise
`MasterNotInitialised`. No resource is created anew: the context is the one the posted
job shut down, and there is no spinner thread. -/
theorem C7_counterexample :
    (perform Op.activate (Env.calm (some 1)) example_configured).state.activated_ = true
    ∧ (perform Op.shutdown (Env.calm none)
        (perform Op.activate (Env.calm (some 1)) example_configured).state).exit = Res.ok ()
    ∧ flags (perform Op.shutdown (Env.calm none)
        (perform Op.activate (Env.calm (some 1)) example_configured).state).state
        = (false, false, false, false)
    ∧ (run_calls [(Op.init, Env.calm none), (Op.configure, Env.calm none),
          (Op.activate, Env.calm (some 8))]
        (perform Op.shutdown (Env.calm none)
          (perform Op.activate (Env.calm (some 1)) example_configured).state).state).1
        = [Res.raised (Exn.ParameterAlreadyDeclared "container_name"),
           Res.raised (Exn.MasterException MasterErrorCode.MasterNotInitialised "Configure"),
           Res.raised (Exn.MasterException MasterErrorCode.MasterNotInitialised "Activate")]
    ∧ (run_calls [(Op.init, Env.calm none), (Op.configure, Env.calm none),
          (Op.activate, Env.calm (some 8))]
        (perform Op.shutdown (Env.calm none)
          (perform Op.activate (Env.calm (some 1)) example_configured).state).state).2.ctx_
        = some ⟨1⟩
    ∧ (run_calls [(Op.init, Env.calm none), (Op.configure, Env.calm none),
          (Op.activate, Env.calm (some 8))]
        (perform Op.shutdown (Env.calm none)
          (perform Op.activate (Env.calm (some 1)) example_configured).state).state).2.spinner_.joinable
        = false := by
  refine ⟨rfl, rfl, rfl, ?_, rfl, rfl⟩
  decide

/-- C7, as amended: `shutdown` called in a reachable Activated state, with hooks that
return, returns after recording, in this order, the posting of the job that shuts the
context down, the run of that job by the spinner thread, the join of the thread, the
deactivate hook, the store clearing `activated_`, the cleanup hook, the store clearing
`configured_`, the shutdown hook and the four stores resetting the flags; each hook is
entered exactly once, the flags end false, the spinner is not joinable, the context has
received one more shutdown request, and the nine resource handles are still held.
The object cannot be started again on its node: in any environment a following `init`
does not return and raises no `MasterException` (when no call fails for another reason
it raises the refusal of `container_name` by the node), the flags stay false, and
`configure` and `activate` then raise `MasterNotInitialised` without touching the
object, so no resource and no spinner thread is created anew. -/
theorem C7_shutdown_cascade_without_restart (node : Node) (s : State) (env e1 e2 e3 : Env)
    (hr : Reachable Env.hooks_return node s) (ha : s.activated_ = true)
    (hf : env.hooks_return) :
    (perform Op.shutdown env s).exit = Res.ok ()
    ∧ (perform Op.shutdown env s).state.history = s.history ++
        [Event.post Job.shutdown_context, Event.ctx_shutdown, Event.join,
         Event.call (Call.hook Hook.deactivate), Event.store Flag.activated false,
         Event.call (Call.hook Hook.cleanup), Event.store Flag.configured false,
         Event.call (Call.hook Hook.shutdown), Event.store Flag.master_set false,
         Event.store Flag.initialised false, Event.store Flag.configured false,
         Event.store Flag.activated false]
    ∧ flags (perform Op.shutdown env s).state = (false, false, false, false)
    ∧ (perform Op.shutdown env s).state.spinner_.joinable = false
    ∧ (∃ cx, s.ctx_ = some cx
        ∧ (perform Op.shutdown env s).state.ctx_ = some ⟨cx.shutdown_requests + 1⟩)
    ∧ resources_held (perform Op.shutdown env s).state = true
    ∧ (perform Op.init e1 (perform Op.shutdown env s).state).exit ≠ Res.ok ()
    ∧ (∀ c w, (perform Op.init e1 (perform Op.shutdown env s).state).exit
        ≠ Res.raised (Exn.MasterException c w))
    ∧ (e1.no_fault → (perform Op.init e1 (perform Op.shutdown env s).state).exit
        = Res.raised (Exn.ParameterAlreadyDeclared "container_name"))
    ∧ (run_calls [(Op.init, e1), (Op.configure, e2), (Op.activate, e3)]
        (perform Op.shutdown env s).state).1
        = [(perform Op.init e1 (perform Op.shutdown env s).state).exit,
           Res.raised (Exn.MasterException MasterErrorCode.MasterNotInitialised "Configure"),
           Res.raised (Exn.MasterException MasterErrorCode.MasterNotInitialised "Activate")]
    ∧ (run_calls [(Op.init, e1), (Op.configure, e2), (Op.activate, e3)]
        (perform Op.shutdown env s).state).2
        = (perform Op.init e1 (perform Op.shutdown env s).state).state
    ∧ flags (perform Op.init e1 (perform Op.shutdown env s).state).state
        = (false, false, false, false)
    ∧ (perform Op.init e1 (perform Op.shutdown env s).state).state.exec_
        = (perform Op.shutdown env s).state.exec_
    ∧ (perform Op.init e1 (perform Op.shutdown env s).state).state.ctx_
        = (perform Op.shutdown env s).state.ctx_
    ∧ (perform Op.init e1 (perform Op.shutdown env s).state).state.spinner_.joinable
        = false := by
  obtain ⟨⟨i1, i2, _, _, i5, _⟩, hsm⟩ := reachable_hooks_return node s hr
  obtain ⟨ex, cx, hex, hcx⟩ := held_exec_ctx s (i5 ha)
  have hdecl : (perform Op.shutdown env s).state.node_.has_parameter "container_name"
      = true := by
    rw [(shutdown_frame env s).1]
    exact initialised_declared_reachable _ node s hr (i2 (i1 ha)) _ (by simp [option_names])
  have hheld := resources_held_perform Op.shutdown env s (i5 ha)
  have hsd := shutdown_activated env s ex cx hf (i2 (i1 ha)) (i1 ha) ha hex hcx (hsm ha)
  have hfl : flags (perform Op.shutdown env s).state = (false, false, false, false) := by
    rw [hsd]
    rfl
  have hj : (perform Op.shutdown env s).state.spinner_.joinable = false := by
    rw [hsd]
  have hctx : (perform Op.shutdown env s).state.ctx_ = some ⟨cx.shutdown_requests + 1⟩ := by
    rw [hsd]
  have hhist : (perform Op.shutdown env s).state.history = s.history ++
        [Event.post Job.shutdown_context, Event.ctx_shutdown, Event.join,
         Event.call (Call.hook Hook.deactivate), Event.store Flag.activated false,
         Event.call (Call.hook Hook.cleanup), Event.store Flag.configured false,
         Event.call (Call.hook Hook.shutdown), Event.store Flag.master_set false,
         Event.store Flag.initialised false, Event.store Flag.configured false,
         Event.store Flag.activated false] := by
    rw [hsd]
    exact history_of_trace s _ _ rfl
  have hx : (perform Op.shutdown env s).exit = Res.ok () := by
    rw [hsd]
  generalize (perform Op.shutdown env s).state = sd at hdecl hheld hfl hj hctx hhist ⊢
  obtain ⟨f1, f2, f3, _⟩ := flags_eq _ _ _ _ _ hfl
  obtain ⟨r1, r2, r3, r4, r5, r6⟩ := init_refused e1 sd hdecl (by simp [precondition, f2, f3])
  rw [hfl] at r3
  have hi : (perform Op.init e1 sd).state.initialised_ = false :=
    (flags_eq _ _ _ _ _ r3).1
  refine ⟨hx, hhist, hfl, hj, ⟨cx, hcx, hctx⟩, hheld, r1, r2, ?_, ?_, ?_, r3, r4, r5, ?_⟩
  · intro hnf
    rw [init_redeclared e1 sd hnf hdecl f2 f3]
  · simp only [run_calls_cons]
    rw [configure_not_initialised e2 _ hi, activate_not_initialised e3 _ hi]
    rfl
  · simp only [run_calls_cons]
    rw [configure_not_initialised e2 _ hi, activate_not_initialised e3 _ hi]
    rfl
  · rw [r6, hj]

theorem C7_witness :
    (perform Op.shutdown (Env.calm none)
      (perform Op.activate (Env.calm (some 7)) example_deactivated).state).exit = Res.ok ()
    ∧ flags (perform Op.shutdown (Env.calm none)
        (perform Op.activate (Env.calm (some 7)) example_deactivated).state).state
      = (false, false, false, false)
    ∧ (perform Op.init (Env.calm none) (perform Op.shutdown (Env.calm none)
        (perform Op.activate (Env.calm (some 7)) example_deactivated).state).state).exit
      ≠ Res.ok () :=
  ⟨(C7_shutdown_cascade_without_restart ⟨[], [], [], 0⟩
      (perform Op.activate (Env.calm (some 7)) example_deactivated).state
      (Env.calm none) (Env.calm none) (Env.calm none) (Env.calm (some 8))
      (Reachable.call Op.activate (Env.calm (some 7)) _
        (example_deactivated_reachable _ (fun _ => rfl) (fun _ => rfl)) (fun _ => rfl))
      rfl (fun _ => rfl)).1,
    (C7_shutdown_cascade_without_restart ⟨[], [], [], 0⟩
      (perform Op.activate (Env.calm (some 7)) example_deactivated).state
      (Env.calm none) (Env.calm none) (Env.calm none) (Env.calm (some 8))
      (Reachable.call Op.activate (Env.calm (some 7)) _
        (example_deactivated_reachable _ (fun _ => rfl) (fun _ => rfl)) (fun _ => rfl))
      rfl (fun _ => rfl)).2.2.1,
    (C7_shutdown_cascade_without_restart ⟨[], [], [], 0⟩
      (perform Op.activate (Env.calm (some 7)) example_deactivated).state
      (Env.calm none) (Env.calm none) (Env.calm none) (Env.calm (some 8))
      (Reachable.call Op.activate (Env.calm (some 7)) _
        (example_deactivated_reachable _ (fun _ => rfl) (fun _ => rfl)) (fun _ => rfl))
      rfl (fun _ => rfl)).2.2.2.2.2.2.1⟩

/-- C8: postconditions of `activate` and `deactivate`. From every state satisfying the
precondition of `activate` (the spinner not being joinable), when nothing throws and
the hook supplies a handle, `activate` returns with `master_set_` true, `activated_`
true and a joinable spinner thread; and whenever `activate` returns, in any
environment, these three hold. From every state satisfying the precondition of
`deactivate` with an executor, a context for the posted job to shut down and a joinable
spinner, when the hook returns, `deactivate` returns with the spinner joined (not
joinable), `activated_` false and `initialised_` and `configured_` unchanged; and
whenever `deactivate` returns, in any environment, these hold. -/
theorem C8_activate_deactivate_postconditions :
    (∀ (env : Env) (s : State) (h : Handle), precondition Op.activate s = true →
      s.spinner_.joinable = false → env.no_fault → env.supplied = some h →
      (perform Op.activate env s).exit = Res.ok ())
    ∧ (∀ (env : Env) (s : State), (perform Op.activate env s).exit = Res.ok () →
      (perform Op.activate env s).state.master_set_ = true
      ∧ (perform Op.activate env s).state.activated_ = true
      ∧ (perform Op.activate env s).state.spinner_.joinable = true)
    ∧ (∀ (env : Env) (s : State) (ex : Executor) (cx : Context),
      precondition Op.deactivate s = true →
      s.exec_ = some ex → s.ctx_ = some cx → s.spinner_.joinable = true → env.hooks_return →
      (perform Op.deactivate env s).exit = Res.ok ())
    ∧ (∀ (env : Env) (s : State), (perform Op.deactivate env s).exit = Res.ok () →
      (perform Op.deactivate env s).state.spinner_.joinable = false
      ∧ (perform Op.deactivate env s).state.activated_ = false
      ∧ (perform Op.deactivate env s).state.initialised_ = s.initialised_
      ∧ (perform Op.deactivate env s).state.configured_ = s.configured_) := by
  refine ⟨?_, ?_, ?_, ?_⟩
  · intro env s h hpre hj hf hs
    simp only [precondition, Bool.and_eq_true, Bool.not_eq_true'] at hpre
    exact (activate_step env s h hf (by simp [stored_master, hs]) hpre.1.1 hpre.1.2 hpre.2
      hj).1
  · intro env s hx
    obtain ⟨_, _, _, _, h5, h6, h7⟩ := activate_ok_post env s hx
    exact ⟨h6, h5, h7⟩
  · intro env s ex cx hpre he hcx hj hf
    simp only [precondition, Bool.and_eq_true] at hpre
    exact (deactivate_step env s ex cx hf hpre.1.1 hpre.1.2 hpre.2 he hcx hj).1
  · intro env s hx
    obtain ⟨hfr, hok, _⟩ := deactivate_summary env s
    obtain ⟨_, _, h3, h4⟩ := hok hx
    refine ⟨h4, h3, ?_, ?_⟩
    · rw [hfr]
    · rw [hfr]

theorem C8_witness :
    example_configured.can_interface_ = "vcan0"
    ∧ example_configured.node_id_ = 5
    ∧ example_configured.non_transmit_timeout_ = 100
    ∧ (perform Op.activate (Env.calm (some 1)) example_configured).exit = Res.ok ()
    ∧ (perform Op.activate (Env.calm (some 1)) example_configured).state.master_set_ = true
    ∧ (perform Op.activate (Env.calm (some 1)) example_configured).state.spinner_.joinable
        = true
    ∧ (perform Op.deactivate (Env.calm none)
        (perform Op.activate (Env.calm (some 1)) example_configured).state).exit = Res.ok ()
    ∧ (perform Op.deactivate (Env.calm none)
        (perform Op.activate (Env.calm (some 1)) example_configured).state).state.spinner_.joinable
        = false
    ∧ (perform Op.deactivate (Env.calm none)
        (perform Op.activate (Env.calm (some 1)) example_configured).state).state.activated_
        = false :=
  ⟨rfl, rfl, rfl,
    C8_activate_deactivate_postconditions.1 (Env.calm (some 1)) example_configured 1 rfl rfl
      (fun _ => rfl) rfl,
    (C8_activate_deactivate_postconditions.2.1 (Env.calm (some 1)) example_configured rfl).1,
    (C8_activate_deactivate_postconditions.2.1 (Env.calm (some 1)) example_configured rfl).2.2,
    C8_activate_deactivate_postconditions.2.2.1 (Env.calm none)
      (perform Op.activate (Env.calm (some 1)) example_configured).state ⟨0⟩ ⟨0⟩ rfl rfl rfl
      rfl (fun _ => rfl),
    (C8_activate_deactivate_postconditions.2.2.2 (Env.calm none)
      (perform Op.activate (Env.calm (some 1)) example_configured).state rfl).1,
    (C8_activate_deactivate_postconditions.2.2.2 (Env.calm none)
      (perform Op.activate (Env.calm (some 1)) example_configured).state rfl).2.1⟩

theorem lifecycle_state_of_flags (s : State) :
    lifecycle_state s =
      match s.activated_, s.configured_, s.initialised_ with
      | true, _, _ => LifecycleState.Activated
      | false, true, _ => LifecycleState.Configured
      | false, false, true => LifecycleState.Initialized
      | false, false, false => LifecycleState.Uninitialized := by
  cases h1 : s.activated_ <;> cases h2 : s.configured_ <;> cases h3 : s.initialised_ <;>
    simp [lifecycle_state, h1, h2, h3]

theorem successful_transition (op : Op) (env : Env) (s : State)
    (hx : (perform op env s).exit = Res.ok ()) :
    match op with
    | Op.init =>
      (lifecycle_state s = LifecycleState.Uninitialized
        ∨ lifecycle_state s = LifecycleState.Initialized)
      ∧ lifecycle_state (perform op env s).state = LifecycleState.Initialized
    | Op.shutdown => lifecycle_state (perform op env s).state = LifecycleState.Uninitialized
    | _ => some (lifecycle_state s, lifecycle_state (perform op env s).state) = step_of op := by
  cases op
  · obtain ⟨hfr, hok, _⟩ := init_summary env s
    obtain ⟨hp, hi⟩ := hok hx
    simp only [precondition, Bool.and_eq_true, Bool.not_eq_true'] at hp
    have hc : (perform Op.init env s).state.configured_ = s.configured_ := by rw [hfr]
    have ha : (perform Op.init env s).state.activated_ = s.activated_ := by rw [hfr]
    simp only [lifecycle_state_of_flags, hc, ha, hi, hp.1, hp.2]
    cases s.initialised_ <;> simp
  · obtain ⟨hfr, hok, _⟩ := configure_summary env s
    obtain ⟨hp, hi⟩ := hok hx
    simp only [precondition, Bool.and_eq_true, Bool.not_eq_true'] at hp
    have hc : (perform Op.configure env s).state.initialised_ = s.initialised_ := by rw [hfr]
    have ha : (perform Op.configure env s).state.activated_ = s.activated_ := by rw [hfr]
    simp [lifecycle_state_of_flags, hc, ha, hi, hp.1.1, hp.1.2, hp.2, step_of]
  · obtain ⟨hp, _, h3, h4, h5, _, _⟩ := activate_ok_post env s hx
    simp only [precondition, Bool.and_eq_true, Bool.not_eq_true'] at hp
    simp [lifecycle_state_of_flags, h3, h4, h5, hp.1.1, hp.1.2, hp.2, step_of]
  · obtain ⟨hfr, hok, _⟩ := deactivate_summary env s
    obtain ⟨hp, _, h3, _⟩ := hok hx
    simp only [precondition, Bool.and_eq_true] at hp
    have hc : (perform Op.deactivate env s).state.initialised_ = s.initialised_ := by rw [hfr]
    have ha : (perform Op.deactivate env s).state.configured_ = s.configured_ := by rw [hfr]
    simp [lifecycle_state_of_flags, hc, ha, h3, hp.1.1, hp.1.2, hp.2, step_of]
  · obtain ⟨hfr, hok, _⟩ := cleanup_summary env s
    obtain ⟨hp, h3⟩ := hok hx
    simp only [precondition, Bool.and_eq_true, Bool.not_eq_true'] at hp
    have hc : (perform Op.cleanup env s).state.initialised_ = s.initialised_ := by rw [hfr]
    have ha : (perform Op.cleanup env s).state.activated_ = s.activated_ := by rw [hfr]
    simp [lifecycle_state_of_flags, hc, ha, h3, hp.1.1, hp.1.2, hp.2, step_of]
  · have := shutdown_ok_post env s hx
    obtain ⟨h1, h2, h3, _⟩ := flags_eq _ _ _ _ _ this
    simp [lifecycle_state_of_flags, h1, h2, h3]

/-- C9: no lifecycle state is skipped. In every state reachable from the initial one by
any sequence of the six operations, in any environments and including calls that fail,
`activated_` implies `configured_` and `configured_` implies `initialised_`. A
successful `init` ends in Initialized, from Uninitialized or from Initialized; a
successful `configure` goes from Initialized to Configured, `activate` from Configured
to Activated, `deactivate` from Activated to Configured, `cleanup` from Configured to
Initialized; so these five change the level by at most one and never end in
Uninitialized, while a successful `shutdown` always ends in Uninitialized. -/
theorem C9_no_state_skipped :
    (∀ (node : Node) (s : State), Reachable (fun _ => True) node s →
      (s.activated_ = true → s.configured_ = true)
      ∧ (s.configured_ = true → s.initialised_ = true))
    ∧ (∀ (env : Env) (s : State), (perform Op.init env s).exit = Res.ok () →
      (lifecycle_state s = LifecycleState.Uninitialized
        ∨ lifecycle_state s = LifecycleState.Initialized)
      ∧ lifecycle_state (perform Op.init env s).state = LifecycleState.Initialized)
    ∧ (∀ (env : Env) (s : State), (perform Op.configure env s).exit = Res.ok () →
      lifecycle_state s = LifecycleState.Initialized
      ∧ lifecycle_state (perform Op.configure env s).state = LifecycleState.Configured)
    ∧ (∀ (env : Env) (s : State), (perform Op.activate env s).exit = Res.ok () →
      lifecycle_state s = LifecycleState.Configured
      ∧ lifecycle_state (perform Op.activate env s).state = LifecycleState.Activated)
    ∧ (∀ (env : Env) (s : State), (perform Op.deactivate env s).exit = Res.ok () →
      lifecycle_state s = LifecycleState.Activated
      ∧ lifecycle_state (perform Op.deactivate env s).state = LifecycleState.Configured)
    ∧ (∀ (env : Env) (s : State), (perform Op.cleanup env s).exit = Res.ok () →
      lifecycle_state s = LifecycleState.Configured
      ∧ lifecycle_state (perform Op.cleanup env s).state = LifecycleState.Initialized)
    ∧ (∀ (env : Env) (s : State), (perform Op.shutdown env s).exit = Res.ok () →
      lifecycle_state (perform Op.shutdown env s).state = LifecycleState.Uninitialized)
    ∧ (∀ (op : Op) (env : Env) (s : State), op ≠ Op.shutdown →
      (perform op env s).exit = Res.ok () →
      lifecycle_state (perform op env s).state ≠ LifecycleState.Uninitialized
      ∧ (lifecycle_state (perform op env s).state).level ≤ (lifecycle_state s).level + 1
      ∧ (lifecycle_state s).level ≤ (lifecycle_state (perform op env s).state).level + 1) := by
  refine ⟨?_, ?_, ?_, ?_, ?_, ?_, ?_, ?_⟩
  · intro node s hr
    obtain ⟨i1, i2, _⟩ := invariant_reachable _ node s hr
    exact ⟨i1, i2⟩
  · intro env s hx
    exact successful_transition Op.init env s hx
  · intro env s hx
    have := successful_transition Op.configure env s hx
    simp only [step_of, Option.some.injEq, Prod.mk.injEq] at this
    exact this
  · intro env s hx
    have := successful_transition Op.activate env s hx
    simp only [step_of, Option.some.injEq, Prod.mk.injEq] at this
    exact this
  · intro env s hx
    have := successful_transition Op.deactivate env s hx
    simp only [step_of, Option.some.injEq, Prod.mk.injEq] at this
    exact this
  · intro env s hx
    have := successful_transition Op.cleanup env s hx
    simp only [step_of, Option.some.injEq, Prod.mk.injEq] at this
    exact this
  · intro env s hx
    exact successful_transition Op.shutdown env s hx
  · intro op env s hop hx
    have := successful_transition op env s hx
    cases op
    · obtain ⟨hb | hb, ha⟩ := this <;> simp [hb, ha, LifecycleState.level]
    · simp only [step_of, Option.some.injEq, Prod.mk.injEq] at this
      simp [this.1, this.2, LifecycleState.level]
    · simp only [step_of, Option.some.injEq, Prod.mk.injEq] at this
      simp [this.1, this.2, LifecycleState.level]
    · simp only [step_of, Option.some.injEq, Prod.mk.injEq] at this
      simp [this.1, this.2, LifecycleState.level]
    · simp only [step_of, Option.some.injEq, Prod.mk.injEq] at this
      simp [this.1, this.2, LifecycleState.level]
    · exact absurd rfl hop

theorem C9_witness :
    ((perform Op.activate (Env.calm (some 1)) example_configured).state.activated_ = true →
      (perform Op.activate (Env.calm (some 1)) example_configured).state.configured_ = true)
    ∧ lifecycle_state example_configured = LifecycleState.Configured
    ∧ lifecycle_state (perform Op.activate (Env.calm (some 1)) example_configured).state
        = LifecycleState.Activated :=
  ⟨(C9_no_state_skipped.1 _ (perform Op.activate (Env.calm (some 1)) example_configured).state
      (Reachable.call Op.activate _ _ (Reachable.call Op.configure (Env.calm none) _
        (Reachable.call Op.init (Env.calm none) _ Reachable.start trivial) trivial)
        trivial)).1,
    C9_no_state_skipped.2.2.2.1 (Env.calm (some 1)) example_configured rfl⟩

/-- C10, the claim refuted: the reachable state after init, configure, activate and a
successful deactivate has `activated_` false while all nine resource handles are still
held; none of them is empty. -/
theorem C10_counterexample :
    Reachable (fun _ => True) ⟨[], [], [], 0⟩ example_deactivated
    ∧ example_deactivated.activated_ = false
    ∧ resources_held example_deactivated = true
    ∧ resources_empty example_deactivated = false :=
  ⟨example_deactivated_reachable _ trivial trivial, rfl, rfl, rfl⟩

/-- C10, as amended: the resource handles are filled by `activate` and are not released
when the Activated state is left. In every state reachable by lifecycle calls in any
environments, `activated_` implies that all nine handles (io guard, context, poll,
loop, executor, timer, CAN controller, CAN channel, signal set) are held; and
`deactivate` releases none of them: called with the nine handles held, it leaves them
held, so they are still held after a successful deactivate. -/
theorem C10_resources_held_while_activated (node : Node) (s : State)
    (hr : Reachable (fun _ => True) node s) :
    (s.activated_ = true → resources_held s = true)
    ∧ (∀ (env : Env), resources_held s = true →
        resources_held (perform Op.deactivate env s).state = true) := by
  obtain ⟨_, _, _, _, i5, _⟩ := invariant_reachable _ node s hr
  exact ⟨i5, fun env h => resources_held_perform Op.deactivate env s h⟩

theorem C10_witness :
    Reachable (fun _ => True) ⟨[], [], [], 0⟩
      (perform Op.activate (Env.calm (some 7)) example_deactivated).state
    ∧ resources_held (perform Op.activate (Env.calm (some 7)) example_deactivated).state
        = true
    ∧ resources_held (perform Op.deactivate (Env.calm none)
        (perform Op.activate (Env.calm (some 7)) example_deactivated).state).state = true :=
  ⟨Reachable.call Op.activate _ _ (example_deactivated_reachable _ trivial trivial)
      trivial,
    (C10_resources_held_while_activated ⟨[], [], [], 0⟩ _
      (Reachable.call Op.activate (Env.calm (some 7)) _
        (example_deactivated_reachable _ trivial trivial) trivial)).1 rfl,
    (C10_resources_held_while_activated ⟨[], [], [], 0⟩ _
      (Reachable.call Op.activate (Env.calm (some 7)) _
        (example_deactivated_reachable _ trivial trivial) trivial)).2
      (Env.calm none) rfl⟩

/-! ## A hook that throws -/

theorem Env.eq_of_only_hook_throws (env : Env) (h : Hook) (e : Nat)
    (hf : env.only_hook_throws h e) :
    env = ⟨fun c => match c with
      | Call.hook h2 => if h2 = h then some e else none
      | _ => none, env.supplied, env.indeterminate⟩ := by
  obtain ⟨f, sup, ind⟩ := env
  obtain ⟨h1, h2⟩ := hf
  have : f = fun c => match c with
      | Call.hook h2 => if h2 = h then some e else none
      | _ => none := by
    funext c
    cases c
    case hook h3 =>
      by_cases hh : h3 = h
      · subst hh
        simpa using h1
      · simpa [hh] using h2 (Call.hook h3) (by simpa using hh)
    all_goals exact h2 _ (by simp)
  rw [Env.mk.injEq]
  exact ⟨this, rfl, rfl⟩

theorem init_hook_raises (env : Env) (s : State) (e : Nat)
    (hf : env.only_hook_throws Hook.init e) (hu : s.node_.undeclared)
    (hc : s.configured_ = false) (ha : s.activated_ = false) :
    perform Op.init env s = ⟨Res.raised (Exn.foreign e),
      { s with
        node_ := declared s.node_
        client_cbg_ := some ⟨s.node_.callback_groups⟩
        timer_cbg_ := some ⟨s.node_.callback_groups + 1⟩
        trace := init_trace.reverse.tail ++ s.trace }⟩ := by
  obtain ⟨h1, h2, h3, h4, h5, h6, h7⟩ := undeclared_names s.node_ hu
  obtain ⟨hh, ho⟩ := hf
  apply perform_eq
  simp [body, init, hh, ho, hc, ha, has_parameter_with_string, has_parameter_with_integer,
    has_parameter_callback_groups, h1, h2, h3, h4, h5, h6, h7, declared, init_trace]

/-- The hook of one of the five guarded operations throws `e`, nothing else throws, the
precondition holds and the hook is reached (`init` finds the options undeclared on its
node; `deactivate` finds its executor, the context and a joinable spinner): the
operation raises `e` and the four flags are as before. -/
theorem hook_raises (op : Op) (env : Env) (s : State) (e : Nat) (hop : op ≠ Op.shutdown)
    (hf : env.only_hook_throws (hook_of op) e) (hpre : precondition op s = true)
    (hi : op = Op.init → s.node_.undeclared)
    (hd : op = Op.deactivate →
      s.exec_.isSome = true ∧ s.ctx_.isSome = true ∧ s.spinner_.joinable = true) :
    (perform op env s).exit = Res.raised (Exn.foreign e)
    ∧ flags (perform op env s).state = flags s
    ∧ (perform op env s).state.trace.head? = some (Event.call (Call.hook (hook_of op))) := by
  cases op
  case init =>
    simp only [precondition, Bool.and_eq_true, Bool.not_eq_true'] at hpre
    rw [init_hook_raises env s e hf (hi rfl) hpre.1 hpre.2]
    exact ⟨rfl, rfl, rfl⟩
  all_goals rw [Env.eq_of_only_hook_throws env _ e hf]
  all_goals obtain ⟨node, i, cf, a, ms, m, ex, g, cx, p, l, t, ct, ch, sg, cc, tc, cg, id, nt,
    cn, md, mb, ci, ⟨sp⟩, tr⟩ := s
  case shutdown => exact absurd rfl hop
  case deactivate =>
    obtain ⟨he, hcx, hj⟩ := hd rfl
    simp only [precondition, Bool.and_eq_true] at hpre
    obtain ⟨⟨h1, h2⟩, h3⟩ := hpre
    simp only at h1 h2 h3 he hcx hj
    subst h1 h2 h3 hj
    cases ex
    · cases he
    · cases cx
      · cases hcx
      · exact ⟨rfl, rfl, rfl⟩
  all_goals simp only [precondition, Bool.and_eq_true, Bool.not_eq_true'] at hpre
  all_goals obtain ⟨⟨h1, h2⟩, h3⟩ := hpre
  all_goals subst h1 h2 h3
  all_goals exact ⟨rfl, rfl, rfl⟩

theorem activate_hook_raises (env : Env) (s : State) (e : Nat)
    (hf : env.only_hook_throws Hook.activate e)
    (hi : s.initialised_ = true) (hc : s.configured_ = true) (ha : s.activated_ = false) :
    perform Op.activate env s = ⟨Res.raised (Exn.foreign e),
      { acquired s with
        trace := Event.call (Call.hook Hook.activate) :: (acquired s).trace }⟩ := by
  rw [Env.eq_of_only_hook_throws env _ e hf]
  obtain ⟨node, i, cf, a, ms, m, ex, g, cx, p, l, t, ct, ch, sg, cc, tc, cg, id, nt, cn, md,
    mb, ci, sp, tr⟩ := s
  simp only at hi hc ha
  subst hi hc ha
  rfl

/-! ## Hooks that throw during `shutdown` -/

theorem Env.eq_of_hook_faults (env : Env) (d c : Option Nat)
    (hd : env.fault (Call.hook Hook.deactivate) = d)
    (hc : env.fault (Call.hook Hook.cleanup) = c) :
    env = ⟨fun k => match k with
      | Call.hook Hook.deactivate => d
      | Call.hook Hook.cleanup => c
      | k => env.fault k, env.supplied, env.indeterminate⟩ := by
  obtain ⟨f, sup, ind⟩ := env
  have : f = fun k => match k with
      | Call.hook Hook.deactivate => d
      | Call.hook Hook.cleanup => c
      | k => f k := by
    funext k
    cases k
    case hook h3 => cases h3 <;> first | rfl | exact hd | exact hc
    all_goals rfl
  rw [Env.mk.injEq]
  exact ⟨this, rfl, rfl⟩

theorem shutdown_deactivate_hook_raises (env : Env) (s : State) (ex : Executor) (cx : Context)
    (e : Nat)
    (hf : env.fault (Call.hook Hook.deactivate) = some e)
    (hi : s.initialised_ = true) (hc : s.configured_ = true) (ha : s.activated_ = true)
    (he : s.exec_ = some ex) (hcx : s.ctx_ = some cx) (hj : s.spinner_.joinable = true) :
    perform Op.shutdown env s = ⟨Res.raised (Exn.foreign e),
      { s with
        exec_ := some { ex with posted := ex.posted + 1 }
        ctx_ := some { cx with shutdown_requests := cx.shutdown_requests + 1 }
        spinner_ := ⟨false⟩
        trace := Event.call (Call.hook Hook.deactivate) :: Event.join :: Event.ctx_shutdown
          :: Event.post Job.shutdown_context :: s.trace }⟩ := by
  rw [Env.eq_of_hook_faults env (some e) _ hf rfl]
  obtain ⟨node, i, cf, a, ms, m, ex0, g, cx0, p, l, t, ct, ch, sg, cc, tc, cg, id, nt, cn, md,
    mb, ci, ⟨sp⟩, tr⟩ := s
  simp only at hi hc ha he hcx hj
  subst hi hc ha he hcx hj
  rfl

theorem shutdown_cleanup_hook_raises (env : Env) (s : State) (e : Nat)
    (hf : env.fault (Call.hook Hook.cleanup) = some e)
    (hi : s.initialised_ = true) (hc : s.configured_ = true) (ha : s.activated_ = false) :
    perform Op.shutdown env s = ⟨Res.raised (Exn.foreign e),
      { s with trace := Event.call (Call.hook Hook.cleanup) :: s.trace }⟩ := by
  rw [Env.eq_of_hook_faults env _ (some e) rfl hf]
  obtain ⟨node, i, cf, a, ms, m, ex0, g, cx, p, l, t, ct, ch, sg, cc, tc, cg, id, nt, cn, md,
    mb, ci, sp, tr⟩ := s
  simp only at hi hc ha
  subst hi hc ha
  rfl

theorem shutdown_cleanup_hook_raises_after_deactivate (env : Env) (s : State)
    (ex : Executor) (cx : Context)
    (e : Nat)
    (hd : env.fault (Call.hook Hook.deactivate) = none)
    (hf : env.fault (Call.hook Hook.cleanup) = some e)
    (hi : s.initialised_ = true) (hc : s.configured_ = true) (ha : s.activated_ = true)
    (he : s.exec_ = some ex) (hcx : s.ctx_ = some cx) (hj : s.spinner_.joinable = true) :
    perform Op.shutdown env s = ⟨Res.raised (Exn.foreign e),
      { s with
        exec_ := some { ex with posted := ex.posted + 1 }
        ctx_ := some { cx with shutdown_requests := cx.shutdown_requests + 1 }
        spinner_ := ⟨false⟩
        activated_ := false
        trace := Event.call (Call.hook Hook.cleanup) :: (deactivate_trace.reverse ++ s.trace) }⟩ := by
  rw [Env.eq_of_hook_faults env none (some e) hd hf]
  obtain ⟨node, i, cf, a, ms, m, ex0, g, cx0, p, l, t, ct, ch, sg, cc, tc, cg, id, nt, cn, md,
    mb, ci, ⟨sp⟩, tr⟩ := s
  simp only at hi hc ha he hcx hj
  subst hi hc ha he hcx hj
  rfl

theorem get_master_eq (s : State) :
    get_master s =
      if s.master_set_ = true then (Res.ok s.master_, s)
      else
        (Res.raised (Exn.MasterException MasterErrorCode.MasterNotMasterSet "get_master"), s) := by
  cases h : s.master_set_ <;>
    simp [get_master, Bind.bind, Exec.bind, read, raise, Exec.pure, h, Pure.pure]

theorem get_executor_eq (s : State) :
    get_executor s =
      if s.master_set_ = true then (Res.ok s.exec_, s)
      else
        (Res.raised (Exn.MasterException MasterErrorCode.MasterNotMasterSet "get_executor"),
          s) := by
  cases h : s.master_set_ <;>
    simp [get_executor, Bind.bind, Exec.bind, read, raise, Exec.pure, h, Pure.pure]

/-! ## The state a successful call leaves, in any environment -/

set_option maxRecDepth 100000 in
theorem configure_ok_state (env : Env) (s : State)
    (hx : (perform Op.configure env s).exit = Res.ok ()) :
    (perform Op.configure env s).state =
      { s with
        container_name_ := s.node_.get_string "container_name" s.container_name_
        master_dcf_ := s.node_.get_string "master_dcf" s.master_dcf_
        master_bin_ := s.node_.get_string "master_bin" s.master_bin_
        can_interface_ := s.node_.get_string "can_interface" s.can_interface_
        node_id_ := to_uint8 (s.node_.get_integer "node_id" s.node_id_)
        non_transmit_timeout_ :=
          to_int32 (s.node_.get_integer "non_transmit_timeout" env.indeterminate)
        config_ := ⟨s.node_.get_string "config" ""⟩
        configured_ := true
        trace := configure_trace.reverse ++ s.trace } := by
  refine perform_sat Op.configure env s (fun r s1 => r = Res.ok () → s1 =
      { s with
        container_name_ := s.node_.get_string "container_name" s.container_name_
        master_dcf_ := s.node_.get_string "master_dcf" s.master_dcf_
        master_bin_ := s.node_.get_string "master_bin" s.master_bin_
        can_interface_ := s.node_.get_string "can_interface" s.can_interface_
        node_id_ := to_uint8 (s.node_.get_integer "node_id" s.node_id_)
        non_transmit_timeout_ :=
          to_int32 (s.node_.get_integer "non_transmit_timeout" env.indeterminate)
        config_ := ⟨s.node_.get_string "config" ""⟩
        configured_ := true
        trace := configure_trace.reverse ++ s.trace }) ?_ hx
  simp [body, configure, configure_trace]
  repeat' split
  all_goals simp_all

theorem init_ok_node (env : Env) (s : State)
    (hx : (perform Op.init env s).exit = Res.ok ()) :
    (perform Op.init env s).state.node_ = declared s.node_ :=
  (init_parameters env s).2.1 hx

theorem activate_ok_state (env : Env) (s : State)
    (hx : (perform Op.activate env s).exit = Res.ok ()) :
    ∃ h, stored_master env s = some h
      ∧ (perform Op.activate env s).state =
        { acquired s with
          master_ := some h
          master_set_ := true
          spinner_ := ⟨true⟩
          activated_ := true
          trace := (finish_trace h).reverse ++ (acquired s).trace } := by
  refine activate_sat env s (fun r s1 => r = Res.ok () → ∃ h, stored_master env s = some h
      ∧ s1 =
        { acquired s with
          master_ := some h
          master_set_ := true
          spinner_ := ⟨true⟩
          activated_ := true
          trace := (finish_trace h).reverse ++ (acquired s).trace }) ?_ ?_ ?_ hx
  · intro _ _ _ h2
    cases h2
  · intro _ _ _ _ h2
    cases h2
  · intro _
    have hsm : stored_master env (acquired s) = stored_master env s := rfl
    cases hm : stored_master env s
    all_goals simp [finish_activation, hsm, hm, finish_trace]
    all_goals repeat' split
    all_goals simp_all [acquired]

theorem activate_no_terminate (env : Env) (s : State)
    (h : s.activated_ = false → s.spinner_.joinable = false) :
    (perform Op.activate env s).exit ≠ Res.aborted Abort.terminate := by
  refine activate_sat env s (fun r _ => r ≠ Res.aborted Abort.terminate) ?_ ?_ ?_
  · intro _ _ _ h2
    cases h2
  · intro _ _ _ _ h2
    cases h2
  · intro hpre
    simp only [precondition, Bool.and_eq_true, Bool.not_eq_true'] at hpre
    have hj := h hpre.2
    simp [finish_activation]
    repeat' split
    all_goals simp_all [acquired]

theorem deactivate_no_system_error (env : Env) (s : State)
    (h : s.activated_ = true → s.spinner_.joinable = true) :
    (perform Op.deactivate env s).exit ≠ Res.raised Exn.system_error := by
  refine perform_sat Op.deactivate env s (fun r _ => r ≠ Res.raised Exn.system_error) ?_
  simp [body, deactivate]
  repeat' split
  all_goals simp_all

theorem cleanup_no_system_error (env : Env) (s : State) :
    (perform Op.cleanup env s).exit ≠ Res.raised Exn.system_error := by
  refine perform_sat Op.cleanup env s (fun r _ => r ≠ Res.raised Exn.system_error) ?_
  simp [body, cleanup]
  repeat' split
  all_goals simp_all

theorem shutdown_no_system_error (env : Env) (s : State)
    (h : s.activated_ = true → s.spinner_.joinable = true) :
    (perform Op.shutdown env s).exit ≠ Res.raised Exn.system_error := by
  refine shutdown_sat env s (fun r _ => r ≠ Res.raised Exn.system_error) ?_ ?_ ?_
  · intro _ _
    exact deactivate_no_system_error env s h
  · intro s1 _ _ _
    exact cleanup_no_system_error env s1
  · intro _ _ _ _
    cases env.fault (Call.hook Hook.shutdown)
    · intro h2
      cases h2
    · intro h2
      cases h2

/-! ## Delivery of signals -/

theorem deliver_watched (rearm : Bool) (sig : Signal) (s : State) (c : Context)
    (hs : s.sigset_ = some ⟨[Signal.SIGHUP, Signal.SIGINT, Signal.SIGTERM], true⟩)
    (hc : s.ctx_ = some c) :
    deliver rearm sig s = (Res.ok (),
      { s with
        sigset_ := some ⟨[], rearm⟩
        ctx_ := some { c with shutdown_requests := c.shutdown_requests + 1 }
        trace := Event.ctx_shutdown :: Event.sigset_clear :: s.trace }) := by
  obtain ⟨node, i, cf, a, ms, m, ex0, g, cx, p, l, t, ct, ch, sg, cc, tc, cg, id, nt, cn, md,
    mb, ci, sp, tr⟩ := s
  simp only at hs hc
  subst hs hc
  cases sig <;> rfl

theorem deliver_cleared (rearm : Bool) (sig : Signal) (s : State) (w : Bool)
    (hs : s.sigset_ = some ⟨[], w⟩) :
    deliver rearm sig s = (Res.ok (), s) := by
  obtain ⟨node, i, cf, a, ms, m, ex0, g, cx, p, l, t, ct, ch, sg, cc, tc, cg, id, nt, cn, md,
    mb, ci, sp, tr⟩ := s
  simp only at hs
  subst hs
  cases w <;> rfl

theorem deliver_all_cleared (rearm : Bool) (sigs : List Signal) (s : State) (w : Bool)
    (hs : s.sigset_ = some ⟨[], w⟩) :
    deliver_all rearm sigs s = (Res.ok (), s) := by
  induction sigs with
  | nil => rfl
  | cons sig rest ih =>
    show Exec.bind (deliver rearm sig) (fun _ => deliver_all rearm rest) s = _
    unfold Exec.bind
    rw [deliver_cleared rearm sig s w hs]
    exact ih

theorem deliver_all_watched (rearm : Bool) (sig : Signal) (rest : List Signal) (s : State)
    (c : Context)
    (hs : s.sigset_ = some ⟨[Signal.SIGHUP, Signal.SIGINT, Signal.SIGTERM], true⟩)
    (hc : s.ctx_ = some c) :
    deliver_all rearm (sig :: rest) s = (Res.ok (),
      { s with
        sigset_ := some ⟨[], rearm⟩
        ctx_ := some { c with shutdown_requests := c.shutdown_requests + 1 }
        trace := Event.ctx_shutdown :: Event.sigset_clear :: s.trace }) := by
  show Exec.bind (deliver rearm sig) (fun _ => deliver_all rearm rest) s = _
  unfold Exec.bind
  rw [deliver_watched rearm sig s c hs hc]
  exact deliver_all_cleared rearm rest _ rearm rfl

/-! ## Configuration -/

theorem to_uint8_of_range (v : Int) (h0 : 0 ≤ v) (h1 : v < 256) :
    ((to_uint8 v : Nat) : Int) = v := by
  unfold to_uint8
  rw [Int.emod_eq_of_lt h0 h1]
  exact Int.toNat_of_nonneg h0

theorem to_int32_of_range (v : Int) (h0 : -2147483648 ≤ v) (h1 : v < 2147483648) :
    to_int32 v = v := by
  unfold to_int32
  rw [Int.emod_eq_of_lt (by omega) (by omega)]
  omega

theorem get_string_of_lookup (n : Node) (name cur v : String)
    (h : n.strings.lookup name = some v) : n.get_string name cur = v := by
  simp [Node.get_string, h]

theorem get_integer_of_lookup (n : Node) (name : String) (cur v : Int)
    (h : n.integers.lookup name = some v) : n.get_integer name cur = v := by
  simp [Node.get_integer, h]

/-- C11, the claim refuted: on a node whose store holds `node_id = 300` before `init`,
`init` and `configure` return, the store still holds 300 for `node_id`, and the field
`node_id_` is 44, not the value in the store. -/
theorem C11_counterexample :
    (perform Op.init (Env.calm none) (construct ⟨[], [("node_id", 300)], [], 0⟩)).exit
      = Res.ok ()
    ∧ (perform Op.configure (Env.calm none)
        (perform Op.init (Env.calm none)
          (construct ⟨[], [("node_id", 300)], [], 0⟩)).state).exit = Res.ok ()
    ∧ (perform Op.configure (Env.calm none)
        (perform Op.init (Env.calm none)
          (construct ⟨[], [("node_id", 300)], [], 0⟩)).state).state.node_.integers.lookup
          "node_id" = some 300
    ∧ (perform Op.configure (Env.calm none)
        (perform Op.init (Env.calm none)
          (construct ⟨[], [("node_id", 300)], [], 0⟩)).state).state.node_id_ = 44 := by
  refine ⟨rfl, rfl, ?_, ?_⟩ <;> decide

/-- C11, as amended: a successful `init` on an empty option store leaves the store
holding container_name = "", master_dcf = "", master_bin = "", can_interface = "vcan0",
config = "", node_id = 0 and non_transmit_timeout = 100. For every content of the store,
a successful `configure` sets each string field to the value the store holds for the
option of the same name and `config_` to the parsed form of the config string; it sets
`node_id_` to the stored integer converted to `uint8_t` and `non_transmit_timeout_` to
the stored integer converted to a 32-bit `int`, in milliseconds, which is the stored
value itself whenever that value fits the type (0 to 255, and -2^31 to 2^31 - 1). So
`configure` directly after `init` on an empty store yields can_interface = "vcan0",
node_id = 0 and non_transmit_timeout = 100 ms. -/
theorem C11_defaults_and_read_back :
    (∀ (env : Env) (s : State), s.node_.strings = [] → s.node_.integers = [] →
      (perform Op.init env s).exit = Res.ok () →
      (perform Op.init env s).state.node_.strings =
          [("container_name", ""), ("master_dcf", ""), ("master_bin", ""),
           ("can_interface", "vcan0"), ("config", "")]
      ∧ (perform Op.init env s).state.node_.integers =
          [("node_id", 0), ("non_transmit_timeout", 100)])
    ∧ (∀ (env : Env) (s : State), (perform Op.configure env s).exit = Res.ok () →
      (∀ v, s.node_.strings.lookup "container_name" = some v →
        (perform Op.configure env s).state.container_name_ = v)
      ∧ (∀ v, s.node_.strings.lookup "master_dcf" = some v →
        (perform Op.configure env s).state.master_dcf_ = v)
      ∧ (∀ v, s.node_.strings.lookup "master_bin" = some v →
        (perform Op.configure env s).state.master_bin_ = v)
      ∧ (∀ v, s.node_.strings.lookup "can_interface" = some v →
        (perform Op.configure env s).state.can_interface_ = v)
      ∧ (∀ v, s.node_.strings.lookup "config" = some v →
        (perform Op.configure env s).state.config_ = ⟨v⟩)
      ∧ (∀ v, s.node_.integers.lookup "node_id" = some v →
        (perform Op.configure env s).state.node_id_ = to_uint8 v
        ∧ (0 ≤ v → v < 256 → ((perform Op.configure env s).state.node_id_ : Int) = v))
      ∧ (∀ v, s.node_.integers.lookup "non_transmit_timeout" = some v →
        (perform Op.configure env s).state.non_transmit_timeout_ = to_int32 v
        ∧ (-2147483648 ≤ v → v < 2147483648 →
            (perform Op.configure env s).state.non_transmit_timeout_ = v)))
    ∧ (∀ (e1 e2 : Env) (s : State), s.node_.strings = [] → s.node_.integers = [] →
      (perform Op.init e1 s).exit = Res.ok () →
      (perform Op.configure e2 (perform Op.init e1 s).state).exit = Res.ok () →
      (perform Op.configure e2 (perform Op.init e1 s).state).state.can_interface_ = "vcan0"
      ∧ (perform Op.configure e2 (perform Op.init e1 s).state).state.node_id_ = 0
      ∧ (perform Op.configure e2 (perform Op.init e1 s).state).state.non_transmit_timeout_
          = 100) := by
  have hdecl : ∀ (env : Env) (s : State), s.node_.strings = [] → s.node_.integers = [] →
      (perform Op.init env s).exit = Res.ok () →
      (perform Op.init env s).state.node_.strings =
          [("container_name", ""), ("master_dcf", ""), ("master_bin", ""),
           ("can_interface", "vcan0"), ("config", "")]
      ∧ (perform Op.init env s).state.node_.integers =
          [("node_id", 0), ("non_transmit_timeout", 100)] := by
    intro env s hs hi hx
    rw [init_ok_node env s hx]
    generalize s.node_ = nd at hs hi
    obtain ⟨strs, ints, n⟩ := nd
    simp only at hs hi
    subst hs hi
    exact ⟨rfl, rfl⟩
  refine ⟨hdecl, ?_, ?_⟩
  · intro env s hx
    rw [configure_ok_state env s hx]
    refine ⟨?_, ?_, ?_, ?_, ?_, ?_, ?_⟩
    · intro v hv
      exact get_string_of_lookup _ _ _ _ hv
    · intro v hv
      exact get_string_of_lookup _ _ _ _ hv
    · intro v hv
      exact get_string_of_lookup _ _ _ _ hv
    · intro v hv
      exact get_string_of_lookup _ _ _ _ hv
    · intro v hv
      show YamlNode.mk _ = _
      rw [get_string_of_lookup _ _ _ _ hv]
    · intro v hv
      have h1 : to_uint8 (s.node_.get_integer "node_id" s.node_id_) = to_uint8 v := by
        rw [get_integer_of_lookup _ _ _ _ hv]
      exact ⟨h1, fun h0 h256 => by
        show ((to_uint8 (s.node_.get_integer "node_id" s.node_id_) : Nat) : Int) = v
        rw [h1]
        exact to_uint8_of_range v h0 h256⟩
    · intro v hv
      have h1 : to_int32 (s.node_.get_integer "non_transmit_timeout" env.indeterminate)
          = to_int32 v := by
        rw [get_integer_of_lookup _ _ _ _ hv]
      exact ⟨h1, fun h0 h2 => by
        show to_int32 (s.node_.get_integer "non_transmit_timeout" env.indeterminate) = v
        rw [h1]
        exact to_int32_of_range v h0 h2⟩
  · intro e1 e2 s hs hi hx1 hx2
    obtain ⟨hstr, hint⟩ := hdecl e1 s hs hi hx1
    rw [configure_ok_state e2 _ hx2]
    refine ⟨?_, ?_, ?_⟩
    · show Node.get_string _ _ _ = _
      simp only [Node.get_string, hstr]
      rfl
    · show to_uint8 (Node.get_integer _ _ _) = _
      simp only [Node.get_integer, hint]
      rfl
    · show to_int32 (Node.get_integer _ _ _) = _
      simp only [Node.get_integer, hint]
      rfl

theorem C11_witness :
    (perform Op.configure (Env.calm none)
      (perform Op.init (Env.calm none) fresh).state).state.can_interface_ = "vcan0"
    ∧ (perform Op.configure (Env.calm none)
        (perform Op.init (Env.calm none) fresh).state).state.node_id_ = 0
    ∧ (perform Op.configure (Env.calm none)
        (perform Op.init (Env.calm none) fresh).state).state.non_transmit_timeout_ = 100 :=
  C11_defaults_and_read_back.2.2 (Env.calm none) (Env.calm none) fresh rfl rfl rfl rfl

/-- C12: `shutdown` does not suppress the errors of its cascade. In a reachable state
(reached by calls whose hooks returned): if the object is activated and the deactivate
hook throws `e`, `shutdown` raises `e` having recorded only the posted job, its run by
the spinner thread, the join and the deactivate hook, and the four flags are as before; if the object is activated, the
deactivate hook returns and the cleanup hook throws `e`, `shutdown` raises `e` having
recorded the deactivation and the cleanup hook, and `initialised_`, `configured_` and
`master_set_` are as before (only the completed `deactivate` cleared `activated_`); if
the object is configured and not activated and the cleanup hook throws `e`, `shutdown`
raises `e` having recorded only the cleanup hook, and the four flags are as before. In
each case no later hook is entered and the final reset of the flags is not done. -/
theorem C12_shutdown_propagates_hook_errors (node : Node) (s : State) (env : Env) (e : Nat)
    (hr : Reachable Env.hooks_return node s) :
    (s.activated_ = true → env.fault (Call.hook Hook.deactivate) = some e →
      (perform Op.shutdown env s).exit = Res.raised (Exn.foreign e)
      ∧ (perform Op.shutdown env s).state.history = s.history ++
          [Event.post Job.shutdown_context, Event.ctx_shutdown, Event.join,
           Event.call (Call.hook Hook.deactivate)]
      ∧ flags (perform Op.shutdown env s).state = flags s
      ∧ (perform Op.shutdown env s).state.initialised_ = true)
    ∧ (s.activated_ = true → env.fault (Call.hook Hook.deactivate) = none →
      env.fault (Call.hook Hook.cleanup) = some e →
      (perform Op.shutdown env s).exit = Res.raised (Exn.foreign e)
      ∧ (perform Op.shutdown env s).state.history = s.history ++
          [Event.post Job.shutdown_context, Event.ctx_shutdown, Event.join,
           Event.call (Call.hook Hook.deactivate), Event.store Flag.activated false,
           Event.call (Call.hook Hook.cleanup)]
      ∧ flags (perform Op.shutdown env s).state
          = (s.initialised_, s.configured_, false, s.master_set_)
      ∧ (perform Op.shutdown env s).state.initialised_ = true
      ∧ (perform Op.shutdown env s).state.configured_ = true)
    ∧ (s.activated_ = false → s.configured_ = true →
      env.fault (Call.hook Hook.cleanup) = some e →
      (perform Op.shutdown env s).exit = Res.raised (Exn.foreign e)
      ∧ (perform Op.shutdown env s).state.history = s.history ++
          [Event.call (Call.hook Hook.cleanup)]
      ∧ flags (perform Op.shutdown env s).state = flags s
      ∧ (perform Op.shutdown env s).state.initialised_ = true) := by
  obtain ⟨⟨i1, i2, _, _, i5, _⟩, hsm⟩ := reachable_hooks_return node s hr
  refine ⟨?_, ?_, ?_⟩
  · intro ha hd
    obtain ⟨ex, cx, hex, hcx⟩ := held_exec_ctx s (i5 ha)
    rw [shutdown_deactivate_hook_raises env s ex cx e hd (i2 (i1 ha)) (i1 ha) ha hex hcx
      (hsm ha)]
    refine ⟨rfl, history_of_trace s _ _ rfl, rfl, i2 (i1 ha)⟩
  · intro ha hd hc
    obtain ⟨ex, cx, hex, hcx⟩ := held_exec_ctx s (i5 ha)
    rw [shutdown_cleanup_hook_raises_after_deactivate env s ex cx e hd hc (i2 (i1 ha))
      (i1 ha) ha hex hcx (hsm ha)]
    refine ⟨rfl, history_of_trace s _ _ rfl, rfl, i2 (i1 ha), i1 ha⟩
  · intro ha hcf hc
    rw [shutdown_cleanup_hook_raises env s e hc (i2 hcf) hcf ha]
    refine ⟨rfl, history_of_trace s _ _ rfl, rfl, i2 hcf⟩

theorem C12_witness :
    (perform Op.shutdown ⟨fun c => if c = Call.hook Hook.cleanup then some 3 else none,
        none, 0⟩ example_deactivated).exit = Res.raised (Exn.foreign 3)
    ∧ flags (perform Op.shutdown ⟨fun c => if c = Call.hook Hook.cleanup then some 3 else none,
        none, 0⟩ example_deactivated).state = flags example_deactivated :=
  ⟨((C12_shutdown_propagates_hook_errors ⟨[], [], [], 0⟩ example_deactivated
      ⟨fun c => if c = Call.hook Hook.cleanup then some 3 else none, none, 0⟩ 3
      (example_deactivated_reachable _ (fun _ => rfl) (fun _ => rfl))).2.2 rfl rfl rfl).1,
    ((C12_shutdown_propagates_hook_errors ⟨[], [], [], 0⟩ example_deactivated
      ⟨fun c => if c = Call.hook Hook.cleanup then some 3 else none, none, 0⟩ 3
      (example_deactivated_reachable _ (fun _ => rfl) (fun _ => rfl))).2.2 rfl rfl rfl).2.2.1⟩

/-- C13: errors of hooks are neither swallowed nor allowed to advance the lifecycle. For
init, configure, activate, deactivate and cleanup, in a state satisfying the
precondition of the operation and from which the hook is reached (for `init`, the node
has not declared the options yet, as before a first `init`; for `deactivate`, the
executor and the context are present and the spinner is joinable, as in every reachable
Activated state), if the hook of the operation throws `e` and nothing before it throws,
the operation raises exactly `e`, the four flags are as before the call, and the entry
of the hook is the last thing recorded: the flag of the operation is stored only after
the hook has returned. -/
theorem C13_hook_error_propagates (op : Op) (env : Env) (s : State) (e : Nat)
    (hop : op ≠ Op.shutdown) (hf : env.only_hook_throws (hook_of op) e)
    (hpre : precondition op s = true)
    (hi : op = Op.init → s.node_.undeclared)
    (hd : op = Op.deactivate →
      s.exec_.isSome = true ∧ s.ctx_.isSome = true ∧ s.spinner_.joinable = true) :
    (perform op env s).exit = Res.raised (Exn.foreign e)
    ∧ flags (perform op env s).state = flags s
    ∧ (perform op env s).state.trace.head? = some (Event.call (Call.hook (hook_of op))) :=
  hook_raises op env s e hop hf hpre hi hd

theorem C13_witness :
    Op.configure ≠ Op.shutdown
    ∧ precondition Op.configure (perform Op.init (Env.calm none) fresh).state = true
    ∧ (perform Op.configure
        ⟨fun c => if c = Call.hook Hook.configure then some 9 else none, none, 0⟩
        (perform Op.init (Env.calm none) fresh).state).exit = Res.raised (Exn.foreign 9)
    ∧ flags (perform Op.configure
        ⟨fun c => if c = Call.hook Hook.configure then some 9 else none, none, 0⟩
        (perform Op.init (Env.calm none) fresh).state).state
      = flags (perform Op.init (Env.calm none) fresh).state
    ∧ fresh.node_.undeclared
    ∧ (perform Op.init ⟨fun c => if c = Call.hook Hook.init then some 4 else none, none, 0⟩
        fresh).exit = Res.raised (Exn.foreign 4)
    ∧ (perform Op.activate (Env.calm (some 1)) example_configured).state.ctx_.isSome = true
    ∧ (perform Op.deactivate
        ⟨fun c => if c = Call.hook Hook.deactivate then some 5 else none, none, 0⟩
        (perform Op.activate (Env.calm (some 1)) example_configured).state).exit
      = Res.raised (Exn.foreign 5) :=
  ⟨by decide, rfl,
    (C13_hook_error_propagates Op.configure
      ⟨fun c => if c = Call.hook Hook.configure then some 9 else none, none, 0⟩
      (perform Op.init (Env.calm none) fresh).state 9 (by decide)
      ⟨rfl, fun _ hc => if_neg hc⟩ rfl (by intro h; cases h) (by intro h; cases h)).1,
    (C13_hook_error_propagates Op.configure
      ⟨fun c => if c = Call.hook Hook.configure then some 9 else none, none, 0⟩
      (perform Op.init (Env.calm none) fresh).state 9 (by decide)
      ⟨rfl, fun _ hc => if_neg hc⟩ rfl (by intro h; cases h) (by intro h; cases h)).2.1,
    fun _ _ => rfl,
    (C13_hook_error_propagates Op.init
      ⟨fun c => if c = Call.hook Hook.init then some 4 else none, none, 0⟩
      fresh 4 (by decide) ⟨rfl, fun _ hc => if_neg hc⟩ rfl (fun _ _ _ => rfl)
      (by intro h; cases h)).1,
    rfl,
    (C13_hook_error_propagates Op.deactivate
      ⟨fun c => if c = Call.hook Hook.deactivate then some 5 else none, none, 0⟩
      (perform Op.activate (Env.calm (some 1)) example_configured).state 5 (by decide)
      ⟨rfl, fun _ hc => if_neg hc⟩ rfl (by intro h; cases h) (fun _ => ⟨rfl, rfl, rfl⟩)).1⟩

/-- C14: every `activate` that returns has performed, in this order and nothing else:
the creation of the io guard, the context, the poll, the loop, the executor, the timer,
the CAN controller, the CAN channel, the opening of the channel, the creation of the
signal set, the insertion of SIGHUP, SIGINT and SIGTERM, the submission of the wait,
the activate hook, the store of `master_set_`, the reset of the master found in
`master_`, the start of the spinner thread and, last, the store of `activated_`. The
timer is on the monotonic clock, the controller is bound to the configured
`can_interface_`, the channel is open on it and the wait is pending. -/
theorem C14_activation_sequence (env : Env) (s : State)
    (hx : (perform Op.activate env s).exit = Res.ok ()) :
    ∃ h, stored_master env s = some h
      ∧ (perform Op.activate env s).state.history = s.history ++
          [Event.call (Call.make Resource.io_guard), Event.call (Call.make Resource.ctx),
           Event.call (Call.make Resource.poll), Event.call (Call.make Resource.loop),
           Event.call (Call.make Resource.exec), Event.call (Call.make Resource.timer),
           Event.call (Call.make Resource.ctrl), Event.call (Call.make Resource.chan),
           Event.call Call.chan_open, Event.call (Call.make Resource.sigset),
           Event.call (Call.sigset_insert Signal.SIGHUP),
           Event.call (Call.sigset_insert Signal.SIGINT),
           Event.call (Call.sigset_insert Signal.SIGTERM), Event.call Call.submit_wait,
           Event.call (Call.hook Hook.activate), Event.store Flag.master_set true,
           Event.call (Call.master_reset h), Event.call Call.thread_start,
           Event.store Flag.activated true]
      ∧ (perform Op.activate env s).state.master_ = some h
      ∧ (perform Op.activate env s).state.timer_ = some ⟨Clock.CLOCK_MONOTONIC⟩
      ∧ (perform Op.activate env s).state.ctrl_ = some ⟨s.can_interface_⟩
      ∧ (perform Op.activate env s).state.chan_ = some ⟨some s.can_interface_⟩
      ∧ (perform Op.activate env s).state.sigset_
          = some ⟨[Signal.SIGHUP, Signal.SIGINT, Signal.SIGTERM], true⟩ := by
  obtain ⟨h, hm, hs⟩ := activate_ok_state env s hx
  refine ⟨h, hm, ?_⟩
  rw [hs]
  refine ⟨?_, rfl, rfl, rfl, rfl, rfl⟩
  simp [State.history, acquired, acquire_trace, finish_trace]

theorem C14_witness :
    (perform Op.activate (Env.calm (some 1)) example_configured).exit = Res.ok ()
    ∧ ∃ h, stored_master (Env.calm (some 1)) example_configured = some h
      ∧ (perform Op.activate (Env.calm (some 1)) example_configured).state.master_ = some h :=
  ⟨rfl, (C14_activation_sequence (Env.calm (some 1)) example_configured rfl).imp
    fun _ hh => ⟨hh.1, hh.2.2.1⟩⟩

/-- C16: the signal bridge is single-shot. On the object left by any `activate` that
returned, no shutdown has been requested; for every sequence of delivered signals
(each is SIGHUP, SIGINT or SIGTERM), the number of shutdown requests on the context is
0 when the sequence is empty and 1 otherwise; the first delivery runs the handler,
which records the clearing of the signal set and then the shutdown request and changes
no other member; the deliveries after the first change nothing, and neither does any
further delivery. This holds whether or not the library leaves the completed wait
armed (`rearm`), because the handler has emptied the signal set. -/
theorem C16_signal_bridge_single_shot (env : Env) (s : State) (rearm : Bool)
    (hx : (perform Op.activate env s).exit = Res.ok ()) :
    (perform Op.activate env s).state.ctx_ = some ⟨0⟩
    ∧ (∀ sigs : List Signal,
        (deliver_all rearm sigs (perform Op.activate env s).state).1 = Res.ok ()
        ∧ (deliver_all rearm sigs (perform Op.activate env s).state).2.ctx_
            = some ⟨if sigs.isEmpty then 0 else 1⟩)
    ∧ deliver_all rearm [] (perform Op.activate env s).state
        = (Res.ok (), (perform Op.activate env s).state)
    ∧ (∀ (sig : Signal) (rest : List Signal),
        deliver_all rearm (sig :: rest) (perform Op.activate env s).state
          = deliver rearm sig (perform Op.activate env s).state
        ∧ deliver rearm sig (perform Op.activate env s).state = (Res.ok (),
            { (perform Op.activate env s).state with
              sigset_ := some ⟨[], rearm⟩
              ctx_ := some ⟨1⟩
              trace := Event.ctx_shutdown :: Event.sigset_clear
                :: (perform Op.activate env s).state.trace })
        ∧ (deliver rearm sig (perform Op.activate env s).state).2.history
            = (perform Op.activate env s).state.history
                ++ [Event.sigset_clear, Event.ctx_shutdown]
        ∧ (∀ sig2 : Signal,
            deliver rearm sig2 (deliver rearm sig (perform Op.activate env s).state).2
              = (Res.ok (), (deliver rearm sig (perform Op.activate env s).state).2))) := by
  obtain ⟨h, _, hs⟩ := activate_ok_state env s hx
  have hsig : (perform Op.activate env s).state.sigset_
      = some ⟨[Signal.SIGHUP, Signal.SIGINT, Signal.SIGTERM], true⟩ := by rw [hs]; rfl
  have hctx : (perform Op.activate env s).state.ctx_ = some ⟨0⟩ := by rw [hs]; rfl
  generalize (perform Op.activate env s).state = st at hsig hctx
  have hone : ∀ sig, deliver rearm sig st = (Res.ok (),
      { st with
        sigset_ := some ⟨[], rearm⟩
        ctx_ := some ⟨1⟩
        trace := Event.ctx_shutdown :: Event.sigset_clear :: st.trace }) :=
    fun sig => deliver_watched rearm sig st ⟨0⟩ hsig hctx
  have hall : ∀ sig rest, deliver_all rearm (sig :: rest) st = (Res.ok (),
      { st with
        sigset_ := some ⟨[], rearm⟩
        ctx_ := some ⟨1⟩
        trace := Event.ctx_shutdown :: Event.sigset_clear :: st.trace }) :=
    fun sig rest => deliver_all_watched rearm sig rest st ⟨0⟩ hsig hctx
  refine ⟨hctx, ?_, rfl, ?_⟩
  · intro sigs
    cases sigs with
    | nil => exact ⟨rfl, hctx⟩
    | cons sig rest =>
      rw [hall sig rest]
      exact ⟨rfl, rfl⟩
  · intro sig rest
    refine ⟨by rw [hall sig rest, hone sig], hone sig, ?_, ?_⟩
    · rw [hone sig]
      exact history_of_trace st _ [Event.sigset_clear, Event.ctx_shutdown] rfl
    · intro sig2
      rw [hone sig]
      exact deliver_cleared rearm sig2 _ rearm rfl

theorem C16_witness :
    (perform Op.activate (Env.calm (some 1)) example_configured).exit = Res.ok ()
    ∧ (deliver_all false [Signal.SIGINT, Signal.SIGTERM, Signal.SIGINT]
        (perform Op.activate (Env.calm (some 1)) example_configured).state).2.ctx_
      = some ⟨1⟩ :=
  ⟨rfl, ((C16_signal_bridge_single_shot (Env.calm (some 1)) example_configured false rfl).2.1
    [Signal.SIGINT, Signal.SIGTERM, Signal.SIGINT]).2⟩

/-- C17: no rollback when `activate` fails at or right after the hook. In a state
satisfying the precondition of `activate`, when the acquisition of the resources did
not throw: if the hook throws `e`, `activate` raises `e`; if the hook returns and
`master_` is still empty, `activate` raises `MasterNotMasterSet`. In both cases the
object left behind is the one with all resources acquired and the hook recorded: the
nine handles are held, the channel is open on the configured interface, the wait on the
three signals is pending, and `activated_` is false. -/
theorem C17_no_rollback_on_hook_failure (env : Env) (s : State)
    (hpre : precondition Op.activate s = true) :
    (∀ e, env.only_hook_throws Hook.activate e →
      (perform Op.activate env s).exit = Res.raised (Exn.foreign e)
      ∧ (perform Op.activate env s).state =
          { acquired s with
            trace := Event.call (Call.hook Hook.activate) :: (acquired s).trace }
      ∧ resources_held (perform Op.activate env s).state = true
      ∧ (perform Op.activate env s).state.chan_ = some ⟨some s.can_interface_⟩
      ∧ (perform Op.activate env s).state.sigset_
          = some ⟨[Signal.SIGHUP, Signal.SIGINT, Signal.SIGTERM], true⟩
      ∧ (perform Op.activate env s).state.activated_ = false)
    ∧ (env.no_fault → stored_master env s = none →
      (perform Op.activate env s).exit
        = Res.raised (Exn.MasterException MasterErrorCode.MasterNotMasterSet "activate")
      ∧ (perform Op.activate env s).state =
          { acquired s with
            trace := Event.call (Call.hook Hook.activate) :: (acquired s).trace }
      ∧ resources_held (perform Op.activate env s).state = true
      ∧ (perform Op.activate env s).state.chan_ = some ⟨some s.can_interface_⟩
      ∧ (perform Op.activate env s).state.sigset_
          = some ⟨[Signal.SIGHUP, Signal.SIGINT, Signal.SIGTERM], true⟩
      ∧ (perform Op.activate env s).state.activated_ = false) := by
  simp only [precondition, Bool.and_eq_true, Bool.not_eq_true'] at hpre
  obtain ⟨⟨hi, hc⟩, ha⟩ := hpre
  constructor
  · intro e hf
    rw [activate_hook_raises env s e hf hi hc ha]
    exact ⟨rfl, rfl, rfl, rfl, rfl, ha⟩
  · intro hf hm
    rw [activate_not_set env s hf hm hi hc ha]
    exact ⟨rfl, rfl, rfl, rfl, rfl, ha⟩

theorem C17_witness :
    precondition Op.activate (perform Op.configure (Env.calm none)
        (perform Op.init (Env.calm none) fresh).state).state = true
    ∧ (perform Op.activate (Env.calm none) (perform Op.configure (Env.calm none)
        (perform Op.init (Env.calm none) fresh).state).state).exit
      = Res.raised (Exn.MasterException MasterErrorCode.MasterNotMasterSet "activate")
    ∧ resources_held (perform Op.activate (Env.calm none) (perform Op.configure
        (Env.calm none) (perform Op.init (Env.calm none) fresh).state).state).state = true :=
  ⟨rfl,
    ((C17_no_rollback_on_hook_failure (Env.calm none) (perform Op.configure (Env.calm none)
        (perform Op.init (Env.calm none) fresh).state).state rfl).2 (fun _ => rfl) rfl).1,
    ((C17_no_rollback_on_hook_failure (Env.calm none) (perform Op.configure (Env.calm none)
        (perform Op.init (Env.calm none) fresh).state).state rfl).2 (fun _ => rfl)
        rfl).2.2.1⟩

/-- C18: thread-handle safety. In every state reachable from the initial one by
lifecycle calls whose hooks return, the spinner thread is joinable if and only if
`activated_` is true. Therefore, in such a state and in any environment, `activate`
never ends in `std::terminate` (it never assigns over a joinable handle), and neither
`deactivate` nor `shutdown` raises the `std::system_error` of a join on a handle that
is not joinable. -/
theorem C18_thread_handle_safety (node : Node) (s : State)
    (hr : Reachable Env.hooks_return node s) :
    (s.spinner_.joinable = true ↔ s.activated_ = true)
    ∧ (∀ env : Env, (perform Op.activate env s).exit ≠ Res.aborted Abort.terminate)
    ∧ (∀ env : Env, (perform Op.deactivate env s).exit ≠ Res.raised Exn.system_error)
    ∧ (∀ env : Env, (perform Op.shutdown env s).exit ≠ Res.raised Exn.system_error) := by
  obtain ⟨⟨_, _, _, _, _, i6⟩, hsm⟩ := reachable_hooks_return node s hr
  refine ⟨⟨i6, hsm⟩, ?_, ?_, ?_⟩
  · intro env
    refine activate_no_terminate env s ?_
    intro ha
    cases hj : s.spinner_.joinable
    · rfl
    · rw [i6 hj] at ha
      cases ha
  · intro env
    exact deactivate_no_system_error env s hsm
  · intro env
    exact shutdown_no_system_error env s hsm

theorem C18_witness :
    (example_deactivated.spinner_.joinable = true ↔ example_deactivated.activated_ = true)
    ∧ (perform Op.activate (Env.calm none) example_deactivated).exit
        ≠ Res.aborted Abort.terminate :=
  ⟨(C18_thread_handle_safety ⟨[], [], [], 0⟩ example_deactivated
      (example_deactivated_reachable _ (fun _ => rfl) (fun _ => rfl))).1,
    (C18_thread_handle_safety ⟨[], [], [], 0⟩ example_deactivated
      (example_deactivated_reachable _ (fun _ => rfl) (fun _ => rfl))).2.1 (Env.calm none)⟩

/-- C19: the accessor guard. `get_master` and `get_executor` raise `MasterNotMasterSet`
exactly when `master_set_` is false, and otherwise return the stored master handle and
the stored executor; in both cases the object is unchanged. In every reachable state
(hooks store a handle or leave `master_` alone), `master_set_` implies that the master
handle and the executor are non-empty, and `activated_` implies `master_set_`; so what a
successful `get_master` or `get_executor` returns is never empty. -/
theorem C19_accessor_guard :
    (∀ s : State,
      (get_master s).2 = s ∧ (get_executor s).2 = s
      ∧ (s.master_set_ = true →
          (get_master s).1 = Res.ok s.master_ ∧ (get_executor s).1 = Res.ok s.exec_)
      ∧ (s.master_set_ = false →
          (get_master s).1
            = Res.raised (Exn.MasterException MasterErrorCode.MasterNotMasterSet "get_master")
          ∧ (get_executor s).1
            = Res.raised
                (Exn.MasterException MasterErrorCode.MasterNotMasterSet "get_executor"))
      ∧ ((∃ w, (get_master s).1
            = Res.raised (Exn.MasterException MasterErrorCode.MasterNotMasterSet w))
          ↔ s.master_set_ = false)
      ∧ ((∃ w, (get_executor s).1
            = Res.raised (Exn.MasterException MasterErrorCode.MasterNotMasterSet w))
          ↔ s.master_set_ = false))
    ∧ (∀ (node : Node) (s : State), Reachable (fun _ => True) node s →
      (s.master_set_ = true → s.master_.isSome = true ∧ s.exec_.isSome = true)
      ∧ (s.activated_ = true → s.master_set_ = true)
      ∧ (∀ m, (get_master s).1 = Res.ok m → m.isSome = true)
      ∧ (∀ x, (get_executor s).1 = Res.ok x → x.isSome = true)) := by
  constructor
  · intro s
    rw [get_master_eq, get_executor_eq]
    cases h : s.master_set_ <;> simp
  · intro node s hr
    obtain ⟨_, _, i3, i4, _, _⟩ := invariant_reachable _ node s hr
    refine ⟨i4, i3, ?_, ?_⟩
    · intro m hm
      rw [get_master_eq] at hm
      cases h : s.master_set_
      · simp [h] at hm
      · simp only [h, if_true] at hm
        cases hm
        exact (i4 h).1
    · intro x hx
      rw [get_executor_eq] at hx
      cases h : s.master_set_
      · simp [h] at hx
      · simp only [h, if_true] at hx
        cases hx
        exact (i4 h).2

theorem C19_witness :
    (get_master fresh).1
      = Res.raised (Exn.MasterException MasterErrorCode.MasterNotMasterSet "get_master")
    ∧ (get_master example_deactivated).1 = Res.ok (some 7)
    ∧ (example_deactivated.master_set_ = true →
        example_deactivated.master_.isSome = true ∧ example_deactivated.exec_.isSome = true) :=
  ⟨((C19_accessor_guard.1 fresh).2.2.2.1 rfl).1,
    ((C19_accessor_guard.1 example_deactivated).2.2.1 rfl).1,
    (C19_accessor_guard.2 ⟨[], [], [], 0⟩ example_deactivated
      (example_deactivated_reachable _ trivial trivial)).1⟩

end NodeCanopenMaster
